import Mathlib

/-!
# WarehouseControl: token authentication and user sessions

A shallow embedding of `internal/auth`, `internal/domain/user` and
`internal/app/user`.  Go functions returning `(value, error)` become functions
into `Outcome`; a Go panic is a third outcome.  Every `time.Now()` reading is an
explicit argument.  The third-party packages (golang-jwt, bcrypt, google/uuid,
regexp, unicode) are either modelled next to their call site or passed in as a
record of functions.
-/

namespace WarehouseControl

/-! ## Go runtime values -/

/-- A Go `error` value: its `Error()` text, and a tag that tells apart error
values which print alike. -/
structure GoError where
  msg : String
  tag : Nat
deriving DecidableEq, Repr

/-- The value built by `errors.New(msg)`. -/
def errorsNew (msg : String) : GoError := ⟨msg, 0⟩

/-- Result of a Go call: a value with a nil error, a non-nil error, or a panic. -/
inductive Outcome (α : Type) where
  | ok (a : α)
  | error (e : GoError)
  | panic (msg : String)
deriving DecidableEq, Repr

/-- An instant, in nanoseconds since the Unix epoch (`time.Time`). -/
abbrev Time := Int

/-- Nanoseconds per second. -/
def nsPerSec : Int := 1000000000

/-- Two's-complement wrap of an integer into the `int64` range. -/
def wrapInt64 (x : Int) : Int := (x + 2 ^ 63) % 2 ^ 64 - 2 ^ 63

/-- A whole number as the conversion `int64(f)` of a `float64` yields it: itself when
an `int64` holds it, else -2^63, the result on amd64 (the Go specification leaves the
result of a conversion that does not fit to the implementation). -/
def toInt64 (n : Int) : Int := if -2 ^ 63 ≤ n ∧ n < 2 ^ 63 then n else -2 ^ 63

/-- The integer part of a `float64`, rounded toward zero (`math.Modf`, and the
rounding of `int64(f)`). -/
def truncate (x : ℚ) : Int := if 0 ≤ x then ⌊x⌋ else ⌈x⌉

/-- The Go conversion `int64(f)` of a `float64`. -/
def int64OfFloat (x : ℚ) : Int := toInt64 (truncate x)

/-- The constant `unixToInternal` of package `time`: the seconds from 1 January of
year 1, from which a `time.Time` counts, to the Unix epoch. -/
def unixToInternal : Int := 62135596800

/-- The function `unixTime(sec, 0)` of package `time`: the instant whose count of
seconds from year 1 is `sec + unixToInternal`, a sum of two `int64` that wraps. -/
def unixTime (sec : Int) : Time := (wrapInt64 (sec + unixToInternal) - unixToInternal) * nsPerSec

/-- The Go call `time.Unix(sec, 0)`.  The argument is an `int64`; a number that does
not fit stands for a `float64` handed over as `int64(f)`. -/
def timeUnix (sec : Int) : Time := unixTime (toInt64 sec)

/-- The Go method `Time.Unix()`: whole seconds since the epoch, rounded down. -/
def Time.Unix (t : Time) : Int := t / nsPerSec

/-- The Go method `t.Before(u)`. -/
def Time.Before (t u : Time) : Bool := decide (t < u)

/-- The constant `time.Minute`, a `time.Duration` in nanoseconds. -/
def timeMinute : Int := 60 * nsPerSec

/-- The constant `time.Hour`. -/
def timeHour : Int := 3600 * nsPerSec

/-- The Go method `t.Add(d)` for instants far from the ends of the `time.Time` range. -/
def Time.Add (t : Time) (d : Int) : Time := t + d

/-! ## google/uuid -/

/-- A `uuid.UUID`: sixteen bytes. -/
structure UUID where
  b0 : Fin 256
  b1 : Fin 256
  b2 : Fin 256
  b3 : Fin 256
  b4 : Fin 256
  b5 : Fin 256
  b6 : Fin 256
  b7 : Fin 256
  b8 : Fin 256
  b9 : Fin 256
  b10 : Fin 256
  b11 : Fin 256
  b12 : Fin 256
  b13 : Fin 256
  b14 : Fin 256
  b15 : Fin 256
deriving DecidableEq, Repr

/-- Lower-case hexadecimal digit of a value below sixteen. -/
def hexDigit (n : Nat) : Char :=
  if n < 10 then Char.ofNat (48 + n) else Char.ofNat (87 + n)

/-- Two hexadecimal digits of a byte (`hex.Encode`). -/
def encodeHex (b : Fin 256) : List Char := [hexDigit (b.val / 16), hexDigit (b.val % 16)]

/-- The table `xvalues` of google/uuid: value of a hexadecimal digit, either case. -/
def xvalue (c : Char) : Option Nat :=
  if 48 ≤ c.toNat ∧ c.toNat ≤ 57 then some (c.toNat - 48)
  else if 97 ≤ c.toNat ∧ c.toNat ≤ 102 then some (c.toNat - 87)
  else if 65 ≤ c.toNat ∧ c.toNat ≤ 70 then some (c.toNat - 55)
  else none

/-- The helper `xtob` of google/uuid: a byte from two hexadecimal digits. -/
def xtob (x1 x2 : Char) : Option (Fin 256) :=
  match xvalue x1, xvalue x2 with
  | some a, some b => some (Fin.ofNat (16 * a + b))
  | _, _ => none

/-- The Go method `UUID.String()`: the form xxxxxxxx-xxxx-xxxx-xxxx-xxxxxxxxxxxx. -/
def UUID.String (u : UUID) : String :=
  String.mk (encodeHex u.b0 ++ encodeHex u.b1 ++ encodeHex u.b2 ++ encodeHex u.b3 ++ ['-']
    ++ encodeHex u.b4 ++ encodeHex u.b5 ++ ['-']
    ++ encodeHex u.b6 ++ encodeHex u.b7 ++ ['-']
    ++ encodeHex u.b8 ++ encodeHex u.b9 ++ ['-']
    ++ encodeHex u.b10 ++ encodeHex u.b11 ++ encodeHex u.b12 ++ encodeHex u.b13
    ++ encodeHex u.b14 ++ encodeHex u.b15)

/-- The sixteen bytes of a UUID, in order. -/
def UUID.bytes (u : UUID) : List (Fin 256) :=
  [u.b0, u.b1, u.b2, u.b3, u.b4, u.b5, u.b6, u.b7, u.b8, u.b9, u.b10, u.b11, u.b12, u.b13,
    u.b14, u.b15]

/-- A UUID from exactly sixteen bytes. -/
def UUID.ofBytes : List (Fin 256) → Option UUID
  | [b0, b1, b2, b3, b4, b5, b6, b7, b8, b9, b10, b11, b12, b13, b14, b15] =>
    some ⟨b0, b1, b2, b3, b4, b5, b6, b7, b8, b9, b10, b11, b12, b13, b14, b15⟩
  | _ => none

/-- The byte `xtob(s[x], s[x+1])` of a character sequence. -/
def byteAt (cs : List Char) (x : Nat) : Option (Fin 256) :=
  match cs.get? x, cs.get? (x + 1) with
  | some a, some b => xtob a b
  | _, _ => none

/-- The bytes at a list of offsets, or `none` as soon as one pair is not two digits. -/
def bytesAt (cs : List Char) : List Nat → Option (List (Fin 256))
  | [] => some []
  | x :: xs =>
    match byteAt cs x with
    | none => none
    | some b =>
      match bytesAt cs xs with
      | none => none
      | some bs => some (b :: bs)

/-- Offsets of the sixteen digit pairs in the dashed form, the table in `uuid.Parse`. -/
def dashedOffsets : List Nat := [0, 2, 4, 6, 9, 11, 14, 16, 19, 21, 24, 26, 28, 30, 32, 34]

/-- Offsets of the sixteen digit pairs in the 32-digit form (`i*2`). -/
def plainOffsets : List Nat := [0, 2, 4, 6, 8, 10, 12, 14, 16, 18, 20, 22, 24, 26, 28, 30]

/-- The dashed form read at fixed offsets; anything after the 36th byte is ignored,
as in `uuid.Parse`. -/
def parseDashed (cs : List Char) : Option UUID :=
  if cs.get? 8 = some '-' ∧ cs.get? 13 = some '-' ∧ cs.get? 18 = some '-' ∧ cs.get? 23 = some '-'
  then (bytesAt cs dashedOffsets).bind UUID.ofBytes
  else none

/-- The 32-digit form without dashes. -/
def parsePlain (cs : List Char) : Option UUID :=
  (bytesAt cs plainOffsets).bind UUID.ofBytes

/-- The Go function `uuid.Parse`, with `none` for a returned error.  A string
holding a byte above 127 never parses (every form checks each byte it keeps
against `-` or the digit table); for the others a byte is a character and the
length dispatch is on the number of characters. -/
def uuidParse (s : String) : Option UUID :=
  let cs := s.toList
  if cs.all (fun c => decide (c.toNat < 128)) then
    if cs.length = 36 then parseDashed cs
    else if cs.length = 45 then
      if (cs.take 9).map Char.toLower = "urn:uuid:".toList then parseDashed (cs.drop 9)
      else none
    else if cs.length = 38 then parseDashed (cs.drop 1)
    else if cs.length = 32 then parsePlain cs
    else none
  else none

/-- The Go function `uuid.MustParse`: panics where `uuid.Parse` returns an error.  The
panic text is kept up to the input string; the parse error that follows it is left out. -/
def uuidMustParse (s : String) : Outcome UUID :=
  match uuidParse s with
  | some u => .ok u
  | none => .panic ("uuid: Parse(" ++ s ++ ")")

/-! ## golang-jwt (v5), as called with `jwt.Parse(tokenStr, keyFunc)` -/

/-- A claim value as `encoding/json` decodes it into `interface{}`: a string, a
number (a `float64`, given by the number it denotes: a JSON number is never NaN or
infinite), or anything else.  A whole number of seconds put into the claims by the
issuer is read back as the same number, which is exact below 2^53 in size. -/
inductive JValue where
  | str (s : String)
  | num (x : ℚ)
  | other
deriving DecidableEq, Repr

/-- The Go type `jwt.MapClaims`; a key is looked up with `List.lookup`. -/
abbrev MapClaims := List (String × JValue)

/-- A token string as the parser sees it: either it does not split into three
decodable segments, or it yields the header algorithm, the signing string
(the first two segments), the decoded claims and the signature segment. -/
inductive TokenStr where
  | malformed (raw : String)
  | jws (alg : String) (signingString : String) (claims : MapClaims) (signature : String)
deriving DecidableEq, Repr

/-- Whether the token string is `""`; a three-segment string holds two dots. -/
def TokenStr.isEmpty : TokenStr → Bool
  | .malformed raw => raw == ""
  | .jws _ _ _ _ => false

/-- The functions of golang-jwt and `crypto/hmac` the model is parametric in. -/
structure JwtLib where
  /-- Signature segment of a signing string under a key (`SigningMethodHMAC.Sign`). -/
  hmac : (alg : String) → (key : String) → (signingString : String) → String
  /-- Signing string of an HS256 token with the given claims (`Token.SigningString`). -/
  signingString : MapClaims → String

/-- The function `newNumericDateFromSeconds(f)` of golang-jwt:
`time.Unix(int64(round), int64(frac * 1e9))` for the two parts `math.Modf` splits `f`
into, truncated to the second.  The fraction is `fracNum / f.den`, so its count of
nanoseconds is the quotient below, rounded toward zero; `time.Unix` borrows a second
for a negative count, and the truncation then drops the nanoseconds. -/
def newNumericDateFromSeconds (f : ℚ) : Time :=
  let round : Int := truncate f
  let fracNum : Int := f.num - round * f.den
  let sec : Int := toInt64 round
  let nsec : Int := toInt64 (Int.tdiv (fracNum * 1000000000) f.den)
  unixTime (if nsec < 0 then sec - 1 else sec)

/-- The method `MapClaims.parseNumericDate`: `none` for a value of the wrong type,
`some none` for an absent claim or the number zero, else the date. -/
def parseNumericDate (m : MapClaims) (key : String) : Option (Option Time) :=
  match m.lookup key with
  | none => some none
  | some (.num x) => if x = 0 then some none else some (some (newNumericDateFromSeconds x))
  | some _ => none

/-- The check `Validator.verifyExpiresAt` with `exp` not required: passes when the
claim is absent, fails on a wrong type, else requires `cmp` before the expiry. -/
def verifyExpiresAt (claims : MapClaims) (cmp : Time) : Bool :=
  match parseNumericDate claims "exp" with
  | none => false
  | some none => true
  | some (some exp) => Time.Before cmp exp

/-- The check `Validator.verifyNotBefore` with `nbf` not required. -/
def verifyNotBefore (claims : MapClaims) (cmp : Time) : Bool :=
  match parseNumericDate claims "nbf" with
  | none => false
  | some none => true
  | some (some nbf) => !Time.Before cmp nbf

/-- The default `Validator.Validate`: expiry and not-before (issued-at, audience,
issuer and subject are checked only on request). -/
def validateClaims (claims : MapClaims) (now : Time) : Bool :=
  verifyExpiresAt claims now && verifyNotBefore claims now

/-- Algorithms whose `Verify` accepts the `[]byte` key returned by the key function. -/
def hmacAlgs : List String := ["HS256", "HS384", "HS512"]

/-- Signature step of `Parser.ParseWithClaims` for a `[]byte` key. -/
def verifySignature (L : JwtLib) (alg key signingString signature : String) : Bool :=
  hmacAlgs.contains alg && L.hmac alg key signingString == signature

/-- The call `jwt.Parse(tokenStr, keyFunc)` with a key function returning `key`, read
at instant `now`: `some claims` when `err == nil` (then `token.Valid` holds), else `none`. -/
def jwtParse (L : JwtLib) (key : String) (tokenStr : TokenStr) (now : Time) : Option MapClaims :=
  match tokenStr with
  | .malformed _ => none
  | .jws alg signingString claims signature =>
    if verifySignature L alg key signingString signature && validateClaims claims now then
      some claims
    else none

/-- The token `jwt.NewWithClaims(jwt.SigningMethodHS256, claims).SignedString(key)`,
in the form the parser reads it back. -/
def signedString (L : JwtLib) (claims : MapClaims) (key : String) : TokenStr :=
  .jws "HS256" (L.signingString claims) claims (L.hmac "HS256" key (L.signingString claims))

/-! ## internal/config -/

/-- The Go struct `config.JwtConfig`. -/
structure JwtConfig where
  JwtExpAccessToken : Int
  JwtExpRefreshToken : Int
  JwtAccessSecret : String
  JwtRefreshSecret : String
deriving DecidableEq, Repr

/-- The Go struct `config.UserConfig`. -/
structure UserConfig where
  MinLength : Int
  MaxLength : Int
  AllowedCharacters : String
  CaseInsesitive : Bool
deriving DecidableEq, Repr

/-- The Go struct `config.PasswordConfig`. -/
structure PasswordConfig where
  MinLength : Int
  MaxLength : Int
  RequireUpper : Bool
  RequireLower : Bool
  RequireDigit : Bool
deriving DecidableEq, Repr

/-- The fields of `config.AppConfig` read by the user and token services. -/
structure AppConfig where
  JwtConfig : JwtConfig
  UserConfig : UserConfig
  PasswordConfig : PasswordConfig
deriving DecidableEq, Repr

/-! ## internal/domain/user -/

/-- The Go type `user.Role`, a string. -/
abbrev Role := String

/-- The constant `user.Admin`. -/
def Admin : Role := "admin"

/-- The constant `user.Manager`. -/
def Manager : Role := "manager"

/-- The constant `user.Viewer`. -/
def Viewer : Role := "viewer"

/-- The Go struct `user.User`; `Password` holds the hash. -/
structure User where
  Id : UUID
  Login : String
  Password : String
  Role : Role
  CreatedAt : Time
deriving DecidableEq, Repr

/-! ## internal/auth -/

/-- The Go struct `auth.JWTResponse`. -/
structure JWTResponse where
  AccessToken : TokenStr
  RefreshToken : TokenStr
  AccessExpiresIn : Int
  RefreshExpiresIn : Int
  TokenType : String
deriving DecidableEq, Repr

/-- The Go struct `auth.JWTPayload`. -/
structure JWTPayload where
  UserID : String
  Role : Role
  Login : String
deriving DecidableEq, Repr

/-- The Go struct `auth.JWTService`; the lifetimes are Go `int` (64 bits), the access
one in minutes and the refresh one in hours. -/
structure JWTService where
  accessSecret : String
  refreshSecret : String
  jwtExpAccessToken : Int
  jwtExpRefreshToken : Int
deriving DecidableEq, Repr

/-- The constructor `NewJWTService`. -/
def NewJWTService (cfg : AppConfig) : JWTService :=
  { accessSecret := cfg.JwtConfig.JwtAccessSecret
    refreshSecret := cfg.JwtConfig.JwtRefreshSecret
    jwtExpAccessToken := cfg.JwtConfig.JwtExpAccessToken
    jwtExpRefreshToken := cfg.JwtConfig.JwtExpRefreshToken }

/-- The `exp` value `now.Add(unit * time.Duration(ttl)).Unix()`; the product of the
two `int64` durations wraps. -/
def expiryClaim (now : Time) (unit ttl : Int) : Int :=
  Time.Unix (Time.Add now (wrapInt64 (unit * ttl)))

/-- The claims both generators build for a user. -/
def userClaims (u : User) (exp : Int) : MapClaims :=
  [("uuid", .str u.Id.String), ("role", .str u.Role), ("login", .str u.Login), ("exp", .num exp)]

/-- The method `JWTService.generateAccessToken`, with `now` the reading of `time.Now()`. -/
def JWTService.generateAccessToken (L : JwtLib) (s : JWTService) (u : User) (now : Time) :
    Outcome TokenStr :=
  .ok (signedString L (userClaims u (expiryClaim now timeMinute s.jwtExpAccessToken))
    s.accessSecret)

/-- The method `JWTService.generateRefreshToken`. -/
def JWTService.generateRefreshToken (L : JwtLib) (s : JWTService) (u : User) (now : Time) :
    Outcome TokenStr :=
  .ok (signedString L (userClaims u (expiryClaim now timeHour s.jwtExpRefreshToken))
    s.refreshSecret)

/-- The method `JWTService.GenerateTokens`; `tA` and `tR` are the clock readings of the
two generators. -/
def JWTService.GenerateTokens (L : JwtLib) (s : JWTService) (u : User) (tA tR : Time) :
    Outcome JWTResponse :=
  match s.generateAccessToken L u tA with
  | .error e => .error e
  | .panic m => .panic m
  | .ok access =>
    match s.generateRefreshToken L u tR with
    | .error e => .error e
    | .panic m => .panic m
    | .ok refresh =>
      .ok { AccessToken := access, RefreshToken := refresh, AccessExpiresIn := 0,
            RefreshExpiresIn := 0, TokenType := "" }

/-- The method `JWTService.validateAccessToken`; `tParse` is the clock reading inside
`jwt.Parse` and `tCheck` the one of the expiry test that follows. -/
def JWTService.validateAccessToken (L : JwtLib) (s : JWTService) (tokenStr : TokenStr)
    (tParse tCheck : Time) : Outcome MapClaims :=
  match jwtParse L s.accessSecret tokenStr tParse with
  | none => .error (errorsNew "invalid access token")
  | some claims =>
    match claims.lookup "exp" with
    | some (.num exp) =>
      if Time.Before (timeUnix (int64OfFloat exp)) tCheck then
        .error (errorsNew "token has expired")
      else .ok claims
    | _ => .error (errorsNew "token has expired")

/-- The method `JWTService.validateRefreshToken`. -/
def JWTService.validateRefreshToken (L : JwtLib) (s : JWTService) (tokenStr : TokenStr)
    (tParse tCheck : Time) : Outcome MapClaims :=
  match jwtParse L s.refreshSecret tokenStr tParse with
  | none => .error (errorsNew "invalid refresh token")
  | some claims =>
    match claims.lookup "exp" with
    | some (.num exp) =>
      if Time.Before (timeUnix (int64OfFloat exp)) tCheck then
        .error (errorsNew "refresh token has expired")
      else .ok claims
    | _ => .error (errorsNew "refresh token has expired")

/-- The method `JWTService.ValidateTokens`. -/
def JWTService.ValidateTokens (L : JwtLib) (s : JWTService) (tokenStr : TokenStr)
    (tParse tCheck : Time) : Outcome JWTPayload :=
  match s.validateAccessToken L tokenStr tParse tCheck with
  | .error e => .error e
  | .panic m => .panic m
  | .ok claims =>
    match claims.lookup "uuid" with
    | some (.str uuidStr) =>
      match claims.lookup "role" with
      | some (.str role) =>
        match claims.lookup "login" with
        | some (.str login) => .ok { UserID := uuidStr, Role := role, Login := login }
        | _ => .error (errorsNew "invalid token payload")
      | _ => .error (errorsNew "invalid token payload")
    | _ => .error (errorsNew "invalid token payload")

/-- The zero `time.Time` (1 January of year 1), the `CreatedAt` of a struct literal
that does not set it. -/
def zeroTime : Time := -62135596800 * nsPerSec

/-- The method `JWTService.RefreshTokens`; `tParse` and `tCheck` are the clock readings
of the verification, `tA` and `tR` those of the two generators. -/
def JWTService.RefreshTokens (L : JwtLib) (s : JWTService) (refreshToken : TokenStr)
    (tParse tCheck tA tR : Time) : Outcome JWTResponse :=
  match s.validateRefreshToken L refreshToken tParse tCheck with
  | .error e => .error e
  | .panic m => .panic m
  | .ok claims =>
    match claims.lookup "uuid" with
    | some (.str uuidStr) =>
      match claims.lookup "role" with
      | some (.str role) =>
        match claims.lookup "login" with
        | some (.str login) =>
          match uuidMustParse uuidStr with
          | .error e => .error e
          | .panic m => .panic m
          | .ok id =>
            s.GenerateTokens L
              { Id := id, Login := login, Password := "", Role := role, CreatedAt := zeroTime }
              tA tR
        | _ => .error (errorsNew "invalid refresh token payload")
      | _ => .error (errorsNew "invalid refresh token payload")
    | _ => .error (errorsNew "invalid refresh token payload")

/-! ## regexp, as called with `regexp.MustCompile("^[" + regexp.QuoteMeta(allowed) + "]+$")` -/

/-- The backslash character. -/
def backslash : Char := Char.ofNat 92

/-- The bytes `regexp.QuoteMeta` escapes: backslash . + * ? ( ) | [ ] { } ^ $ -/
def regexpSpecial : List Char :=
  [backslash, '.', '+', '*', '?', '(', ')', '|', '[', ']', Char.ofNat 123, Char.ofNat 125,
    '^', '$']

/-- The Go function `regexp.QuoteMeta`: a backslash before every special byte. -/
def QuoteMeta (s : List Char) : List Char :=
  s.flatMap (fun c => if regexpSpecial.contains c then [backslash, c] else [c])

/-- Whether an ASCII character is a letter or digit (`isalnum` of regexp/syntax). -/
def isalnum (c : Char) : Bool :=
  (decide (48 ≤ c.toNat) && decide (c.toNat ≤ 57)) || (decide (65 ≤ c.toNat) && decide (c.toNat ≤ 90))
    || (decide (97 ≤ c.toNat) && decide (c.toNat ≤ 122))

/-- The method `parser.parseClassChar`: one class character and the text after it;
`none` is a compile error.  A backslash followed by ASCII punctuation is that
punctuation.  A backslash before a letter or digit (a C, octal, hexadecimal, Perl or
Unicode-class escape) is never written by `QuoteMeta`, so those escapes are left out
and count as errors here. -/
def parseClassChar : List Char → Option (Char × List Char)
  | [] => none
  | c :: t =>
    if c = backslash then
      match t with
      | [] => none
      | e :: t1 => if e.toNat < 128 ∧ isalnum e = false then some (e, t1) else none
    else some (c, t)

/-- The loop of `parser.parseClass` after the opening bracket (Perl flags, no case
folding, no leading `^`): reads single characters and ranges `lo-hi` until an
unescaped `]` that is not the first character, and returns the ranges and the text
after that `]`.  A `-` starts a range unless it is the last character before `]`.
`none` is a compile error: a missing closing bracket, a bad escape, or a range whose
upper end is below its lower end.  Each round consumes a character, so `fuel` above
the length of the text is never used up. -/
def parseClassLoop : Nat → Bool → List Char → List (Char × Char) →
    Option (List (Char × Char) × List Char)
  | 0, _, _, _ => none
  | fuel + 1, first, t, cls =>
    if t.head? = some ']' ∧ first = false then some (cls, t.drop 1)
    else
      match parseClassChar t with
      | none => none
      | some (lo, t1) =>
        match t1 with
        | '-' :: x :: t2 =>
          if x = ']' then parseClassLoop fuel false t1 (cls ++ [(lo, lo)])
          else
            match parseClassChar (x :: t2) with
            | none => none
            | some (hi, t3) =>
              if hi < lo then none else parseClassLoop fuel false t3 (cls ++ [(lo, hi)])
        | _ => parseClassLoop fuel false t1 (cls ++ [(lo, lo)])

/-- Compiling the pattern `^[` ++ escaped ++ `]+$`: the ranges of the class, or `none`
when `regexp.Compile` returns an error (then `regexp.MustCompile` panics). -/
def compileLoginPattern (escaped : List Char) : Option (List (Char × Char)) :=
  match parseClassLoop (escaped.length + 4) true (escaped ++ [']', '+', '$']) [] with
  | none => none
  | some (cls, rest) => if rest = ['+', '$'] then some cls else none

/-- Whether a character lies in one of the ranges of a class. -/
def classContains (cls : List (Char × Char)) (c : Char) : Bool :=
  cls.any (fun r => decide (r.1 ≤ c) && decide (c ≤ r.2))

/-- The method `MatchString` of the compiled pattern `^[class]+$`: the text is not
empty and all its characters lie in the class. -/
def matchLoginPattern (cls : List (Char × Char)) (text : List Char) : Bool :=
  !text.isEmpty && text.all (classContains cls)

/-! ## bcrypt and unicode -/

/-- The two bcrypt functions in use, at the default cost.  `salt` is the randomness
`GenerateFromPassword` draws; a `none` from `CompareHashAndPassword` is a nil error. -/
structure Bcrypt where
  GenerateFromPassword : (password : String) → (salt : String) → Except GoError String
  CompareHashAndPassword : (hashedPassword : String) → (password : String) → Option GoError

/-- The three predicates of package `unicode` in use. -/
structure Unicode where
  IsUpper : Char → Bool
  IsLower : Char → Bool
  IsDigit : Char → Bool

/-- The Go function `utf8.ValidString`.  A string of this model is a sequence of
Unicode scalar values, which is always valid UTF-8. -/
def utf8ValidString (_s : String) : Bool := true

/-- The Go function `utf8.RuneCountInString` on a valid string. -/
def runeCount (s : String) : Int := (s.length : Int)

/-! ## internal/domain/user: `NewUser` -/

/-- The constructor `user.NewUser`; `salt`, `id` and `now` are what
`bcrypt.GenerateFromPassword`, `uuid.New()` and `time.Now()` draw. -/
def NewUser (B : Bcrypt) (login password : String) (role : Role) (salt : String) (id : UUID)
    (now : Time) : Outcome User :=
  let hashed := B.GenerateFromPassword password salt
  if role ≠ Admin ∧ role ≠ Manager ∧ role ≠ Viewer then
    .error (errorsNew "invalid role type")
  else
    match hashed with
    | .error err => .error err
    | .ok hashedPassword =>
      .ok { Id := id, Login := login, Password := hashedPassword, CreatedAt := now, Role := role }

/-! ## internal/app/user -/

/-- The interface `UserStorageProvider`.  `GetUser` returns the pair (user, error) of
the Go method, either of which may be nil; `SaveUser` returns its error. -/
structure UserStorageProvider where
  GetUser : String → Option User × Option GoError
  SaveUser : User → Option GoError

/-- The interface `JwtAuthProvider`. -/
structure JwtAuthProvider where
  GenerateTokens : User → Outcome JWTResponse
  ValidateTokens : TokenStr → Outcome JWTPayload
  RefreshTokens : TokenStr → Outcome JWTResponse

/-- A `JWTService` as a `JwtAuthProvider`, with the clock readings its methods take. -/
def JWTService.asProvider (L : JwtLib) (s : JWTService) (tParse tCheck tA tR : Time) :
    JwtAuthProvider :=
  { GenerateTokens := fun u => s.GenerateTokens L u tA tR
    ValidateTokens := fun tokenStr => s.ValidateTokens L tokenStr tParse tCheck
    RefreshTokens := fun refreshToken => s.RefreshTokens L refreshToken tParse tCheck tA tR }

/-- The Go struct `UserService`. -/
structure UserService where
  repo : UserStorageProvider
  jwt : JwtAuthProvider
  cfg : AppConfig

/-- The constructor `NewUserService`. -/
def NewUserService (repo : UserStorageProvider) (jwt : JwtAuthProvider) (cfg : AppConfig) :
    UserService :=
  { repo := repo, jwt := jwt, cfg := cfg }

/-- A call a service method makes to a collaborator or to bcrypt. -/
inductive Call where
  | GetUser (login : String)
  | SaveUser (u : User)
  | CompareHashAndPassword (hashedPassword password : String)
  | GenerateFromPassword (password : String)
  | GenerateTokens (u : User)
deriving DecidableEq, Repr

/-- The method `UserService.isValidLogin`: `.ok ()` is a nil error. -/
def UserService.isValidLogin (s : UserService) (login : String) : Outcome Unit :=
  if runeCount login < s.cfg.UserConfig.MinLength ∨ runeCount login > s.cfg.UserConfig.MaxLength
  then
    .error (errorsNew ("invalid login length . Must be between "
      ++ toString s.cfg.UserConfig.MinLength ++ " and " ++ toString s.cfg.UserConfig.MaxLength
      ++ " characters"))
  else
    let escapedChars := QuoteMeta s.cfg.UserConfig.AllowedCharacters.toList
    match compileLoginPattern escapedChars with
    | none => .panic "regexp: Compile: error parsing regexp"
    | some loginRegexp =>
      if !matchLoginPattern loginRegexp login.toList then
        .error (errorsNew ("invalid login characters. Must contain only letters, digits, "
          ++ "underscores, or hyphens and must not contain spaces"))
      else .ok ()

/-- The three flags the loop of `isValidPassword` sets; the `switch` takes the first
case that holds for a rune. -/
def passwordFlags (U : Unicode) (password : List Char) : Bool × Bool × Bool :=
  password.foldl
    (fun acc r =>
      if U.IsUpper r then (true, acc.2.1, acc.2.2)
      else if U.IsLower r then (acc.1, true, acc.2.2)
      else if U.IsDigit r then (acc.1, acc.2.1, true)
      else acc)
    (false, false, false)

/-- The method `UserService.isValidPassword`. -/
def UserService.isValidPassword (U : Unicode) (s : UserService) (password : String) :
    Outcome Unit :=
  let cfg := s.cfg.PasswordConfig
  let l := runeCount password
  if l < cfg.MinLength ∨ l > cfg.MaxLength then
    .error (errorsNew ("invalid password length: must be " ++ toString cfg.MinLength
      ++ String.mk [Char.ofNat 226, Char.ofNat 8364, Char.ofNat 8220] ++ toString cfg.MaxLength
      ++ " characters"))
  else if !utf8ValidString password then
    .error (errorsNew "password contains invalid UTF-8 characters")
  else
    let flags := passwordFlags U password.toList
    if cfg.RequireUpper && !flags.1 then
      .error (errorsNew "password must contain at least one uppercase letter")
    else if cfg.RequireLower && !flags.2.1 then
      .error (errorsNew "password must contain at least one lowercase letter")
    else if cfg.RequireDigit && !flags.2.2 then
      .error (errorsNew "password must contain at least one digit")
    else .ok ()

/-- The method `UserService.Login`, with the calls it makes, in order.  A nil user
returned with a nil error is dereferenced, which panics. -/
def UserService.Login (B : Bcrypt) (s : UserService) (Login Password : String) :
    Outcome JWTResponse × List Call :=
  if Login = "" ∨ Password = "" then
    (.error (errorsNew "login or password cant be empty"), [])
  else
    match s.repo.GetUser Login with
    | (_, some err) => (.error err, [.GetUser Login])
    | (none, none) =>
      (.panic "invalid memory address or nil pointer dereference", [.GetUser Login])
    | (some user, none) =>
      match B.CompareHashAndPassword user.Password Password with
      | some err =>
        (.error err, [.GetUser Login, .CompareHashAndPassword user.Password Password])
      | none =>
        (s.jwt.GenerateTokens user,
          [.GetUser Login, .CompareHashAndPassword user.Password Password,
            .GenerateTokens user])

/-- The method `UserService.Registration`, with the calls it makes, in order; `salt`,
`id` and `now` are the random and clock readings of `user.NewUser`. -/
def UserService.Registration (B : Bcrypt) (U : Unicode) (s : UserService)
    (Login Password Role : String) (salt : String) (id : UUID) (now : Time) :
    Outcome User × List Call :=
  match s.isValidLogin Login with
  | .error err => (.error err, [])
  | .panic m => (.panic m, [])
  | .ok _ =>
    match s.isValidPassword U Password with
    | .error err => (.error err, [])
    | .panic m => (.panic m, [])
    | .ok _ =>
      match s.repo.GetUser Login with
      | (ch, err) =>
        let fault : Option GoError :=
          match err with
          | some e => if e.msg ≠ "user not found" then some e else none
          | none => none
        match fault with
        | some e => (.error e, [.GetUser Login])
        | none =>
          if ch.isSome then
            (.error (errorsNew "user with this login already exists"), [.GetUser Login])
          else
            match NewUser B Login Password Role salt id now with
            | .error e => (.error e, [.GetUser Login, .GenerateFromPassword Password])
            | .panic m => (.panic m, [.GetUser Login, .GenerateFromPassword Password])
            | .ok user =>
              match s.repo.SaveUser user with
              | some e =>
                (.error e, [.GetUser Login, .GenerateFromPassword Password, .SaveUser user])
              | none =>
                (.ok user, [.GetUser Login, .GenerateFromPassword Password, .SaveUser user])

/-- The method `UserService.RefreshTokens`. -/
def UserService.RefreshTokens (s : UserService) (refreshToken : TokenStr) : Outcome JWTResponse :=
  s.jwt.RefreshTokens refreshToken

/-- The method `UserService.ValidateTokens`. -/
def UserService.ValidateTokens (s : UserService) (tokenStr : TokenStr) : Outcome JWTPayload :=
  s.jwt.ValidateTokens tokenStr

/-! ## Concrete collaborators, used to run the model -/

/-- A codec whose signature segment spells out algorithm and key, and whose signing
string lists the claim names. -/
def plainLib : JwtLib :=
  { hmac := fun alg key signingString => alg ++ "/" ++ key ++ "/" ++ signingString
    signingString := fun claims => String.intercalate "," (claims.map Prod.fst) }

/-- A hasher whose hash is a dollar sign followed by the password. -/
def plainBcrypt : Bcrypt :=
  { GenerateFromPassword := fun password _salt => .ok ("$" ++ password)
    CompareHashAndPassword := fun hashedPassword password =>
      if hashedPassword = "$" ++ password then none
      else some ⟨"crypto/bcrypt: hashedPassword is not the hash of the given password", 1⟩ }

/-- The three predicates on ASCII. -/
def asciiUnicode : Unicode :=
  { IsUpper := fun c => decide (65 ≤ c.toNat) && decide (c.toNat ≤ 90)
    IsLower := fun c => decide (97 ≤ c.toNat) && decide (c.toNat ≤ 122)
    IsDigit := fun c => decide (48 ≤ c.toNat) && decide (c.toNat ≤ 57) }

/-- The configuration of the repository tests, with the password policy as a parameter. -/
def testCfg (pw : PasswordConfig) : AppConfig :=
  { JwtConfig :=
      { JwtExpAccessToken := 1, JwtExpRefreshToken := 1, JwtAccessSecret := "access-secret",
        JwtRefreshSecret := "refresh-secret" }
    UserConfig :=
      { MinLength := 3, MaxLength := 10,
        AllowedCharacters := "abcdefghijklmnopqrstuvwxyzABCDEFGHIJKLMNOPQRSTUVWXYZ0123456789_-",
        CaseInsesitive := false }
    PasswordConfig := pw }

/-- The all-zero UUID. -/
def nilUUID : UUID := ⟨0, 0, 0, 0, 0, 0, 0, 0, 0, 0, 0, 0, 0, 0, 0, 0⟩

/-- A store that holds the given users, as the `fakeRepo` of the tests does. -/
def listRepo (users : List User) : UserStorageProvider :=
  { GetUser := fun login =>
      match users.find? (fun u => u.Login == login) with
      | some u => (some u, none)
      | none => (none, some (errorsNew "user not found"))
    SaveUser := fun _ => none }


/-- The password policy of the repository tests. -/
def strictPolicy : PasswordConfig :=
  { MinLength := 6, MaxLength := 12, RequireUpper := true, RequireLower := true,
    RequireDigit := true }

/-- The token service of the repository tests: lifetimes of one minute and one hour. -/
def testJWT : JWTService := NewJWTService (testCfg strictPolicy)

/-- The user of the token tests. -/
def testUser : User :=
  { Id := nilUUID, Login := "testlogin", Password := "", Role := Admin, CreatedAt := 0 }

/-- A configuration whose two secrets are the same string. -/
def sharedSecretCfg : AppConfig :=
  { JwtConfig :=
      { JwtExpAccessToken := 1, JwtExpRefreshToken := 1, JwtAccessSecret := "shared-secret",
        JwtRefreshSecret := "shared-secret" }
    UserConfig := (testCfg strictPolicy).UserConfig
    PasswordConfig := strictPolicy }

/-- The claims of a token string that splits into segments; none otherwise. -/
def TokenStr.claims : TokenStr → MapClaims
  | .malformed _ => []
  | .jws _ _ claims _ => claims

/-- Whether the claims hold a string under the key, the test `claims[key].(string)`. -/
def hasString (claims : MapClaims) (key : String) : Bool :=
  match claims.lookup key with
  | some (.str _) => true
  | _ => false

/-- Claims with the three identity fields and a string where the expiry should be. -/
def textExpiryClaims : MapClaims :=
  [("uuid", .str nilUUID.String), ("role", .str "admin"), ("login", .str "testlogin"),
    ("exp", .str "tomorrow")]

/-- Claims of a refresh token whose `uuid` is not the text of a UUID. -/
def badUuidClaims : MapClaims :=
  [("uuid", .str "not-a-uuid"), ("role", .str "admin"), ("login", .str "test"),
    ("exp", .num 3600)]

/-- A token service whose lifetimes, 153722868 minutes and 2562048 hours (about 292
years each), exceed what a `time.Duration` holds. -/
def longLivedJWT : JWTService :=
  { accessSecret := "access-secret", refreshSecret := "refresh-secret",
    jwtExpAccessToken := 153722868, jwtExpRefreshToken := 2562048 }

/-- A password policy that asks for nothing: any length up to twelve. -/
def laxPolicy : PasswordConfig :=
  { MinLength := 0, MaxLength := 12, RequireUpper := false, RequireLower := false,
    RequireDigit := false }

/-- The identity that registering `alice` with an empty password creates under
`plainBcrypt`. -/
def aliceNoPassword : User :=
  { Id := nilUUID, Login := "alice", Password := "$", Role := Admin, CreatedAt := 0 }

/-- The identity that registering `alice` with `Secret12` creates under `plainBcrypt`. -/
def alice : User :=
  { Id := nilUUID, Login := "alice", Password := "$Secret12", Role := Admin, CreatedAt := 0 }

/-! ## gin, as used by internal/web/routers -/

/-- A value kept in `gin.Context.Keys`, with its dynamic type: a Go `string`, a
`user.Role`, or a value of another type. -/
inductive CtxValue where
  | string (s : String)
  | role (r : Role)
  | other
deriving DecidableEq, Repr

/-- The state of a `gin.Context` the middleware reads and writes: request headers,
the key store, the status and the `error` text of a written JSON body, and the abort
mark.  `validated` lists the strings handed to `ValidateTokens` so far and `panicked`
holds the value of a panic that left the handler. -/
structure GinContext where
  Header : List (String × String)
  Keys : List (String × CtxValue)
  status : Option Nat
  errorBody : Option String
  aborted : Bool
  validated : List String
  panicked : Option String
deriving DecidableEq, Repr

/-- The method `Context.GetHeader`: the empty string for a header that is not set. -/
def GinContext.GetHeader (c : GinContext) (key : String) : String :=
  (c.Header.lookup key).getD ""

/-- The method `Context.AbortWithStatusJSON(code, gin.H{"error": msg})`. -/
def GinContext.AbortWithStatusJSON (c : GinContext) (code : Nat) (msg : String) : GinContext :=
  { c with status := some code, errorBody := some msg, aborted := true }

/-- The method `Context.Set`: the newest value of a key is the one found. -/
def GinContext.Set (c : GinContext) (key : String) (value : CtxValue) : GinContext :=
  { c with Keys := (key, value) :: c.Keys }

/-- The method `Context.Get`: `none` when the key does not exist. -/
def GinContext.Get (c : GinContext) (key : String) : Option CtxValue :=
  c.Keys.lookup key

/-- A `gin.HandlerFunc`.  The handlers that follow it in the chain are passed in as
`next`, which stands for the call `c.Next()`; a handler that aborts does not call it. -/
abbrev HandlerFunc := (GinContext → GinContext) → GinContext → GinContext

/-- Running a chain of handlers from its first one. -/
def runChain : List HandlerFunc → GinContext → GinContext
  | [] => id
  | h :: hs => h (runChain hs)

/-- The Go function `strings.TrimPrefix` on character lists. -/
def stringsTrimLead (s lead : List Char) : List Char :=
  if lead.isPrefixOf s then s.drop lead.length else s

/-- The Go function `strings.TrimPrefix`. -/
def TrimPrefix (s lead : String) : String :=
  String.mk (stringsTrimLead s.toList lead.toList)

/-! ## internal/web/handlers and internal/web/routers -/

/-- The interface `handlers.UserIFace`; token strings arrive as raw Go strings. -/
structure UserIFace where
  Login : String → String → Outcome JWTResponse
  Registration : String → String → String → Outcome User
  RefreshTokens : String → Outcome JWTResponse
  ValidateTokens : String → Outcome JWTPayload

/-- The constant `CtxUserID`. -/
def CtxUserID : String := "userId"

/-- The constant `CtxRole`. -/
def CtxRole : String := "role"

/-- The constant `CtxLogin`. -/
def CtxLogin : String := "login"

/-- The context after the three `c.Set` calls of `AuthMiddleware`. -/
def GinContext.withIdentity (c : GinContext) (payload : JWTPayload) : GinContext :=
  ((c.Set CtxUserID (.string payload.UserID)).Set CtxRole (.role payload.Role)).Set CtxLogin
    (.string payload.Login)

/-- The handler returned by `AuthMiddleware(userService)`. -/
def AuthMiddleware (userService : UserIFace) : HandlerFunc := fun next c =>
  let token := c.GetHeader "Authorization"
  if token = "" then c.AbortWithStatusJSON 401 "missing token"
  else
    let token := TrimPrefix token "Bearer "
    if token = "" then c.AbortWithStatusJSON 401 "empty token"
    else
      let c := { c with validated := c.validated ++ [token] }
      match userService.ValidateTokens token with
      | .error _ => c.AbortWithStatusJSON 401 "invalid token"
      | .panic m => { c with panicked := some m }
      | .ok payload => next (c.withIdentity payload)

/-- The handler returned by `RequireRoles(roles...)`. -/
def RequireRoles (roles : List Role) : HandlerFunc := fun next c =>
  match c.Get CtxRole with
  | none => c.AbortWithStatusJSON 500 "role not found in context"
  | some (.role role) =>
    if roles.any (fun r => r == role) then next c
    else c.AbortWithStatusJSON 403 "forbidden"
  | some _ => c.AbortWithStatusJSON 500 "invalid role type in context"

/-- The reads of `userId` and `login` in `ItemHandler.CreateItem`, `PutItem` and
`DeleteItem`: an error when a key is missing (answered with status 500), a panic when
a value is not a string, else the two strings. -/
def contextIdentity (c : GinContext) : Outcome (String × String) :=
  match c.Get "userId" with
  | none => .error (errorsNew "userId not found in context")
  | some userID =>
    match c.Get "login" with
    | none => .error (errorsNew "login not found in context")
    | some login =>
      match userID, login with
      | .string u, .string l => .ok (u, l)
      | _, _ => .panic "interface conversion: interface {} is not string"

/-- A handler registered on a route, by name. -/
inductive Handler where
  | AuthMiddleware
  | RequireRoles (roles : List Role)
  | Swagger
  | RegisterUser
  | LoginUser
  | RefreshToken
  | CreateItem
  | GetItems
  | GetItem
  | PutItem
  | DeleteItem
  | HistoryGetItems
  | HistoryGetItemsCSV
deriving DecidableEq, Repr

/-- A registered route: method, full path, and the handlers of its group followed by
its own. -/
structure Route where
  method : String
  path : String
  handlers : List Handler
deriving DecidableEq, Repr

/-- The routes `RegisterRoutes` adds to the engine. -/
def RegisterRoutes : List Route :=
  [ ⟨"GET", "/api/swagger/*any", [.Swagger]⟩,
    ⟨"POST", "/api/auth/register", [.RegisterUser]⟩,
    ⟨"POST", "/api/auth/login", [.LoginUser]⟩,
    ⟨"POST", "/api/auth/refresh", [.RefreshToken]⟩,
    ⟨"POST", "/api/items", [.AuthMiddleware, .RequireRoles [Admin], .CreateItem]⟩,
    ⟨"GET", "/api/items", [.AuthMiddleware, .RequireRoles [Admin, Manager, Viewer], .GetItems]⟩,
    ⟨"GET", "/api/items/:id",
      [.AuthMiddleware, .RequireRoles [Admin, Manager, Viewer], .GetItem]⟩,
    ⟨"PUT", "/api/items/:id", [.AuthMiddleware, .RequireRoles [Admin, Manager], .PutItem]⟩,
    ⟨"DELETE", "/api/items/:id", [.AuthMiddleware, .RequireRoles [Admin], .DeleteItem]⟩,
    ⟨"GET", "/api/history", [.AuthMiddleware, .RequireRoles [Admin], .HistoryGetItems]⟩,
    ⟨"GET", "/api/history/csv", [.AuthMiddleware, .RequireRoles [Admin], .HistoryGetItemsCSV]⟩ ]

/-- The `gin.HandlerFunc` behind a registered handler: the two middlewares of this
package, and for the others the given endpoint function, which never calls `c.Next()`. -/
def Handler.func (userService : UserIFace) (endpoint : Handler → GinContext → GinContext) :
    Handler → HandlerFunc
  | .AuthMiddleware => WarehouseControl.AuthMiddleware userService
  | .RequireRoles roles => WarehouseControl.RequireRoles roles
  | h => fun _ c => endpoint h c

/-- Serving a request on a route: its handlers run as a chain. -/
def Route.serve (userService : UserIFace) (endpoint : Handler → GinContext → GinContext)
    (r : Route) (c : GinContext) : GinContext :=
  runChain (r.handlers.map (Handler.func userService endpoint)) c

/-- A user service over an empty store with the test token service. -/
def serviceWith (cfg : AppConfig) : UserService :=
  NewUserService (listRepo []) (testJWT.asProvider plainLib 0 0 0 0) cfg

/-- A configuration whose allowed characters are the three characters `a`, `-`, `z`. -/
def hyphenCfg : AppConfig :=
  { JwtConfig := (testCfg strictPolicy).JwtConfig
    UserConfig := { MinLength := 3, MaxLength := 10, AllowedCharacters := "a-z",
                    CaseInsesitive := false }
    PasswordConfig := strictPolicy }

/-- A store whose lookup fails with a fault (tag 1, not the value the repository
builds for a missing row) whose text reads `user not found`, and whose save succeeds. -/
def faultyRepo : UserStorageProvider :=
  { GetUser := fun _ => (none, some ⟨"user not found", 1⟩)
    SaveUser := fun _ => none }

/-- A request context with the given `Authorization` header and nothing else. -/
def requestWith (authorization : String) : GinContext :=
  { Header := [("Authorization", authorization)], Keys := [], status := none, errorBody := none,
    aborted := false, validated := [], panicked := none }

/-- A request context without headers. -/
def bareRequest : GinContext :=
  { Header := [], Keys := [], status := none, errorBody := none, aborted := false,
    validated := [], panicked := none }

/-- The payload of an administrator named `alice`. -/
def adminPayload : JWTPayload :=
  { UserID := "00000000-0000-0000-0000-000000000000", Role := Admin, Login := "alice" }

/-- A user service that accepts the token `good` for `adminPayload` and no other. -/
def stubService : UserIFace :=
  { Login := fun _ _ => .error (errorsNew "login or password cant be empty")
    Registration := fun _ _ _ => .error (errorsNew "invalid role type")
    RefreshTokens := fun _ => .error (errorsNew "invalid refresh token")
    ValidateTokens := fun tokenStr =>
      if tokenStr = "good" then .ok adminPayload
      else .error (errorsNew "invalid access token") }

/-- A user service whose `ValidateTokens` accepts every string, the empty one included. -/
def acceptAllService : UserIFace :=
  { Login := fun _ _ => .error (errorsNew "login or password cant be empty")
    Registration := fun _ _ _ => .error (errorsNew "invalid role type")
    RefreshTokens := fun _ => .error (errorsNew "invalid refresh token")
    ValidateTokens := fun _ => .ok adminPayload }

/-- An endpoint stand-in that records the status 200. -/
def okEndpoint (_h : Handler) (c : GinContext) : GinContext :=
  { c with status := some 200 }

/-! ## internal/domain/item -/

/-- A Go `float64` as far as comparison sees it: the number it denotes, one of the
two infinities, or NaN.  The two zeros denote the same number; rounding plays no part
in the code embedded here, which only compares. -/
inductive Float64 where
  | num (q : ℚ)
  | posInf
  | negInf
  | nan
deriving DecidableEq, Repr

/-- Go `a != b` on `float64`: true as soon as one side is NaN. -/
def Float64.ne (a b : Float64) : Bool :=
  match a, b with
  | .nan, _ => true
  | _, .nan => true
  | a, b => decide (a ≠ b)

/-- Go `a <= 0` on `float64`: false when `a` is NaN. -/
def Float64.leZero (a : Float64) : Bool :=
  match a with
  | .num q => decide (q ≤ 0)
  | .negInf => true
  | .posInf => false
  | .nan => false

/-- Go `a > 0` on `float64`: false when `a` is NaN. -/
def Float64.gtZero (a : Float64) : Bool :=
  match a with
  | .num q => decide (0 < q)
  | .posInf => true
  | .negInf => false
  | .nan => false

/-- The Go struct `item.Item`.  `Count` is a Go `int`, `Price` a `float64`. -/
structure Item where
  ID : UUID
  Name : String
  Count : Int
  Price : Float64
deriving DecidableEq, Repr

/-- The constructor `item.NewItem`; `id` is what `uuid.New()` draws. -/
def NewItem (name : String) (count : Int) (price : Float64) (id : UUID) : Outcome Item :=
  if name = "" then .error (errorsNew "name required")
  else if price.leZero then .error (errorsNew "price must be > 0")
  else .ok { ID := id, Name := name, Count := count, Price := price }

/-- The method `Item.ChangeItem`: the item after the change, or the error. -/
def Item.ChangeItem (i : Item) (name : String) (count : Int) (price : Float64) :
    Outcome Item :=
  if name = "" then .error (errorsNew "name cant be empty")
  else if price.leZero then .error (errorsNew "price must be >0")
  else .ok { i with Name := name, Count := count, Price := price }

/-- The method `Item.ChangeItem` on the pointer a store returned: the two checks read
only the arguments, so a nil receiver is dereferenced, and panics, only after both
have passed. -/
def Item.ChangeItemAt (p : Option Item) (name : String) (count : Int) (price : Float64) :
    Outcome Item :=
  match p with
  | some i => i.ChangeItem name count price
  | none =>
    if name = "" then .error (errorsNew "name cant be empty")
    else if price.leZero then .error (errorsNew "price must be >0")
    else .panic "invalid memory address or nil pointer dereference"

/-- A value stored in a `FieldDiff`: the `interface{}` holds a string, an int or a
float64. -/
inductive DiffValue where
  | str (s : String)
  | int (n : Int)
  | float (q : Float64)
deriving DecidableEq, Repr

/-- The Go struct `item.FieldDiff`. -/
structure FieldDiff where
  Old : DiffValue
  New : DiffValue
deriving DecidableEq, Repr

/-- The Go type `item.ItemDiff`, a map from field name to `FieldDiff`; a key is looked
up with `List.lookup`. -/
abbrev ItemDiff := List (String × FieldDiff)

/-- The method `Item.Diff`. -/
def Item.Diff (i : Item) (other : Item) : ItemDiff :=
  (if i.Name ≠ other.Name then [("name", { Old := .str i.Name, New := .str other.Name })]
    else [])
  ++ (if i.Count ≠ other.Count then
        [("count", { Old := .int i.Count, New := .int other.Count })]
      else [])
  ++ (if i.Price.ne other.Price then
        [("price", { Old := .float i.Price, New := .float other.Price })]
      else [])

/-! ## internal/domain/history and internal/app/history -/

/-- The Go struct `history.History`. -/
structure History where
  ID : UUID
  ItemID : UUID
  Action : String
  ChangedBy : UUID
  ChangedByLogin : String
  ChangedAt : Time
  OldItemSnapshot : Item
  NewItemSnapshot : Item
  ItemDiff : ItemDiff
deriving DecidableEq, Repr

/-- The method `Time.IsZero`: the instant is 1 January of year 1, 00:00:00 UTC. -/
def Time.IsZero (t : Time) : Bool := decide (t = zeroTime)

/-- The method `t.After(u)`. -/
def Time.After (t u : Time) : Bool := decide (u < t)

/-- The interface `HistoryStorageProvider`: the slice and the error of the Go method. -/
structure HistoryStorageProvider where
  GetItemsHistory : String → Time → Time → String → String → List History × Option GoError

/-- The Go struct `HistoryService`. -/
structure HistoryService where
  repo : HistoryStorageProvider

/-- The constructor `NewHistoryService`. -/
def NewHistoryService (repo : HistoryStorageProvider) : HistoryService := { repo := repo }

/-- A call of the history service to its store, with the five arguments. -/
structure HistoryCall where
  id : String
  fromTime : Time
  toTime : Time
  action : String
  login : String
deriving DecidableEq, Repr

/-- The apostrophe, as a string. -/
def apostrophe : String := String.mk [Char.ofNat 39]

/-- The Go builtin `len` on a string: its length in bytes. -/
def goLen (s : String) : Nat := s.utf8ByteSize

/-- The method `HistoryService.GetItems`, with the store calls it makes.  The text of
the parse error wrapped by `invalid UUID format: %w` is left out. -/
def HistoryService.GetItems (s : HistoryService) (id : String) (fromTime toTime : Time)
    (action login : String) : (List History × Option GoError) × List HistoryCall :=
  if !Time.IsZero fromTime && !Time.IsZero toTime && Time.After fromTime toTime then
    (([], some (errorsNew (apostrophe ++ "from" ++ apostrophe ++ " date cannot be after "
      ++ apostrophe ++ "to" ++ apostrophe))), [])
  else if action ≠ "" ∧ action ≠ "created" ∧ action ≠ "updated" ∧ action ≠ "deleted" then
    (([], some (errorsNew "invalid action filter")), [])
  else if login ≠ "" ∧ goLen login < 3 then
    (([], some (errorsNew "login filter must be at least 3 characters long")), [])
  else if id ≠ "" ∧ (uuidParse id).isNone then
    (([], some (errorsNew "invalid UUID format")), [])
  else
    (s.repo.GetItemsHistory id fromTime toTime action login,
      [{ id := id, fromTime := fromTime, toTime := toTime, action := action, login := login }])

/-- The formatting functions `GetItemsCSV` calls: `Time.Format(time.RFC3339)`,
`fmt.Sprintf("%v", item)` and `json.Marshal(itemDiff)`. -/
structure HistoryFormat where
  formatRFC3339 : Time → String
  sprintItem : Item → String
  jsonMarshal : ItemDiff → Except GoError String

/-- The output of a `csv.Writer`: the records written so far, and the error `Write`
returns for a record the output does not take. -/
structure CsvWriter where
  records : List (List String)
  reject : List String → Option GoError

/-- The method `csv.Writer.Write`. -/
def CsvWriter.Write (w : CsvWriter) (record : List String) : CsvWriter × Option GoError :=
  match w.reject record with
  | some err => (w, some err)
  | none => ({ w with records := w.records ++ [record] }, none)

/-- The header record of `GetItemsCSV`. -/
def csvHeaders : List String :=
  ["ID", "ItemID", "Action", "ChangedBy", "ChangedByLogin", "ChangedAt", "OldItemSnapshot",
    "NewItemSnapshot", "ItemDiff"]

/-- The record `GetItemsCSV` builds for an entry, given the JSON text of its diff. -/
def csvRow (F : HistoryFormat) (group : History) (itemDiffJSON : String) : List String :=
  [group.ID.String, group.ItemID.String, group.Action, group.ChangedBy.String,
    group.ChangedByLogin, F.formatRFC3339 group.ChangedAt, F.sprintItem group.OldItemSnapshot,
    F.sprintItem group.NewItemSnapshot, itemDiffJSON]

/-- The loop of `GetItemsCSV` over the entries. -/
def csvWriteRows (F : HistoryFormat) : List History → CsvWriter → CsvWriter × Option GoError
  | [], w => (w, none)
  | group :: rest, w =>
    match F.jsonMarshal group.ItemDiff with
    | .error err => (w, some err)
    | .ok itemDiffJSON =>
      match w.Write (csvRow F group itemDiffJSON) with
      | (w1, some err) => (w1, some err)
      | (w1, none) => csvWriteRows F rest w1

/-- The method `HistoryService.GetItemsCSV`: the writer afterwards, the returned error
and the store calls made. -/
def HistoryService.GetItemsCSV (F : HistoryFormat) (s : HistoryService) (id : String)
    (fromTime toTime : Time) (action login : String) (output : CsvWriter) :
    (CsvWriter × Option GoError) × List HistoryCall :=
  match s.GetItems id fromTime toTime action login with
  | ((_, some err), calls) => ((output, some err), calls)
  | ((histories, none), calls) =>
    match output.Write csvHeaders with
    | (w, some err) => ((w, some err), calls)
    | (w, none) => (csvWriteRows F histories w, calls)

/-! ## internal/app/item -/

/-- The Go struct `config.ItemConfig`. -/
structure ItemConfig where
  NameMinLength : Int
  NameMaxLegth : Int
deriving DecidableEq, Repr

/-- The interface `ItemStorageProvider`; a method returning a pointer and an error
yields the pair, either of which may be nil. -/
structure ItemStorageProvider where
  CreateItem : Item → String → String → Option GoError
  GetItems : List Item × Option GoError
  GetItem : String → Option Item × Option GoError
  PutItem : Item → String → String → Option GoError
  DeleteItem : String → String → String → Option GoError

/-- The Go struct `ItemService`; `cfg` is the `ItemConfig` of the application
configuration, the only part the service reads. -/
structure ItemService where
  repo : ItemStorageProvider
  cfg : ItemConfig

/-- A call of the item service to its store. -/
inductive ItemCall where
  | CreateItem (item : Item) (userID login : String)
  | GetItems
  | GetItem (uuid : String)
  | PutItem (item : Item) (userID login : String)
  | DeleteItem (uuid userID login : String)
deriving DecidableEq, Repr

/-- Whether a store call writes: `CreateItem`, `PutItem` and `DeleteItem` do. -/
def ItemCall.isWrite : ItemCall → Bool
  | .CreateItem _ _ _ => true
  | .PutItem _ _ _ => true
  | .DeleteItem _ _ _ => true
  | _ => false

/-- The method `ItemService.isNameValid`: `none` is a nil error. -/
def ItemService.isNameValid (s : ItemService) (name : String) : Option GoError :=
  if name = "" ∨ runeCount name < s.cfg.NameMinLength ∨ runeCount name > s.cfg.NameMaxLegth then
    some (errorsNew ("name cant be empty, should be bigger than " ++ toString s.cfg.NameMinLength
      ++ ", and smaller than " ++ toString s.cfg.NameMaxLegth))
  else none

/-- The method `ItemService.Create`, with the store calls it makes; `newID` is what
`uuid.New()` draws in `NewItem`. -/
def ItemService.Create (s : ItemService) (name : String) (count : Int) (price : Float64)
    (userID login : String) (newID : UUID) : Outcome Item × List ItemCall :=
  match s.isNameValid name with
  | some err => (.error err, [])
  | none =>
    match NewItem name count price newID with
    | .error err => (.error err, [])
    | .panic m => (.panic m, [])
    | .ok item =>
      match s.repo.CreateItem item userID login with
      | some err => (.error err, [.CreateItem item userID login])
      | none => (.ok item, [.CreateItem item userID login])

/-- The method `ItemService.GetItems`. -/
def ItemService.GetItems (s : ItemService) : (List Item × Option GoError) × List ItemCall :=
  (s.repo.GetItems, [.GetItems])

/-- The method `ItemService.GetItem`.  The text of the parse error wrapped by
`invalid UUID format: %w` is left out. -/
def ItemService.GetItem (s : ItemService) (id : String) :
    (Option Item × Option GoError) × List ItemCall :=
  match uuidParse id with
  | none => ((none, some (errorsNew "invalid UUID format")), [])
  | some _ => (s.repo.GetItem id, [.GetItem id])

/-- The method `ItemService.PutItem`, with the store calls it makes. -/
def ItemService.PutItem (s : ItemService) (id name : String) (count : Int) (price : Float64)
    (userID login : String) : Outcome Item × List ItemCall :=
  match uuidParse id with
  | none => (.error (errorsNew "invalid UUID format"), [])
  | some _ =>
    match s.isNameValid name with
    | some err => (.error err, [])
    | none =>
      match s.repo.GetItem id with
      | (_, some err) => (.error err, [.GetItem id])
      | (item, none) =>
        match Item.ChangeItemAt item name count price with
        | .error err => (.error err, [.GetItem id])
        | .panic m => (.panic m, [.GetItem id])
        | .ok changed =>
          match s.repo.PutItem changed userID login with
          | some err => (.error err, [.GetItem id, .PutItem changed userID login])
          | none => (.ok changed, [.GetItem id, .PutItem changed userID login])

/-- The method `ItemService.DeleteItem`. -/
def ItemService.DeleteItem (s : ItemService) (id userID login : String) :
    Option GoError × List ItemCall :=
  match uuidParse id with
  | none => (some (errorsNew "invalid UUID format"), [])
  | some _ => (s.repo.DeleteItem id userID login, [.DeleteItem id userID login])

/-! ## internal/storage/postgres -/

/-- The database behind `Postgres`: the rows of `items` and `users`, and the faults
its calls may meet: `queryFault` is the error of `QueryRowWithRetry`, `scanFault` an
error of `Row.Scan` other than `sql.ErrNoRows`, `execFault` the error of a write
transaction. -/
structure Postgres where
  items : List Item
  users : List User
  queryFault : Option GoError
  scanFault : Option GoError
  execFault : Option GoError

/-- The zero value of `item.Item`. -/
def zeroItem : Item := { ID := ⟨0, 0, 0, 0, 0, 0, 0, 0, 0, 0, 0, 0, 0, 0, 0, 0⟩, Name := "",
                         Count := 0, Price := .num 0 }

/-- The method `Postgres.GetUser`: a missing row, which `Scan` reports as
`sql.ErrNoRows`, becomes the error `user not found`. -/
def Postgres.GetUser (p : Postgres) (login : String) : Option User × Option GoError :=
  match p.queryFault with
  | some err => (none, some err)
  | none =>
    match p.users.find? (fun u => u.Login == login) with
    | some u =>
      match p.scanFault with
      | some err => (none, some err)
      | none => (some u, none)
    | none => (none, some (errorsNew "user not found"))

/-- The method `Postgres.GetItem`: the row whose id is the UUID the argument denotes.
For a missing row `Scan` returns `sql.ErrNoRows`, which the method lets through: it
returns the item it declared, still zero-valued, with a nil error. -/
def Postgres.GetItem (p : Postgres) (uuid : String) : Option Item × Option GoError :=
  match p.queryFault with
  | some err => (none, some err)
  | none =>
    match p.items.find? (fun it => uuidParse uuid == some it.ID) with
    | some it =>
      match p.scanFault with
      | some err => (none, some err)
      | none => (some it, none)
    | none => (some zeroItem, none)

/-- The item store `Postgres` offers to the item service; a write on rows that do not
exist changes nothing and returns `execFault`, nil for a healthy database. -/
def Postgres.itemStore (p : Postgres) : ItemStorageProvider :=
  { CreateItem := fun _ _ _ => p.execFault
    GetItems := match p.queryFault, p.scanFault with
      | some err, _ => ([], some err)
      | none, some err => ([], some err)
      | none, none => (p.items, none)
    GetItem := p.GetItem
    PutItem := fun _ _ _ => p.execFault
    DeleteItem := fun _ _ _ => p.execFault }

/-- An argument bound to a placeholder of a query. -/
inductive SqlArg where
  | time (t : Time)
  | text (s : String)
deriving DecidableEq, Repr

/-- The query text, argument list and next placeholder number while
`GetItemsHistory` builds its query. -/
structure QueryState where
  query : String
  args : List SqlArg
  argIndex : Nat
deriving DecidableEq, Repr

/-- The text `GetItemsHistory` starts from. -/
def historySelect : String :=
  "\n        SELECT id, item_id, action, changed_by, changed_by_login, changed_at,\n"
    ++ "               old_data, new_data\n        FROM history\n        WHERE 1 = 1\n    "

/-- The query and arguments `Postgres.GetItemsHistory` builds from the five filters. -/
def Postgres.historyQuery (id : String) (fromTime toTime : Time) (action login : String) :
    QueryState :=
  let s0 : QueryState := { query := historySelect, args := [], argIndex := 1 }
  let s1 : QueryState :=
    if !Time.IsZero fromTime then
      { query := s0.query ++ " AND changed_at >= $" ++ toString s0.argIndex,
        args := s0.args ++ [.time fromTime], argIndex := s0.argIndex + 1 }
    else s0
  let s2 : QueryState :=
    if !Time.IsZero toTime then
      { query := s1.query ++ " AND changed_at <= $" ++ toString s1.argIndex,
        args := s1.args ++ [.time toTime], argIndex := s1.argIndex + 1 }
    else s1
  let s3 : QueryState :=
    if id ≠ "" then
      { query := s2.query ++ " AND item_id = $" ++ toString s2.argIndex,
        args := s2.args ++ [.text id], argIndex := s2.argIndex + 1 }
    else s2
  let s4 : QueryState :=
    if action ≠ "" then
      { query := s3.query ++ " AND action = $" ++ toString s3.argIndex,
        args := s3.args ++ [.text action], argIndex := s3.argIndex + 1 }
    else s3
  if login ≠ "" then
    { query := s4.query ++ " AND changed_by_login ILIKE $" ++ toString s4.argIndex,
      args := s4.args ++ [.text ("%" ++ login ++ "%")], argIndex := s4.argIndex }
  else s4

/-- The decimal value of a run of digits. -/
def digitsValue (ds : List Char) : Nat :=
  ds.foldl (fun n d => 10 * n + (d.toNat - 48)) 0

/-- The placeholder numbers of a query text, in order of appearance: each `$` with
the digits that follow it. -/
def placeholders : List Char → List Nat
  | [] => []
  | c :: rest =>
    if c = '$' then digitsValue (rest.takeWhile Char.isDigit) :: placeholders rest
    else placeholders rest

/-- The values of the active filters, in the order from, to, id, action, login, the
login between two percent signs. -/
def activeFilters (id : String) (fromTime toTime : Time) (action login : String) : List SqlArg :=
  (if Time.IsZero fromTime then [] else [.time fromTime])
  ++ (if Time.IsZero toTime then [] else [.time toTime])
  ++ (if id = "" then [] else [.text id])
  ++ (if action = "" then [] else [.text action])
  ++ (if login = "" then [] else [.text ("%" ++ login ++ "%")])

/-- The roles the access rules give each item and history endpoint: admin alone for
creating, deleting and both history endpoints; admin and manager for updating; all
three for listing and reading. -/
def statedRoles : Handler → List Role
  | .CreateItem => [Admin]
  | .DeleteItem => [Admin]
  | .HistoryGetItems => [Admin]
  | .HistoryGetItemsCSV => [Admin]
  | .PutItem => [Admin, Manager]
  | .GetItems => [Admin, Manager, Viewer]
  | .GetItem => [Admin, Manager, Viewer]
  | _ => []

/-- Whether a handler is one of the seven item and history endpoints. -/
def Handler.isGatedEndpoint : Handler → Bool
  | .CreateItem => true
  | .DeleteItem => true
  | .HistoryGetItems => true
  | .HistoryGetItemsCSV => true
  | .PutItem => true
  | .GetItems => true
  | .GetItem => true
  | _ => false

/-- The payload of a viewer named `bob`. -/
def viewerPayload : JWTPayload :=
  { UserID := "00000000-0000-0000-0000-000000000001", Role := Viewer, Login := "bob" }

/-- A user service that accepts the token `good` for the administrator and the token
`view` for the viewer. -/
def twoUserService : UserIFace :=
  { Login := fun _ _ => .error (errorsNew "login or password cant be empty")
    Registration := fun _ _ _ => .error (errorsNew "invalid role type")
    RefreshTokens := fun _ => .error (errorsNew "invalid refresh token")
    ValidateTokens := fun tokenStr =>
      if tokenStr = "good" then .ok adminPayload
      else if tokenStr = "view" then .ok viewerPayload
      else .error (errorsNew "invalid access token") }

/-- A history store that returns no entries and no error, as the `fakeRepo` of the
tests does. -/
def emptyHistoryStore : HistoryStorageProvider :=
  { GetItemsHistory := fun _ _ _ _ _ => ([], none) }

/-- The login filter made of the Cyrillic letter U+044F twice: two characters, four
bytes. -/
def twoLetterLogin : String := String.mk [Char.ofNat 1103, Char.ofNat 1103]

/-- The JSON text of a diff, empty where `json.Marshal` returns an error. -/
def marshalText (F : HistoryFormat) (d : ItemDiff) : String :=
  match F.jsonMarshal d with
  | .ok text => text
  | .error _ => ""

/-- The text `strconv.FormatFloat` gives a `float64` that JSON cannot hold, none for a
value that is not such a float. -/
def unsupportedText : DiffValue → Option String
  | .float .nan => some "NaN"
  | .float .posInf => some "+Inf"
  | .float .negInf => some "-Inf"
  | _ => none

/-- The error `json.Marshal` returns for a diff that holds a NaN or an infinite float
(an `UnsupportedValueError`, tag 1), none when every value can be encoded; the entries
are visited in the order of the list, `Old` before `New`. -/
def jsonUnsupported : ItemDiff → Option GoError
  | [] => none
  | (_, fd) :: rest =>
    match unsupportedText fd.Old with
    | some text => some ⟨"json: unsupported value: " ++ text, 1⟩
    | none =>
      match unsupportedText fd.New with
      | some text => some ⟨"json: unsupported value: " ++ text, 1⟩
      | none => jsonUnsupported rest

/-- A stand-in for the three formatting functions: the seconds of the instant, the
name of the item, and the keys of the diff; as `json.Marshal` does, the last one
returns an error for a diff that holds a NaN or an infinite float. -/
def plainFormat : HistoryFormat :=
  { formatRFC3339 := fun t => toString (Time.Unix t)
    sprintItem := fun it => it.Name
    jsonMarshal := fun d =>
      match jsonUnsupported d with
      | some err => .error err
      | none => .ok (String.intercalate "," (d.map Prod.fst)) }

/-- An empty output that takes every record. -/
def emptyOutput : CsvWriter := { records := [], reject := fun _ => none }

/-- The entry of the CSV test: `created` by `john`, snapshots named `old` and `new`. -/
def testEntry : History :=
  { ID := nilUUID, ItemID := nilUUID, Action := "created", ChangedBy := nilUUID,
    ChangedByLogin := "john", ChangedAt := 1735732800 * nsPerSec,
    OldItemSnapshot := { ID := nilUUID, Name := "old", Count := 0, Price := .num 0 },
    NewItemSnapshot := { ID := nilUUID, Name := "new", Count := 0, Price := .num 0 },
    ItemDiff := [] }

/-- A history store that returns the given entries, or the given error. -/
def fixedHistoryStore (result : List History) (err : Option GoError) : HistoryStorageProvider :=
  { GetItemsHistory := fun _ _ _ _ _ => (result, err) }

/-- An item whose price is NaN. -/
def nanItem : Item := { ID := nilUUID, Name := "A", Count := 1, Price := .nan }

/-- The first item of `TestDiff`. -/
def diffItemA : Item := { ID := nilUUID, Name := "A", Count := 1, Price := .num 1 }

/-- The second item of `TestDiff`. -/
def diffItemB : Item := { ID := nilUUID, Name := "B", Count := 2, Price := .num (3 / 2) }

/-- The item configuration of the service tests: names of 2 to 10 characters. -/
def itemCfg : ItemConfig := { NameMinLength := 2, NameMaxLegth := 10 }

/-- A healthy database without rows. -/
def emptyDb : Postgres :=
  { items := [], users := [], queryFault := none, scanFault := none, execFault := none }

/-- The item service over the empty database. -/
def emptyItemService : ItemService := { repo := emptyDb.itemStore, cfg := itemCfg }

/-- A well-formed UUID in text form. -/
def someId : String := "123e4567-e89b-12d3-a456-426614174000"

/-- Claims without `uuid` whose expiry, second 60, lies in the past of second 61. -/
def pastClaimsNoUuid : MapClaims :=
  [("role", .str "admin"), ("login", .str "testlogin"), ("exp", .num 60)]

/-- Claims without `uuid` and without an expiry. -/
def noExpiryClaims : MapClaims :=
  [("role", .str "admin"), ("login", .str "testlogin")]

/-- A configuration whose allowed characters are the empty string. -/
def emptyAllowedCfg : AppConfig :=
  { JwtConfig := (testCfg strictPolicy).JwtConfig
    UserConfig := { MinLength := 3, MaxLength := 10, AllowedCharacters := "",
                    CaseInsesitive := false }
    PasswordConfig := strictPolicy }

/-- A configuration whose allowed characters are the three characters `z`, `-`, `a`. -/
def reversedRangeCfg : AppConfig :=
  { JwtConfig := (testCfg strictPolicy).JwtConfig
    UserConfig := { MinLength := 3, MaxLength := 10, AllowedCharacters := "z-a",
                    CaseInsesitive := false }
    PasswordConfig := strictPolicy }

/-- Claims without `uuid` whose expiry is second 3600 and whose not-before time is
second 1800. -/
def notYetValidClaims : MapClaims :=
  [("role", .str "admin"), ("login", .str "testlogin"), ("exp", .num 3600),
    ("nbf", .num 1800)]

/-- The login filter made of the letter U+00F1 and `u`: two characters, three bytes. -/
def accentLogin : String := String.mk [Char.ofNat 241, 'u']

/-- An entry of the history whose diff records a change of name. -/
def renamedEntry : History :=
  { testEntry with Action := "updated",
                   ItemDiff := [("name", { Old := .str "old", New := .str "new" })] }

/-- An entry of the history whose diff holds a NaN price. -/
def nanEntry : History :=
  { testEntry with Action := "updated",
                   ItemDiff := [("price", { Old := .float (.num 1), New := .float .nan })] }

/-- An output that takes no record. -/
def closedOutput : CsvWriter :=
  { records := [], reject := fun _ => some ⟨"io: read/write on closed pipe", 1⟩ }

/-- Claims without `uuid` whose expiry is the number 10^19, more than an `int64`
holds. -/
def oversizedExpiryClaims : MapClaims :=
  [("role", .str "admin"), ("login", .str "testlogin"), ("exp", .num 10000000000000000000)]

/-- Claims without `uuid` whose expiry is second 60.5. -/
def halfSecondExpiryClaims : MapClaims :=
  [("role", .str "admin"), ("login", .str "testlogin"), ("exp", .num (mkRat 121 2))]

set_option maxRecDepth 20000

/-! ## Lemmas on the UUID text form -/

theorem xvalue_hexDigit (n : Fin 16) : xvalue (hexDigit n.val) = some n.val := by
  revert n; decide

theorem hexDigit_lt (n : Fin 16) : (hexDigit n.val).toNat < 128 := by
  revert n; decide

theorem xtob_hexDigit (b : Fin 256) :
    xtob (hexDigit (b.val / 16)) (hexDigit (b.val % 16)) = some b := by
  have h1 := xvalue_hexDigit ⟨b.val / 16, by omega⟩
  have h2 := xvalue_hexDigit ⟨b.val % 16, by omega⟩
  simp only [] at h1 h2
  simp only [xtob, h1, h2]
  congr 1
  apply Fin.ext
  simp [Fin.ofNat]
  omega

theorem hexDigit_div_ascii (b : Fin 256) : (hexDigit (b.val / 16)).toNat < 128 :=
  hexDigit_lt ⟨b.val / 16, by omega⟩

theorem hexDigit_mod_ascii (b : Fin 256) : (hexDigit (b.val % 16)).toNat < 128 :=
  hexDigit_lt ⟨b.val % 16, by omega⟩

theorem UUID.String_toList (b0 b1 b2 b3 b4 b5 b6 b7 b8 b9 b10 b11 b12 b13 b14 b15 : Fin 256) :
    (UUID.String ⟨b0, b1, b2, b3, b4, b5, b6, b7, b8, b9, b10, b11, b12, b13, b14, b15⟩).toList
      = [hexDigit (b0.val / 16), hexDigit (b0.val % 16), hexDigit (b1.val / 16), hexDigit (b1.val % 16), hexDigit (b2.val / 16), hexDigit (b2.val % 16), hexDigit (b3.val / 16), hexDigit (b3.val % 16), '-', hexDigit (b4.val / 16), hexDigit (b4.val % 16), hexDigit (b5.val / 16), hexDigit (b5.val % 16), '-', hexDigit (b6.val / 16), hexDigit (b6.val % 16), hexDigit (b7.val / 16), hexDigit (b7.val % 16), '-', hexDigit (b8.val / 16), hexDigit (b8.val % 16), hexDigit (b9.val / 16), hexDigit (b9.val % 16), '-', hexDigit (b10.val / 16), hexDigit (b10.val % 16), hexDigit (b11.val / 16), hexDigit (b11.val % 16), hexDigit (b12.val / 16), hexDigit (b12.val % 16), hexDigit (b13.val / 16), hexDigit (b13.val % 16), hexDigit (b14.val / 16), hexDigit (b14.val % 16), hexDigit (b15.val / 16), hexDigit (b15.val % 16)] := by
  simp only [UUID.String, encodeHex, List.cons_append, List.nil_append, String.toList]

theorem uuidParse_dashed (s : String)
    (h1 : s.toList.all (fun c => decide (c.toNat < 128)) = true) (h2 : s.toList.length = 36) :
    uuidParse s = parseDashed s.toList := by
  unfold uuidParse
  simp only [h1, h2, if_true]

theorem parseDashed_layout (x0 x1 x2 x3 x4 x5 x6 x7 x8 x9 x10 x11 x12 x13 x14 x15 x16 x17 x18 x19 x20 x21 x22 x23 x24 x25 x26 x27 x28 x29 x30 x31 : Char) (b0 b1 b2 b3 b4 b5 b6 b7 b8 b9 b10 b11 b12 b13 b14 b15 : Fin 256)
    (h0 : xtob x0 x1 = some b0) (h1 : xtob x2 x3 = some b1) (h2 : xtob x4 x5 = some b2) (h3 : xtob x6 x7 = some b3) (h4 : xtob x8 x9 = some b4) (h5 : xtob x10 x11 = some b5) (h6 : xtob x12 x13 = some b6) (h7 : xtob x14 x15 = some b7) (h8 : xtob x16 x17 = some b8) (h9 : xtob x18 x19 = some b9) (h10 : xtob x20 x21 = some b10) (h11 : xtob x22 x23 = some b11) (h12 : xtob x24 x25 = some b12) (h13 : xtob x26 x27 = some b13) (h14 : xtob x28 x29 = some b14) (h15 : xtob x30 x31 = some b15) :
    parseDashed [x0, x1, x2, x3, x4, x5, x6, x7, '-', x8, x9, x10, x11, '-', x12, x13, x14, x15, '-', x16, x17, x18, x19, '-', x20, x21, x22, x23, x24, x25, x26, x27, x28, x29, x30, x31] = some ⟨b0, b1, b2, b3, b4, b5, b6, b7, b8, b9, b10, b11, b12, b13, b14, b15⟩ := by
  simp only [parseDashed, dashedOffsets, bytesAt, byteAt, List.get?, and_self, if_true,
    h0, h1, h2, h3, h4, h5, h6, h7, h8, h9, h10, h11, h12, h13, h14, h15, Option.bind, UUID.ofBytes]

/-- Parsing the canonical text of a UUID gives the UUID back. -/
theorem uuidParse_String (u : UUID) : uuidParse u.String = some u := by
  obtain ⟨b0, b1, b2, b3, b4, b5, b6, b7, b8, b9, b10, b11, b12, b13, b14, b15⟩ := u
  rw [uuidParse_dashed, UUID.String_toList]
  · exact parseDashed_layout (hexDigit (b0.val / 16)) (hexDigit (b0.val % 16)) (hexDigit (b1.val / 16)) (hexDigit (b1.val % 16)) (hexDigit (b2.val / 16)) (hexDigit (b2.val % 16)) (hexDigit (b3.val / 16)) (hexDigit (b3.val % 16)) (hexDigit (b4.val / 16)) (hexDigit (b4.val % 16)) (hexDigit (b5.val / 16)) (hexDigit (b5.val % 16)) (hexDigit (b6.val / 16)) (hexDigit (b6.val % 16)) (hexDigit (b7.val / 16)) (hexDigit (b7.val % 16)) (hexDigit (b8.val / 16)) (hexDigit (b8.val % 16)) (hexDigit (b9.val / 16)) (hexDigit (b9.val % 16)) (hexDigit (b10.val / 16)) (hexDigit (b10.val % 16)) (hexDigit (b11.val / 16)) (hexDigit (b11.val % 16)) (hexDigit (b12.val / 16)) (hexDigit (b12.val % 16)) (hexDigit (b13.val / 16)) (hexDigit (b13.val % 16)) (hexDigit (b14.val / 16)) (hexDigit (b14.val % 16)) (hexDigit (b15.val / 16)) (hexDigit (b15.val % 16)) b0 b1 b2 b3 b4 b5 b6 b7 b8 b9 b10 b11 b12 b13 b14 b15 (xtob_hexDigit b0) (xtob_hexDigit b1) (xtob_hexDigit b2) (xtob_hexDigit b3) (xtob_hexDigit b4) (xtob_hexDigit b5) (xtob_hexDigit b6) (xtob_hexDigit b7) (xtob_hexDigit b8) (xtob_hexDigit b9) (xtob_hexDigit b10) (xtob_hexDigit b11) (xtob_hexDigit b12) (xtob_hexDigit b13) (xtob_hexDigit b14) (xtob_hexDigit b15)
  · rw [UUID.String_toList]
    simp only [List.all_cons, List.all_nil, hexDigit_div_ascii, hexDigit_mod_ascii, decide_True,
      Bool.and_self, Bool.and_true, Bool.true_and]
    decide
  · rw [UUID.String_toList]
    rfl

/-! ## Lemmas on issuing and parsing tokens -/

theorem lookup_userClaims_uuid (u : User) (e : Int) :
    (userClaims u e).lookup "uuid" = some (.str u.Id.String) := by
  simp [userClaims, List.lookup]

theorem lookup_userClaims_role (u : User) (e : Int) :
    (userClaims u e).lookup "role" = some (.str u.Role) := by
  simp [userClaims, List.lookup]

theorem lookup_userClaims_login (u : User) (e : Int) :
    (userClaims u e).lookup "login" = some (.str u.Login) := by
  simp [userClaims, List.lookup]

theorem lookup_userClaims_exp (u : User) (e : Int) :
    (userClaims u e).lookup "exp" = some (.num e) := by
  simp [userClaims, List.lookup]

theorem lookup_userClaims_nbf (u : User) (e : Int) :
    (userClaims u e).lookup "nbf" = none := by
  simp [userClaims, List.lookup]

theorem truncate_intCast (e : Int) : truncate (e : ℚ) = e := by
  unfold truncate
  split <;> simp

theorem toInt64_idem (n : Int) : toInt64 (toInt64 n) = toInt64 n := by
  unfold toInt64
  by_cases h : -2 ^ 63 ≤ n ∧ n < 2 ^ 63
  · rw [if_pos h, if_pos h]
  · rw [if_neg h]
    decide

theorem toInt64_of_range (n : Int) (h1 : -2 ^ 63 ≤ n) (h2 : n < 2 ^ 63) : toInt64 n = n := by
  unfold toInt64
  rw [if_pos ⟨h1, h2⟩]

theorem int64OfFloat_intCast (e : Int) : int64OfFloat (e : ℚ) = toInt64 e := by
  unfold int64OfFloat
  rw [truncate_intCast]

theorem timeUnix_int64OfFloat (e : Int) : timeUnix (int64OfFloat (e : ℚ)) = timeUnix e := by
  unfold timeUnix
  rw [int64OfFloat_intCast, toInt64_idem]

theorem newNumericDate_intCast (e : Int) : newNumericDateFromSeconds (e : ℚ) = timeUnix e := by
  have h0 : toInt64 0 = 0 := by decide
  simp [newNumericDateFromSeconds, truncate_intCast, timeUnix, h0]

theorem validateClaims_userClaims (u : User) (e : Int) (now : Time) (h : now < timeUnix e) :
    validateClaims (userClaims u e) now = true := by
  simp only [validateClaims, verifyExpiresAt, verifyNotBefore, parseNumericDate,
    lookup_userClaims_exp, lookup_userClaims_nbf, Bool.and_true]
  by_cases h0 : e = 0
  · simp [h0]
  · simp [h0, Time.Before, h, newNumericDate_intCast]

theorem verifySignature_signed (L : JwtLib) (key signingString : String) :
    verifySignature L "HS256" key signingString (L.hmac "HS256" key signingString) = true := by
  simp [verifySignature, hmacAlgs]

theorem jwtParse_signedString (L : JwtLib) (key : String) (claims : MapClaims) (now : Time)
    (h : validateClaims claims now = true) :
    jwtParse L key (signedString L claims key) now = some claims := by
  simp [jwtParse, signedString, verifySignature_signed, h]

theorem validateAccessToken_signed (L : JwtLib) (s : JWTService) (u : User) (e : Int)
    (tParse tCheck : Time) (hParse : tParse < timeUnix e) (hCheck : tCheck ≤ timeUnix e) :
    s.validateAccessToken L (signedString L (userClaims u e) s.accessSecret) tParse tCheck
      = .ok (userClaims u e) := by
  have hnot : ¬ (timeUnix e < tCheck) := not_lt.mpr hCheck
  simp [JWTService.validateAccessToken, jwtParse_signedString,
    validateClaims_userClaims u e tParse hParse, lookup_userClaims_exp, Time.Before, hnot,
    timeUnix_int64OfFloat]

theorem validateRefreshToken_signed (L : JwtLib) (s : JWTService) (u : User) (e : Int)
    (tParse tCheck : Time) (hParse : tParse < timeUnix e) (hCheck : tCheck ≤ timeUnix e) :
    s.validateRefreshToken L (signedString L (userClaims u e) s.refreshSecret) tParse tCheck
      = .ok (userClaims u e) := by
  have hnot : ¬ (timeUnix e < tCheck) := not_lt.mpr hCheck
  simp [JWTService.validateRefreshToken, jwtParse_signedString,
    validateClaims_userClaims u e tParse hParse, lookup_userClaims_exp, Time.Before, hnot,
    timeUnix_int64OfFloat]

theorem ValidateTokens_signed (L : JwtLib) (s : JWTService) (u : User) (e : Int)
    (tParse tCheck : Time) (hParse : tParse < timeUnix e) (hCheck : tCheck ≤ timeUnix e) :
    s.ValidateTokens L (signedString L (userClaims u e) s.accessSecret) tParse tCheck
      = .ok { UserID := u.Id.String, Role := u.Role, Login := u.Login } := by
  simp [JWTService.ValidateTokens, validateAccessToken_signed L s u e tParse tCheck hParse hCheck,
    lookup_userClaims_uuid, lookup_userClaims_role, lookup_userClaims_login]

theorem GenerateTokens_eq (L : JwtLib) (s : JWTService) (u : User) (tA tR : Time) :
    s.GenerateTokens L u tA tR
      = .ok { AccessToken :=
                signedString L (userClaims u (expiryClaim tA timeMinute s.jwtExpAccessToken))
                  s.accessSecret
              RefreshToken :=
                signedString L (userClaims u (expiryClaim tR timeHour s.jwtExpRefreshToken))
                  s.refreshSecret
              AccessExpiresIn := 0
              RefreshExpiresIn := 0
              TokenType := "" } := rfl

/-! ## Token round trips -/

/-- C1: for every user and service (whatever the access lifetime, so in particular one
of at least a minute), `ValidateTokens` applied to the access token of `GenerateTokens`
while both of its clock readings are before the token's expiry succeeds, and the
payload carries the user's id text, role and login. -/
theorem validate_issued_access_token (L : JwtLib) (s : JWTService) (u : User)
    (tA tR tParse tCheck : Time)
    (hParse : tParse < timeUnix (expiryClaim tA timeMinute s.jwtExpAccessToken))
    (hCheck : tCheck < timeUnix (expiryClaim tA timeMinute s.jwtExpAccessToken)) :
    ∃ r, s.GenerateTokens L u tA tR = .ok r ∧
      s.ValidateTokens L r.AccessToken tParse tCheck
        = .ok { UserID := u.Id.String, Role := u.Role, Login := u.Login } :=
  ⟨_, GenerateTokens_eq L s u tA tR,
    ValidateTokens_signed L s u _ tParse tCheck hParse (le_of_lt hCheck)⟩

/-- C1 at the test service: a token issued at the epoch is validated 59 seconds later. -/
theorem validate_issued_access_token_witness :
    (59 * nsPerSec < timeUnix (expiryClaim 0 timeMinute testJWT.jwtExpAccessToken)) ∧
    ∃ r, testJWT.GenerateTokens plainLib testUser 0 0 = .ok r ∧
      testJWT.ValidateTokens plainLib r.AccessToken (59 * nsPerSec) (59 * nsPerSec)
        = .ok { UserID := testUser.Id.String, Role := testUser.Role, Login := testUser.Login } :=
  ⟨by decide,
    validate_issued_access_token plainLib testJWT testUser 0 0 (59 * nsPerSec) (59 * nsPerSec)
      (by decide) (by decide)⟩

theorem uuidMustParse_String (u : UUID) : uuidMustParse u.String = .ok u := by
  simp [uuidMustParse, uuidParse_String]

theorem RefreshTokens_signed (L : JwtLib) (s : JWTService) (u : User) (e : Int)
    (tParse tCheck tA tR : Time) (hParse : tParse < timeUnix e) (hCheck : tCheck ≤ timeUnix e) :
    s.RefreshTokens L (signedString L (userClaims u e) s.refreshSecret) tParse tCheck tA tR
      = s.GenerateTokens L
          { Id := u.Id, Login := u.Login, Password := "", Role := u.Role, CreatedAt := zeroTime }
          tA tR := by
  simp [JWTService.RefreshTokens, validateRefreshToken_signed L s u e tParse tCheck hParse hCheck,
    lookup_userClaims_uuid, lookup_userClaims_role, lookup_userClaims_login,
    uuidMustParse_String]

theorem jwtParse_wrong_key (L : JwtLib) (key other : String) (claims : MapClaims) (now : Time)
    (h : L.hmac "HS256" key (L.signingString claims)
      ≠ L.hmac "HS256" other (L.signingString claims)) :
    jwtParse L key (signedString L claims other) now = none := by
  simp [jwtParse, signedString, verifySignature, h]

/-- C2 fails as stated: with both secrets equal to `shared-secret` and lifetimes of
one minute and one hour, the access verifier accepts the refresh token of
`GenerateTokens` and the refresh verifier accepts the access token. -/
theorem shared_secret_accepts_other_class :
    (NewJWTService sharedSecretCfg).GenerateTokens plainLib testUser 0 0
        = .ok { AccessToken := signedString plainLib (userClaims testUser 60) "shared-secret"
                RefreshToken := signedString plainLib (userClaims testUser 3600) "shared-secret"
                AccessExpiresIn := 0, RefreshExpiresIn := 0, TokenType := "" } ∧
      (NewJWTService sharedSecretCfg).ValidateTokens plainLib
          (signedString plainLib (userClaims testUser 3600) "shared-secret") 0 0
        = .ok { UserID := testUser.Id.String, Role := Admin, Login := "testlogin" } ∧
      (NewJWTService sharedSecretCfg).RefreshTokens plainLib
          (signedString plainLib (userClaims testUser 60) "shared-secret") 0 0 0 0
        = .ok { AccessToken := signedString plainLib (userClaims testUser 60) "shared-secret"
                RefreshToken := signedString plainLib (userClaims testUser 3600) "shared-secret"
                AccessExpiresIn := 0, RefreshExpiresIn := 0, TokenType := "" } := by
  refine ⟨by decide, ?_, ?_⟩
  · exact ValidateTokens_signed plainLib (NewJWTService sharedSecretCfg) testUser 3600 0 0
      (by decide) (by decide)
  · exact (RefreshTokens_signed plainLib (NewJWTService sharedSecretCfg) testUser 60 0 0 0 0
      (by decide) (by decide)).trans (by decide)

/-- C2, amended: for every configuration, user and pair of issuing clock readings,
`GenerateTokens` returns a pair such that: if the refresh token is signed differently
under the access secret than under the refresh secret, `ValidateTokens` rejects it with
`invalid access token` at every clock reading; if the access token is signed
differently under the refresh secret than under the access secret, `RefreshTokens`
rejects it with `invalid refresh token` at every clock reading; and, applied before the
respective expiry, `RefreshTokens` accepts the refresh token and `ValidateTokens` the
access token. -/
theorem token_classes_are_separate (L : JwtLib) (cfg : AppConfig) (u : User) (tA tR : Time) :
    ∃ r, (NewJWTService cfg).GenerateTokens L u tA tR = .ok r ∧
      (L.hmac "HS256" cfg.JwtConfig.JwtAccessSecret (L.signingString r.RefreshToken.claims)
          ≠ L.hmac "HS256" cfg.JwtConfig.JwtRefreshSecret
              (L.signingString r.RefreshToken.claims) →
        ∀ tParse tCheck : Time,
          (NewJWTService cfg).ValidateTokens L r.RefreshToken tParse tCheck
            = .error (errorsNew "invalid access token")) ∧
      (L.hmac "HS256" cfg.JwtConfig.JwtRefreshSecret (L.signingString r.AccessToken.claims)
          ≠ L.hmac "HS256" cfg.JwtConfig.JwtAccessSecret
              (L.signingString r.AccessToken.claims) →
        ∀ tParse tCheck tA2 tR2 : Time,
          (NewJWTService cfg).RefreshTokens L r.AccessToken tParse tCheck tA2 tR2
            = .error (errorsNew "invalid refresh token")) ∧
      (∀ tParse tCheck tA2 tR2 : Time,
        tParse < timeUnix (expiryClaim tR timeHour cfg.JwtConfig.JwtExpRefreshToken) →
        tCheck < timeUnix (expiryClaim tR timeHour cfg.JwtConfig.JwtExpRefreshToken) →
        ∃ r2, (NewJWTService cfg).RefreshTokens L r.RefreshToken tParse tCheck tA2 tR2
          = .ok r2) ∧
      (∀ tParse tCheck : Time,
        tParse < timeUnix (expiryClaim tA timeMinute cfg.JwtConfig.JwtExpAccessToken) →
        tCheck < timeUnix (expiryClaim tA timeMinute cfg.JwtConfig.JwtExpAccessToken) →
        (NewJWTService cfg).ValidateTokens L r.AccessToken tParse tCheck
          = .ok { UserID := u.Id.String, Role := u.Role, Login := u.Login }) := by
  refine ⟨_, GenerateTokens_eq L (NewJWTService cfg) u tA tR, ?_, ?_, ?_, ?_⟩
  · intro hsep tParse tCheck
    have h := jwtParse_wrong_key L cfg.JwtConfig.JwtAccessSecret cfg.JwtConfig.JwtRefreshSecret
      (userClaims u (expiryClaim tR timeHour cfg.JwtConfig.JwtExpRefreshToken)) tParse hsep
    simp only [JWTService.ValidateTokens, JWTService.validateAccessToken, NewJWTService] at h ⊢
    rw [h]
  · intro hsep tParse tCheck tA2 tR2
    have h := jwtParse_wrong_key L cfg.JwtConfig.JwtRefreshSecret cfg.JwtConfig.JwtAccessSecret
      (userClaims u (expiryClaim tA timeMinute cfg.JwtConfig.JwtExpAccessToken)) tParse hsep
    simp only [JWTService.RefreshTokens, JWTService.validateRefreshToken, NewJWTService] at h ⊢
    rw [h]
  · intro tParse tCheck tA2 tR2 hParseR hCheckR
    exact ⟨_, (RefreshTokens_signed L (NewJWTService cfg) u _ tParse tCheck tA2 tR2 hParseR
      (le_of_lt hCheckR)).trans (GenerateTokens_eq _ _ _ _ _)⟩
  · intro tParse tCheck hParseA hCheckA
    exact ValidateTokens_signed L (NewJWTService cfg) u _ tParse tCheck hParseA (le_of_lt hCheckA)

/-- C2, amended, at the test configuration (secrets `access-secret` and
`refresh-secret`), with the tokens issued at the epoch: each token is turned down by
the verifier of the other class both 59 seconds later and two hours later, after both
have expired, and accepted by its own verifier 59 seconds later. -/
theorem token_classes_are_separate_witness :
    ∃ r, (NewJWTService (testCfg strictPolicy)).GenerateTokens plainLib testUser 0 0 = .ok r ∧
      (NewJWTService (testCfg strictPolicy)).ValidateTokens plainLib r.RefreshToken
          (59 * nsPerSec) (59 * nsPerSec)
        = .error (errorsNew "invalid access token") ∧
      (NewJWTService (testCfg strictPolicy)).ValidateTokens plainLib r.RefreshToken
          (7200 * nsPerSec) (7200 * nsPerSec)
        = .error (errorsNew "invalid access token") ∧
      (NewJWTService (testCfg strictPolicy)).RefreshTokens plainLib r.AccessToken
          (59 * nsPerSec) (59 * nsPerSec) (60 * nsPerSec) (60 * nsPerSec)
        = .error (errorsNew "invalid refresh token") ∧
      (NewJWTService (testCfg strictPolicy)).RefreshTokens plainLib r.AccessToken
          (7200 * nsPerSec) (7200 * nsPerSec) (7200 * nsPerSec) (7200 * nsPerSec)
        = .error (errorsNew "invalid refresh token") ∧
      (∃ r2, (NewJWTService (testCfg strictPolicy)).RefreshTokens plainLib r.RefreshToken
          (59 * nsPerSec) (59 * nsPerSec) (60 * nsPerSec) (60 * nsPerSec) = .ok r2) ∧
      (NewJWTService (testCfg strictPolicy)).ValidateTokens plainLib r.AccessToken
          (59 * nsPerSec) (59 * nsPerSec)
        = .ok { UserID := testUser.Id.String, Role := testUser.Role, Login := testUser.Login } :=
  match token_classes_are_separate plainLib (testCfg strictPolicy) testUser 0 0 with
  | ⟨r, hgen, hrej1, hrej2, hacc1, hacc2⟩ =>
    have hr : r = { AccessToken := signedString plainLib (userClaims testUser 60) "access-secret"
                    RefreshToken :=
                      signedString plainLib (userClaims testUser 3600) "refresh-secret"
                    AccessExpiresIn := 0, RefreshExpiresIn := 0, TokenType := "" } := by
      have h2 : (NewJWTService (testCfg strictPolicy)).GenerateTokens plainLib testUser 0 0
          = .ok { AccessToken :=
                    signedString plainLib (userClaims testUser 60) "access-secret"
                  RefreshToken :=
                    signedString plainLib (userClaims testUser 3600) "refresh-secret"
                  AccessExpiresIn := 0, RefreshExpiresIn := 0, TokenType := "" } := by decide
      rw [h2] at hgen
      injection hgen with hgen
      exact hgen.symm
    have hs1 : plainLib.hmac "HS256" (testCfg strictPolicy).JwtConfig.JwtAccessSecret
          (plainLib.signingString r.RefreshToken.claims)
        ≠ plainLib.hmac "HS256" (testCfg strictPolicy).JwtConfig.JwtRefreshSecret
          (plainLib.signingString r.RefreshToken.claims) := by
      rw [hr]; decide
    have hs2 : plainLib.hmac "HS256" (testCfg strictPolicy).JwtConfig.JwtRefreshSecret
          (plainLib.signingString r.AccessToken.claims)
        ≠ plainLib.hmac "HS256" (testCfg strictPolicy).JwtConfig.JwtAccessSecret
          (plainLib.signingString r.AccessToken.claims) := by
      rw [hr]; decide
    ⟨r, hgen, hrej1 hs1 _ _, hrej1 hs1 _ _, hrej2 hs2 _ _ _ _, hrej2 hs2 _ _ _ _,
      hacc1 (59 * nsPerSec) (59 * nsPerSec) (60 * nsPerSec) (60 * nsPerSec)
        (by decide) (by decide),
      hacc2 (59 * nsPerSec) (59 * nsPerSec) (by decide) (by decide)⟩

/-! ## Expiry and payload errors -/

/-- C3, the code at the failing inputs: a token signed with the class secret that
carries uuid, role and login and whose `exp` is in the past, equal to the clock, or not
a number is turned down by `jwt.Parse` itself, so `ValidateTokens` answers
`invalid access token` and `RefreshTokens` answers `invalid refresh token`; the
branches `token has expired` and `refresh token has expired` are not reached. -/
theorem expired_token_reported_as_invalid :
    testJWT.ValidateTokens plainLib (signedString plainLib (userClaims testUser 60) "access-secret")
        (61 * nsPerSec) (61 * nsPerSec) = .error (errorsNew "invalid access token") ∧
    testJWT.ValidateTokens plainLib (signedString plainLib (userClaims testUser 60) "access-secret")
        (60 * nsPerSec) (60 * nsPerSec) = .error (errorsNew "invalid access token") ∧
    testJWT.ValidateTokens plainLib (signedString plainLib textExpiryClaims "access-secret")
        0 0 = .error (errorsNew "invalid access token") ∧
    testJWT.RefreshTokens plainLib
        (signedString plainLib (userClaims testUser 3600) "refresh-secret")
        (3601 * nsPerSec) (3601 * nsPerSec) (3601 * nsPerSec) (3601 * nsPerSec)
      = .error (errorsNew "invalid refresh token") := by
  refine ⟨by decide, by decide, by decide, by decide⟩

theorem ValidateTokens_of_claims (L : JwtLib) (s : JWTService) (tokenStr : TokenStr)
    (claims : MapClaims) (tParse tCheck : Time)
    (h : s.validateAccessToken L tokenStr tParse tCheck = .ok claims)
    (hmiss : (hasString claims "uuid" && hasString claims "role" && hasString claims "login")
      = false) :
    s.ValidateTokens L tokenStr tParse tCheck = .error (errorsNew "invalid token payload") := by
  simp only [JWTService.ValidateTokens, h]
  simp only [hasString] at hmiss
  split <;> [skip; rfl]
  split <;> [skip; rfl]
  split <;> [skip; rfl]
  simp_all

theorem RefreshTokens_of_claims (L : JwtLib) (s : JWTService) (tokenStr : TokenStr)
    (claims : MapClaims) (tParse tCheck tA tR : Time)
    (h : s.validateRefreshToken L tokenStr tParse tCheck = .ok claims)
    (hmiss : (hasString claims "uuid" && hasString claims "role" && hasString claims "login")
      = false) :
    s.RefreshTokens L tokenStr tParse tCheck tA tR
      = .error (errorsNew "invalid refresh token payload") := by
  simp only [JWTService.RefreshTokens, h]
  simp only [hasString] at hmiss
  split <;> [skip; rfl]
  split <;> [skip; rfl]
  split <;> [skip; rfl]
  simp_all

theorem jwtParse_of_valid (L : JwtLib) (key alg signingString signature : String)
    (claims : MapClaims) (x : ℚ) (now : Time)
    (hsig : verifySignature L alg key signingString signature = true)
    (hexp : claims.lookup "exp" = some (.num x)) (hnow : now < newNumericDateFromSeconds x)
    (hnbf : verifyNotBefore claims now = true) :
    jwtParse L key (.jws alg signingString claims signature) now = some claims := by
  have hv : verifyExpiresAt claims now = true := by
    simp only [verifyExpiresAt, parseNumericDate, hexp]
    by_cases h0 : x = 0
    · simp [h0]
    · simp [h0, Time.Before, hnow]
  simp [jwtParse, hsig, validateClaims, hv, hnbf]

/-- An expiry that an `int64` does not hold is converted to the second -2^63, long
past, and an expiry of second 60.5 is read as second 60: the parser turns down both
tokens, the second at 60.2 seconds, and accepts the second at 59 seconds, where the
missing `uuid` is then reported. -/
theorem expiry_conversions :
    newNumericDateFromSeconds 10000000000000000000 = -(2 ^ 63) * nsPerSec ∧
    testJWT.ValidateTokens plainLib (signedString plainLib oversizedExpiryClaims "access-secret")
        0 0 = .error (errorsNew "invalid access token") ∧
    newNumericDateFromSeconds (mkRat 121 2) = 60 * nsPerSec ∧
    testJWT.ValidateTokens plainLib
        (signedString plainLib halfSecondExpiryClaims "access-secret")
        60200000000 60200000000 = .error (errorsNew "invalid access token") ∧
    testJWT.ValidateTokens plainLib
        (signedString plainLib halfSecondExpiryClaims "access-secret")
        (59 * nsPerSec) (59 * nsPerSec) = .error (errorsNew "invalid token payload") := by
  refine ⟨by decide, by decide, by decide, by decide, by decide⟩

/-- C4 fails as stated: a token signed with the class secret whose expiry, second
3600, is ahead of the clock at second 60, and which lacks `uuid`, is not answered with
the payload error when it carries a not-before time, second 1800, that has not come:
`jwt.Parse` turns it down, so `ValidateTokens` answers `invalid access token` and
`RefreshTokens` answers `invalid refresh token`. -/
theorem unmet_not_before_hides_missing_identity :
    hasString notYetValidClaims "uuid" = false ∧
    notYetValidClaims.lookup "exp" = some (.num 3600) ∧
    60 * nsPerSec < timeUnix 3600 ∧
    testJWT.ValidateTokens plainLib (signedString plainLib notYetValidClaims "access-secret")
        (60 * nsPerSec) (60 * nsPerSec) = .error (errorsNew "invalid access token") ∧
    testJWT.RefreshTokens plainLib (signedString plainLib notYetValidClaims "refresh-secret")
        (60 * nsPerSec) (60 * nsPerSec) (60 * nsPerSec) (60 * nsPerSec)
      = .error (errorsNew "invalid refresh token") := by
  refine ⟨by decide, by decide, by decide, by decide, by decide⟩

/-- C4, amended: a token with a valid signature under the access secret, a numeric
`exp` whose instant, as the parser reads it and as the service reads it, is after the
clock reading of each, and a not-before time that is absent or has come, whose claims
lack `uuid`, `role` or `login` as a string, makes `ValidateTokens` fail with
`invalid token payload`; the same token under the refresh secret makes `RefreshTokens`
fail with `invalid refresh token payload`, so no token pair is issued. -/
theorem missing_identity_field_rejected (L : JwtLib) (s : JWTService)
    (alg signingString signature : String) (claims : MapClaims) (x : ℚ)
    (tParse tCheck tA tR : Time)
    (hexp : claims.lookup "exp" = some (.num x))
    (hParse : tParse < newNumericDateFromSeconds x)
    (hCheck : tCheck < timeUnix (int64OfFloat x))
    (hnbf : verifyNotBefore claims tParse = true)
    (hmiss : (hasString claims "uuid" && hasString claims "role" && hasString claims "login")
      = false) :
    (verifySignature L alg s.accessSecret signingString signature = true →
      s.ValidateTokens L (.jws alg signingString claims signature) tParse tCheck
        = .error (errorsNew "invalid token payload")) ∧
    (verifySignature L alg s.refreshSecret signingString signature = true →
      s.RefreshTokens L (.jws alg signingString claims signature) tParse tCheck tA tR
        = .error (errorsNew "invalid refresh token payload")) := by
  have hnot : ¬ (timeUnix (int64OfFloat x) < tCheck) := not_lt.mpr (le_of_lt hCheck)
  constructor
  · intro hsig
    apply ValidateTokens_of_claims L s _ claims tParse tCheck _ hmiss
    simp [JWTService.validateAccessToken,
      jwtParse_of_valid L _ alg signingString signature claims x tParse hsig hexp hParse hnbf,
      hexp, Time.Before, hnot]
  · intro hsig
    apply RefreshTokens_of_claims L s _ claims tParse tCheck tA tR _ hmiss
    simp [JWTService.validateRefreshToken,
      jwtParse_of_valid L _ alg signingString signature claims x tParse hsig hexp hParse hnbf,
      hexp, Time.Before, hnot]

/-- C4, amended, at the tokens of the tests: claims `login`, `role` and an expiry one
minute ahead, without `uuid`, signed with each of the two test secrets. -/
theorem missing_identity_field_rejected_witness :
    (testJWT.ValidateTokens plainLib
        (.jws "HS256" "h.c" [("login", .str "test"), ("role", .str "admin"), ("exp", .num 60)]
          "HS256/access-secret/h.c") 0 0
      = .error (errorsNew "invalid token payload")) ∧
    (testJWT.RefreshTokens plainLib
        (.jws "HS256" "h.c" [("login", .str "test"), ("role", .str "admin"), ("exp", .num 60)]
          "HS256/refresh-secret/h.c") 0 0 0 0
      = .error (errorsNew "invalid refresh token payload")) :=
  ⟨(missing_identity_field_rejected plainLib testJWT "HS256" "h.c" "HS256/access-secret/h.c"
      [("login", .str "test"), ("role", .str "admin"), ("exp", .num 60)] 60 0 0 0 0
      (by decide) (by decide) (by decide) (by decide) (by decide)).1 (by decide),
   (missing_identity_field_rejected plainLib testJWT "HS256" "h.c" "HS256/refresh-secret/h.c"
      [("login", .str "test"), ("role", .str "admin"), ("exp", .num 60)] 60 0 0 0 0
      (by decide) (by decide) (by decide) (by decide) (by decide)).2 (by decide)⟩

/-- C5, the code at the failing input: for a refresh token that is correctly signed
and unexpired and whose `uuid` claim is the string `not-a-uuid`, `RefreshTokens` does
not return an error: `uuid.MustParse` panics. -/
theorem refresh_panics_on_bad_uuid :
    testJWT.RefreshTokens plainLib (signedString plainLib badUuidClaims "refresh-secret") 0 0 0 0
      = .panic "uuid: Parse(not-a-uuid)" := by
  decide

/-- C6: `RefreshTokens` applied, before its expiry, to the refresh token of
`GenerateTokens` succeeds; it takes the token and clock readings only, never a store
(the service method hands the call to the token service whatever its store is); the two
new tokens are non-empty; and `ValidateTokens` of the new access token, before that
token's expiry, returns the id text, role and login of the user. -/
theorem refresh_reissues_same_identity (L : JwtLib) (s : JWTService) (u : User)
    (tA tR tParse tCheck tA2 tR2 tParse2 tCheck2 : Time)
    (hParse : tParse < timeUnix (expiryClaim tR timeHour s.jwtExpRefreshToken))
    (hCheck : tCheck < timeUnix (expiryClaim tR timeHour s.jwtExpRefreshToken))
    (hParse2 : tParse2 < timeUnix (expiryClaim tA2 timeMinute s.jwtExpAccessToken))
    (hCheck2 : tCheck2 < timeUnix (expiryClaim tA2 timeMinute s.jwtExpAccessToken)) :
    ∃ r r2, s.GenerateTokens L u tA tR = .ok r ∧
      s.RefreshTokens L r.RefreshToken tParse tCheck tA2 tR2 = .ok r2 ∧
      (∀ repo repo2 cfg, (NewUserService repo (s.asProvider L tParse tCheck tA2 tR2) cfg).RefreshTokens
          r.RefreshToken
        = (NewUserService repo2 (s.asProvider L tParse tCheck tA2 tR2) cfg).RefreshTokens
          r.RefreshToken) ∧
      r2.AccessToken.isEmpty = false ∧ r2.RefreshToken.isEmpty = false ∧
      s.ValidateTokens L r2.AccessToken tParse2 tCheck2
        = .ok { UserID := u.Id.String, Role := u.Role, Login := u.Login } := by
  refine ⟨_, _, GenerateTokens_eq L s u tA tR,
    (RefreshTokens_signed L s u _ tParse tCheck tA2 tR2 hParse (le_of_lt hCheck)).trans
      (GenerateTokens_eq _ _ _ _ _), fun _ _ _ => rfl, rfl, rfl, ?_⟩
  exact ValidateTokens_signed L s
    { Id := u.Id, Login := u.Login, Password := "", Role := u.Role, CreatedAt := zeroTime }
    _ tParse2 tCheck2 hParse2 (le_of_lt hCheck2)

/-- C6 at the test service: tokens issued at the epoch, refreshed 59 seconds later, the
new access token validated 30 seconds after that. -/
theorem refresh_reissues_same_identity_witness :
    59 * nsPerSec < timeUnix (expiryClaim 0 timeHour testJWT.jwtExpRefreshToken) ∧
    89 * nsPerSec
      < timeUnix (expiryClaim (59 * nsPerSec) timeMinute testJWT.jwtExpAccessToken) ∧
    ∃ r r2, testJWT.GenerateTokens plainLib testUser 0 0 = .ok r ∧
      testJWT.RefreshTokens plainLib r.RefreshToken (59 * nsPerSec) (59 * nsPerSec)
        (59 * nsPerSec) (59 * nsPerSec) = .ok r2 ∧
      (∀ repo repo2 cfg,
        (NewUserService repo (testJWT.asProvider plainLib (59 * nsPerSec) (59 * nsPerSec)
            (59 * nsPerSec) (59 * nsPerSec)) cfg).RefreshTokens r.RefreshToken
        = (NewUserService repo2 (testJWT.asProvider plainLib (59 * nsPerSec) (59 * nsPerSec)
            (59 * nsPerSec) (59 * nsPerSec)) cfg).RefreshTokens r.RefreshToken) ∧
      r2.AccessToken.isEmpty = false ∧ r2.RefreshToken.isEmpty = false ∧
      testJWT.ValidateTokens plainLib r2.AccessToken (89 * nsPerSec) (89 * nsPerSec)
        = .ok { UserID := testUser.Id.String, Role := testUser.Role, Login := testUser.Login } :=
  ⟨by decide, by decide,
    refresh_reissues_same_identity plainLib testJWT testUser 0 0 (59 * nsPerSec) (59 * nsPerSec)
      (59 * nsPerSec) (59 * nsPerSec) (89 * nsPerSec) (89 * nsPerSec)
      (by decide) (by decide) (by decide) (by decide)⟩

/-! ## The expiry claim -/

theorem wrapInt64_of_range (x : Int) (h1 : -2 ^ 63 ≤ x) (h2 : x < 2 ^ 63) : wrapInt64 x = x := by
  unfold wrapInt64
  have h : (x + 2 ^ 63) % 2 ^ 64 = x + 2 ^ 63 := Int.emod_eq_of_lt (by omega) (by omega)
  omega

theorem expiryClaim_minute (now : Time) (ttl : Int) (h1 : -2 ^ 63 ≤ timeMinute * ttl)
    (h2 : timeMinute * ttl < 2 ^ 63) :
    expiryClaim now timeMinute ttl = Time.Unix now + 60 * ttl := by
  unfold expiryClaim
  rw [wrapInt64_of_range _ h1 h2]
  unfold Time.Unix Time.Add timeMinute
  have h : now + 60 * nsPerSec * ttl = now + (60 * ttl) * nsPerSec := by ring
  rw [h, Int.add_mul_ediv_right _ _ (by decide)]

theorem expiryClaim_hour (now : Time) (ttl : Int) (h1 : -2 ^ 63 ≤ timeHour * ttl)
    (h2 : timeHour * ttl < 2 ^ 63) :
    expiryClaim now timeHour ttl = Time.Unix now + 3600 * ttl := by
  unfold expiryClaim
  rw [wrapInt64_of_range _ h1 h2]
  unfold Time.Unix Time.Add timeHour
  have h : now + 3600 * nsPerSec * ttl = now + (3600 * ttl) * nsPerSec := by ring
  rw [h, Int.add_mul_ediv_right _ _ (by decide)]

/-- C7 fails as stated: with lifetimes of 153722868 minutes and 2562048 hours the
duration products wrap, and the tokens issued at the epoch carry the expiries
-9223371994 and -9223371274 instead of 60 * 153722868 and 3600 * 2562048. -/
theorem expiry_wraps_for_long_lifetimes :
    longLivedJWT.GenerateTokens plainLib testUser 0 0
        = .ok { AccessToken :=
                  signedString plainLib (userClaims testUser (-9223371994)) "access-secret"
                RefreshToken :=
                  signedString plainLib (userClaims testUser (-9223371274)) "refresh-secret"
                AccessExpiresIn := 0, RefreshExpiresIn := 0, TokenType := "" } ∧
      (-9223371994 : Int) ≠ Time.Unix 0 + 60 * longLivedJWT.jwtExpAccessToken ∧
      (-9223371274 : Int) ≠ Time.Unix 0 + 3600 * longLivedJWT.jwtExpRefreshToken := by
  refine ⟨by decide, by decide, by decide⟩

/-- C7, amended: when the lifetime in nanoseconds fits an `int64` (up to 153722867
minutes, and 2562047 hours, either way), the `exp` claim of the access token is the
Unix second of its generator's clock reading plus 60 times the access lifetime, and
that of the refresh token is the Unix second of its own reading plus 3600 times the
refresh lifetime. -/
theorem expiry_claims_of_issued_tokens (L : JwtLib) (s : JWTService) (u : User) (tA tR : Time)
    (hA1 : -2 ^ 63 ≤ timeMinute * s.jwtExpAccessToken)
    (hA2 : timeMinute * s.jwtExpAccessToken < 2 ^ 63)
    (hR1 : -2 ^ 63 ≤ timeHour * s.jwtExpRefreshToken)
    (hR2 : timeHour * s.jwtExpRefreshToken < 2 ^ 63) :
    ∃ r, s.GenerateTokens L u tA tR = .ok r ∧
      r.AccessToken.claims.lookup "exp"
        = some (.num (Time.Unix tA + 60 * s.jwtExpAccessToken)) ∧
      r.RefreshToken.claims.lookup "exp"
        = some (.num (Time.Unix tR + 3600 * s.jwtExpRefreshToken)) := by
  refine ⟨_, GenerateTokens_eq L s u tA tR, ?_, ?_⟩
  · simp only [signedString, TokenStr.claims, lookup_userClaims_exp,
      expiryClaim_minute tA _ hA1 hA2]
    push_cast
    rfl
  · simp only [signedString, TokenStr.claims, lookup_userClaims_exp,
      expiryClaim_hour tR _ hR1 hR2]
    push_cast
    rfl

/-- C7, amended, at the test service: issued half a second after the epoch with
lifetimes of one minute and one hour, the tokens expire at seconds 60 and 3600. -/
theorem expiry_claims_of_issued_tokens_witness :
    ∃ r, testJWT.GenerateTokens plainLib testUser 500000000 500000000 = .ok r ∧
      r.AccessToken.claims.lookup "exp"
        = some (.num (Time.Unix 500000000 + 60 * testJWT.jwtExpAccessToken)) ∧
      r.RefreshToken.claims.lookup "exp"
        = some (.num (Time.Unix 500000000 + 3600 * testJWT.jwtExpRefreshToken)) :=
  expiry_claims_of_issued_tokens plainLib testJWT testUser 500000000 500000000
    (by decide) (by decide) (by decide) (by decide)

/-! ## Login and registration -/

/-- C8: with an empty login or an empty password, `Login` fails with
`login or password cant be empty` and makes no call at all: no store lookup, no
password comparison, no token issuance. -/
theorem login_rejects_empty_credentials (B : Bcrypt) (s : UserService) (Login Password : String)
    (h : Login = "" ∨ Password = "") :
    s.Login B Login Password = (.error (errorsNew "login or password cant be empty"), []) := by
  simp [UserService.Login, h]

/-- C8 at the inputs of the tests: an empty login with password `pass`. -/
theorem login_rejects_empty_credentials_witness :
    (NewUserService (listRepo []) (testJWT.asProvider plainLib 0 0 0 0)
        (testCfg strictPolicy)).Login plainBcrypt "" "pass"
      = (.error (errorsNew "login or password cant be empty"), []) :=
  login_rejects_empty_credentials plainBcrypt _ "" "pass" (Or.inl rfl)

/-- C9: for a non-empty login and password, `Login` returns tokens only if the lookup
returned a user without error and bcrypt accepted the password against that user's
hash; a lookup error is returned as it is, after the lookup alone; a bcrypt error is
returned as it is, after the lookup and the comparison; in neither case is
`GenerateTokens` called. -/
theorem login_gates_on_lookup_and_password (B : Bcrypt) (s : UserService)
    (Login Password : String) (hL : Login ≠ "") (hP : Password ≠ "") :
    (∀ r, (s.Login B Login Password).1 = .ok r →
      ∃ user, s.repo.GetUser Login = (some user, none) ∧
        B.CompareHashAndPassword user.Password Password = none ∧
        s.jwt.GenerateTokens user = .ok r) ∧
    (∀ ch err, s.repo.GetUser Login = (ch, some err) →
      s.Login B Login Password = (.error err, [.GetUser Login])) ∧
    (∀ user err, s.repo.GetUser Login = (some user, none) →
      B.CompareHashAndPassword user.Password Password = some err →
      s.Login B Login Password
        = (.error err, [.GetUser Login, .CompareHashAndPassword user.Password Password])) ∧
    (∀ u, Call.GenerateTokens u ∈ (s.Login B Login Password).2 →
      s.repo.GetUser Login = (some u, none) ∧
        B.CompareHashAndPassword u.Password Password = none) := by
  have hne : ¬ (Login = "" ∨ Password = "") := by simp [hL, hP]
  refine ⟨?_, ?_, ?_, ?_⟩
  · intro r hr
    simp only [UserService.Login, hne, if_false] at hr
    split at hr
    · simp at hr
    · simp at hr
    · rename_i user hget
      split at hr
      · simp at hr
      · rename_i hcmp
        exact ⟨user, hget, hcmp, hr⟩
  · intro ch err hget
    simp [UserService.Login, hne, hget]
  · intro user err hget hcmp
    simp [UserService.Login, hne, hget, hcmp]
  · intro u hu
    simp only [UserService.Login, hne, if_false] at hu
    split at hu
    · simp at hu
    · simp at hu
    · rename_i user hget
      split at hu
      · simp at hu
      · rename_i hcmp
        have hu2 : u = user := by simpa using hu
        subst hu2
        exact ⟨hget, hcmp⟩

/-- C9 at the inputs of the tests: an unknown login gets the store's `user not found`
after the lookup alone, and a wrong password for a stored user gets the bcrypt error
after the lookup and the comparison. -/
theorem login_gates_on_lookup_and_password_witness :
    (NewUserService (listRepo [alice]) (testJWT.asProvider plainLib 0 0 0 0)
        (testCfg strictPolicy)).Login plainBcrypt "unknown" "pass"
      = (.error (errorsNew "user not found"), [.GetUser "unknown"]) ∧
    (NewUserService (listRepo [alice]) (testJWT.asProvider plainLib 0 0 0 0)
        (testCfg strictPolicy)).Login plainBcrypt "alice" "wrongpass"
      = (.error ⟨"crypto/bcrypt: hashedPassword is not the hash of the given password", 1⟩,
          [.GetUser "alice", .CompareHashAndPassword "$Secret12" "wrongpass"]) :=
  ⟨(login_gates_on_lookup_and_password plainBcrypt
      (NewUserService (listRepo [alice]) (testJWT.asProvider plainLib 0 0 0 0)
        (testCfg strictPolicy)) "unknown" "pass" (by decide) (by decide)).2.1 none _ (by decide),
   (login_gates_on_lookup_and_password plainBcrypt
      (NewUserService (listRepo [alice]) (testJWT.asProvider plainLib 0 0 0 0)
        (testCfg strictPolicy)) "alice" "wrongpass" (by decide) (by decide)).2.2.1 alice _
      (by decide) (by decide)⟩

theorem isValidLogin_ok_ne_empty (s : UserService) (login : String)
    (h : s.isValidLogin login = .ok ()) : login ≠ "" := by
  intro he
  subst he
  simp only [UserService.isValidLogin] at h
  split at h
  · simp at h
  · split at h
    · simp at h
    · simp [matchLoginPattern] at h

theorem NewUser_ok (B : Bcrypt) (login password : String) (role : Role) (salt : String)
    (id : UUID) (now : Time) (u : User) (h : NewUser B login password role salt id now = .ok u) :
    B.GenerateFromPassword password salt = .ok u.Password ∧ u.Login = login ∧ u.Role = role ∧
      (role = Admin ∨ role = Manager ∨ role = Viewer) := by
  simp only [NewUser] at h
  split at h
  · simp at h
  · rename_i hrole
    split at h
    · simp at h
    · rename_i hashed hgen
      injection h with h
      subst h
      refine ⟨hgen, rfl, rfl, ?_⟩
      by_contra hcon
      exact hrole (by simpa [not_or] using hcon)

theorem Registration_ok (B : Bcrypt) (U : Unicode) (s : UserService)
    (Login Password Role salt : String) (id : UUID) (now : Time) (u : User)
    (h : (s.Registration B U Login Password Role salt id now).1 = .ok u) :
    Login ≠ "" ∧ NewUser B Login Password Role salt id now = .ok u ∧
      s.repo.SaveUser u = none := by
  cases hL : s.isValidLogin Login with
  | error e => simp [UserService.Registration, hL] at h
  | panic m => simp [UserService.Registration, hL] at h
  | ok a =>
    cases hP : s.isValidPassword U Password with
    | error e => simp [UserService.Registration, hL, hP] at h
    | panic m => simp [UserService.Registration, hL, hP] at h
    | ok b =>
      simp only [UserService.Registration, hL, hP] at h
      split at h
      · simp at h
      · split at h
        · simp at h
        · cases hN : NewUser B Login Password Role salt id now with
          | error e => simp [hN] at h
          | panic m => simp [hN] at h
          | ok user =>
            simp only [hN] at h
            cases hS : s.repo.SaveUser user with
            | some e => simp [hS] at h
            | none =>
              simp only [hS] at h
              injection h with h
              subst h
              exact ⟨isValidLogin_ok_ne_empty s Login hL, rfl, hS⟩

/-- C10 fails as stated: under a policy with minimum length zero and no character
rule, `Registration` accepts `alice` with the empty password against an empty store,
and `Login` with the same login and password against the store holding that identity
fails with `login or password cant be empty`. -/
theorem empty_password_registers_but_cannot_login :
    (NewUserService (listRepo []) (testJWT.asProvider plainLib 0 0 0 0)
        (testCfg laxPolicy)).Registration plainBcrypt asciiUnicode "alice" "" "admin" "salt"
        nilUUID 0
      = (.ok aliceNoPassword,
          [.GetUser "alice", .GenerateFromPassword "", .SaveUser aliceNoPassword]) ∧
    (listRepo [aliceNoPassword]).GetUser "alice" = (some aliceNoPassword, none) ∧
    (NewUserService (listRepo [aliceNoPassword]) (testJWT.asProvider plainLib 0 0 0 0)
        (testCfg laxPolicy)).Login plainBcrypt "alice" ""
      = (.error (errorsNew "login or password cant be empty"), []) := by
  refine ⟨by decide, by decide, by decide⟩

/-- C10, amended: let `CompareHashAndPassword` accept the password that
`GenerateFromPassword` hashed.  For every login, non-empty password and role that
`Registration` accepts, `Login` with the same login and password, against a store that
returns the persisted identity and with the token service as issuer, returns a pair of
non-empty tokens.  `Login` with another password fails exactly when that password is
empty or `CompareHashAndPassword` rejects it for the stored hash, and then with that
error; a password the comparison accepts for the stored hash logs in as well. -/
theorem register_then_login (B : Bcrypt) (U : Unicode) (L : JwtLib) (j : JWTService)
    (tParse tCheck tA tR : Time) (cfg : AppConfig) (repo repo2 : UserStorageProvider)
    (Login Password Role salt : String) (id : UUID) (now : Time) (u : User)
    (hcomplete : ∀ pw sl h, B.GenerateFromPassword pw sl = .ok h →
      B.CompareHashAndPassword h pw = none)
    (hreg : ((NewUserService repo (j.asProvider L tParse tCheck tA tR) cfg).Registration B U
      Login Password Role salt id now).1 = .ok u)
    (hne : Password ≠ "")
    (hstore : repo2.GetUser Login = (some u, none)) :
    (∃ r, ((NewUserService repo2 (j.asProvider L tParse tCheck tA tR) cfg).Login B
        Login Password).1 = .ok r ∧
      r.AccessToken.isEmpty = false ∧ r.RefreshToken.isEmpty = false) ∧
    (∀ q,
      (q = "" →
        ((NewUserService repo2 (j.asProvider L tParse tCheck tA tR) cfg).Login B Login q).1
          = .error (errorsNew "login or password cant be empty")) ∧
      (∀ e, q ≠ "" → B.CompareHashAndPassword u.Password q = some e →
        ((NewUserService repo2 (j.asProvider L tParse tCheck tA tR) cfg).Login B Login q).1
          = .error e) ∧
      (q ≠ "" → B.CompareHashAndPassword u.Password q = none →
        ∃ r, ((NewUserService repo2 (j.asProvider L tParse tCheck tA tR) cfg).Login B
            Login q).1 = .ok r ∧
          r.AccessToken.isEmpty = false ∧ r.RefreshToken.isEmpty = false)) := by
  obtain ⟨hlogin, hnew, _⟩ := Registration_ok B U _ Login Password Role salt id now u hreg
  obtain ⟨hgen, _, _, _⟩ := NewUser_ok B Login Password Role salt id now u hnew
  have hok : ∀ q, q ≠ "" → B.CompareHashAndPassword u.Password q = none →
      ∃ r, ((NewUserService repo2 (j.asProvider L tParse tCheck tA tR) cfg).Login B
          Login q).1 = .ok r ∧
        r.AccessToken.isEmpty = false ∧ r.RefreshToken.isEmpty = false := by
    intro q hq hcmp
    have hlog : ((NewUserService repo2 (j.asProvider L tParse tCheck tA tR) cfg).Login B
        Login q).1 = j.GenerateTokens L u tA tR := by
      simp only [UserService.Login, NewUserService, hlogin, hq, or_self, if_false, hstore, hcmp,
        JWTService.asProvider]
    exact ⟨_, hlog.trans (GenerateTokens_eq L j u tA tR), rfl, rfl⟩
  refine ⟨hok Password hne (hcomplete Password salt u.Password hgen), fun q => ⟨?_, ?_, hok q⟩⟩
  · intro hq0
    simp [UserService.Login, hq0]
  · intro e hq0 hc
    simp [UserService.Login, NewUserService, hlogin, hq0, hstore, hc]

theorem plainBcrypt_complete (pw sl h : String)
    (hg : plainBcrypt.GenerateFromPassword pw sl = .ok h) :
    plainBcrypt.CompareHashAndPassword h pw = none := by
  simp only [plainBcrypt] at hg
  injection hg with hg
  subst hg
  simp [plainBcrypt]

/-- C10, amended, at the example of the specification: registering `alice` with
`Secret12` as `admin`, then logging in against the store that holds her; the password
`Secret13`, which the comparison rejects, does not log in. -/
theorem register_then_login_witness :
    (∃ r, ((NewUserService (listRepo [alice]) (testJWT.asProvider plainLib 0 0 0 0)
        (testCfg strictPolicy)).Login plainBcrypt "alice" "Secret12").1 = .ok r ∧
      r.AccessToken.isEmpty = false ∧ r.RefreshToken.isEmpty = false) ∧
    ((NewUserService (listRepo [alice]) (testJWT.asProvider plainLib 0 0 0 0)
        (testCfg strictPolicy)).Login plainBcrypt "alice" "Secret13").1
      = .error ⟨"crypto/bcrypt: hashedPassword is not the hash of the given password", 1⟩ :=
  have h := register_then_login plainBcrypt asciiUnicode plainLib testJWT 0 0 0 0
    (testCfg strictPolicy) (listRepo []) (listRepo [alice]) "alice" "Secret12" "admin" "salt"
    nilUUID 0 alice plainBcrypt_complete (by decide) (by decide) (by decide)
  ⟨h.1, (h.2 "Secret13").2.1 _ (by decide) (by decide)⟩

/-! ## Login and password checks -/

/-- C11, the code at the failing inputs: with allowed characters `a-z`, the login
`bob` is accepted although neither `b` nor `o` occurs among the allowed characters, and
the login `a-z`, made of allowed characters only, is rejected: the `-` between two
characters is read as a range of the pattern. -/
theorem hyphen_in_allowed_characters_is_a_range :
    (serviceWith hyphenCfg).isValidLogin "bob" = .ok () ∧
    "bob".toList.all (fun c => hyphenCfg.UserConfig.AllowedCharacters.toList.contains c)
      = false ∧
    (serviceWith hyphenCfg).isValidLogin "a-z"
      = .error (errorsNew ("invalid login characters. Must contain only letters, digits, "
          ++ "underscores, or hyphens and must not contain spaces")) ∧
    "a-z".toList.all (fun c => hyphenCfg.UserConfig.AllowedCharacters.toList.contains c)
      = true := by
  refine ⟨by decide, by decide, by decide, by decide⟩

theorem passwordFlags_foldl (U : Unicode) (l : List Char) (acc : Bool × Bool × Bool) :
    l.foldl
        (fun acc r =>
          if U.IsUpper r then (true, acc.2.1, acc.2.2)
          else if U.IsLower r then (acc.1, true, acc.2.2)
          else if U.IsDigit r then (acc.1, acc.2.1, true)
          else acc)
        acc
      = (acc.1 || l.any U.IsUpper,
         acc.2.1 || l.any (fun r => !U.IsUpper r && U.IsLower r),
         acc.2.2 || l.any (fun r => !U.IsUpper r && !U.IsLower r && U.IsDigit r)) := by
  induction l generalizing acc with
  | nil => simp
  | cons r rs ih =>
    obtain ⟨a, b, c⟩ := acc
    simp only [List.foldl_cons, List.any_cons, ih]
    cases hu : U.IsUpper r <;> cases hl : U.IsLower r <;> cases hd : U.IsDigit r <;>
      cases a <;> cases b <;> cases c <;> simp

theorem passwordFlags_eq (U : Unicode) (l : List Char) :
    passwordFlags U l
      = (l.any U.IsUpper, l.any (fun r => !U.IsUpper r && U.IsLower r),
         l.any (fun r => !U.IsUpper r && !U.IsLower r && U.IsDigit r)) := by
  simp [passwordFlags, passwordFlags_foldl]

theorem passwordFlags_disjoint (U : Unicode)
    (hlower : ∀ c, U.IsLower c = true → U.IsUpper c = false)
    (hdigit : ∀ c, U.IsDigit c = true → U.IsUpper c = false ∧ U.IsLower c = false)
    (l : List Char) :
    passwordFlags U l = (l.any U.IsUpper, l.any U.IsLower, l.any U.IsDigit) := by
  rw [passwordFlags_eq]
  have h1 : l.any (fun r => !U.IsUpper r && U.IsLower r) = l.any U.IsLower := by
    congr 1
    funext r
    cases hl : U.IsLower r
    · simp
    · simp [hlower r hl]
  have h2 : l.any (fun r => !U.IsUpper r && !U.IsLower r && U.IsDigit r) = l.any U.IsDigit := by
    congr 1
    funext r
    cases hd : U.IsDigit r
    · simp
    · simp [(hdigit r hd).1, (hdigit r hd).2]
  rw [h1, h2]

/-- C12: with the three `unicode` predicates holding for disjoint sets of characters
(as upper-case letters, lower-case letters and decimal digits are), `isValidPassword`
accepts a password exactly when its length in characters lies between `MinLength` and
`MaxLength`, bounds included, and for each toggle that is on the password holds a
character of that kind; a toggle that is off asks for nothing. -/
theorem password_accepted_iff (U : Unicode)
    (hlower : ∀ c, U.IsLower c = true → U.IsUpper c = false)
    (hdigit : ∀ c, U.IsDigit c = true → U.IsUpper c = false ∧ U.IsLower c = false)
    (s : UserService) (password : String) :
    s.isValidPassword U password = .ok () ↔
      (s.cfg.PasswordConfig.MinLength ≤ runeCount password ∧
        runeCount password ≤ s.cfg.PasswordConfig.MaxLength ∧
        (s.cfg.PasswordConfig.RequireUpper = true →
          ∃ c ∈ password.toList, U.IsUpper c = true) ∧
        (s.cfg.PasswordConfig.RequireLower = true →
          ∃ c ∈ password.toList, U.IsLower c = true) ∧
        (s.cfg.PasswordConfig.RequireDigit = true →
          ∃ c ∈ password.toList, U.IsDigit c = true)) := by
  simp only [UserService.isValidPassword, utf8ValidString,
    passwordFlags_disjoint U hlower hdigit, ← List.any_eq_true]
  by_cases hlen : runeCount password < s.cfg.PasswordConfig.MinLength ∨
      runeCount password > s.cfg.PasswordConfig.MaxLength
  · simp only [hlen, if_true]
    constructor
    · intro h
      simp at h
    · rintro ⟨h1, h2, _⟩
      rcases hlen with h | h <;> omega
  · have h1 : s.cfg.PasswordConfig.MinLength ≤ runeCount password := by
      by_contra hc
      exact hlen (Or.inl (by omega))
    have h2 : runeCount password ≤ s.cfg.PasswordConfig.MaxLength := by
      by_contra hc
      exact hlen (Or.inr (by omega))
    simp only [hlen, if_false, h1, h2, true_and]
    cases s.cfg.PasswordConfig.RequireUpper <;> cases s.cfg.PasswordConfig.RequireLower <;>
      cases s.cfg.PasswordConfig.RequireDigit <;>
      cases password.toList.any U.IsUpper <;> cases password.toList.any U.IsLower <;>
      cases password.toList.any U.IsDigit <;> simp

theorem asciiUnicode_lower (c : Char) (h : asciiUnicode.IsLower c = true) :
    asciiUnicode.IsUpper c = false := by
  simp only [asciiUnicode, Bool.and_eq_true, decide_eq_true_eq] at h
  simp only [asciiUnicode, Bool.and_eq_false_iff, decide_eq_false_iff_not]
  omega

theorem asciiUnicode_digit (c : Char) (h : asciiUnicode.IsDigit c = true) :
    asciiUnicode.IsUpper c = false ∧ asciiUnicode.IsLower c = false := by
  simp only [asciiUnicode, Bool.and_eq_true, decide_eq_true_eq] at h
  simp only [asciiUnicode, Bool.and_eq_false_iff, decide_eq_false_iff_not]
  omega

/-- C12 at the policy of the tests (6 to 12 characters, all three toggles on): `Valid1`
is accepted and meets every condition. -/
theorem password_accepted_iff_witness :
    (serviceWith (testCfg strictPolicy)).isValidPassword asciiUnicode "Valid1" = .ok () ∧
      ((testCfg strictPolicy).PasswordConfig.MinLength ≤ runeCount "Valid1" ∧
        runeCount "Valid1" ≤ (testCfg strictPolicy).PasswordConfig.MaxLength ∧
        ((testCfg strictPolicy).PasswordConfig.RequireUpper = true →
          ∃ c ∈ "Valid1".toList, asciiUnicode.IsUpper c = true) ∧
        ((testCfg strictPolicy).PasswordConfig.RequireLower = true →
          ∃ c ∈ "Valid1".toList, asciiUnicode.IsLower c = true) ∧
        ((testCfg strictPolicy).PasswordConfig.RequireDigit = true →
          ∃ c ∈ "Valid1".toList, asciiUnicode.IsDigit c = true)) :=
  ⟨by decide,
    (password_accepted_iff asciiUnicode asciiUnicode_lower asciiUnicode_digit
      (serviceWith (testCfg strictPolicy)) "Valid1").mp (by decide)⟩

/-! ## Registration -/

theorem Registration_of_valid (B : Bcrypt) (U : Unicode) (s : UserService)
    (Login Password Role salt : String) (id : UUID) (now : Time)
    (hL : s.isValidLogin Login = .ok ()) (hP : s.isValidPassword U Password = .ok ()) :
    s.Registration B U Login Password Role salt id now
      = (match (match (s.repo.GetUser Login).2 with
                | some e => if e.msg ≠ "user not found" then some e else none
                | none => none) with
         | some e => (.error e, [.GetUser Login])
         | none =>
           if (s.repo.GetUser Login).1.isSome then
             (.error (errorsNew "user with this login already exists"), [.GetUser Login])
           else
             match NewUser B Login Password Role salt id now with
             | .error e => (.error e, [.GetUser Login, .GenerateFromPassword Password])
             | .panic m => (.panic m, [.GetUser Login, .GenerateFromPassword Password])
             | .ok user =>
               match s.repo.SaveUser user with
               | some e =>
                 (.error e, [.GetUser Login, .GenerateFromPassword Password, .SaveUser user])
               | none =>
                 (.ok user, [.GetUser Login, .GenerateFromPassword Password, .SaveUser user])) := by
  simp only [UserService.Registration, hL, hP]

theorem NewUser_invalid_role (B : Bcrypt) (login password : String) (role : Role) (salt : String)
    (id : UUID) (now : Time) (hrole : role ≠ Admin ∧ role ≠ Manager ∧ role ≠ Viewer) :
    NewUser B login password role salt id now = .error (errorsNew "invalid role type") := by
  simp [NewUser, hrole]

/-- C13 fails as stated: `alice` is stored, login `alice` and password `Secret12` are
valid, the role `root` is not one of the three, and `Registration` answers
`user with this login already exists`, not the invalid-role error: the lookup comes
first. -/
theorem taken_login_hides_invalid_role :
    (NewUserService (listRepo [alice]) (testJWT.asProvider plainLib 0 0 0 0)
        (testCfg strictPolicy)).isValidLogin "alice" = .ok () ∧
    (NewUserService (listRepo [alice]) (testJWT.asProvider plainLib 0 0 0 0)
        (testCfg strictPolicy)).isValidPassword asciiUnicode "Secret12" = .ok () ∧
    ("root" ≠ Admin ∧ "root" ≠ Manager ∧ "root" ≠ Viewer) ∧
    (NewUserService (listRepo [alice]) (testJWT.asProvider plainLib 0 0 0 0)
        (testCfg strictPolicy)).Registration plainBcrypt asciiUnicode "alice" "Secret12" "root"
        "salt" nilUUID 0
      = (.error (errorsNew "user with this login already exists"), [.GetUser "alice"]) := by
  refine ⟨by decide, by decide, by decide, by decide⟩

/-- C13, amended: for a valid login and password and a role outside admin, manager,
viewer, `Registration` fails and never calls `SaveUser`; the role is checked after the
lookup, in `NewUser`, so the failure is the invalid-role error when the lookup reports
no identity (a nil user with a nil error or with the `user not found` error). -/
theorem invalid_role_rejected_after_lookup (B : Bcrypt) (U : Unicode) (s : UserService)
    (Login Password Role salt : String) (id : UUID) (now : Time)
    (hL : s.isValidLogin Login = .ok ()) (hP : s.isValidPassword U Password = .ok ())
    (hrole : Role ≠ Admin ∧ Role ≠ Manager ∧ Role ≠ Viewer) :
    (∃ e, (s.Registration B U Login Password Role salt id now).1 = .error e) ∧
    (∀ u, Call.SaveUser u ∉ (s.Registration B U Login Password Role salt id now).2) ∧
    (∀ err, s.repo.GetUser Login = (none, err) →
      (err = none ∨ err.map GoError.msg = some "user not found") →
      s.Registration B U Login Password Role salt id now
        = (.error (errorsNew "invalid role type"),
            [.GetUser Login, .GenerateFromPassword Password])) := by
  rw [Registration_of_valid B U s Login Password Role salt id now hL hP,
    NewUser_invalid_role B Login Password Role salt id now hrole]
  rcases hget : s.repo.GetUser Login with ⟨ch, err⟩
  cases err with
  | none =>
    cases ch with
    | none => simp
    | some c => simp
  | some e =>
    by_cases hm : e.msg = "user not found"
    · cases ch with
      | none => simp [hm]
      | some c => simp [hm]
    · cases ch with
      | none => simp [hm]
      | some c => simp [hm]

/-- C13, amended, over an empty store: registering `bob` with `Secret12` and the role
`root` fails with `invalid role type` after the lookup and the hashing. -/
theorem invalid_role_rejected_after_lookup_witness :
    (serviceWith (testCfg strictPolicy)).Registration plainBcrypt asciiUnicode "bob" "Secret12"
        "root" "salt" nilUUID 0
      = (.error (errorsNew "invalid role type"),
          [.GetUser "bob", .GenerateFromPassword "Secret12"]) :=
  (invalid_role_rejected_after_lookup plainBcrypt asciiUnicode (serviceWith (testCfg strictPolicy))
    "bob" "Secret12" "root" "salt" nilUUID 0 (by decide) (by decide) (by decide)).2.2
    (some (errorsNew "user not found")) (by decide) (Or.inr (by decide))

/-- C14: for a valid login and password (and any role), when the lookup returns an
identity with a nil error, `Registration` fails with
`user with this login already exists`; its only call is the lookup, so no identity is
created and `SaveUser` is not called. -/
theorem taken_login_rejected (B : Bcrypt) (U : Unicode) (s : UserService)
    (Login Password Role salt : String) (id : UUID) (now : Time) (ch : User)
    (hL : s.isValidLogin Login = .ok ()) (hP : s.isValidPassword U Password = .ok ())
    (hget : s.repo.GetUser Login = (some ch, none)) :
    s.Registration B U Login Password Role salt id now
      = (.error (errorsNew "user with this login already exists"), [.GetUser Login]) := by
  rw [Registration_of_valid B U s Login Password Role salt id now hL hP, hget]
  simp

/-- C14 at the store of the tests: `alice` is stored and registering her again fails. -/
theorem taken_login_rejected_witness :
    (NewUserService (listRepo [alice]) (testJWT.asProvider plainLib 0 0 0 0)
        (testCfg strictPolicy)).Registration plainBcrypt asciiUnicode "alice" "Secret12" "viewer"
        "salt" nilUUID 0
      = (.error (errorsNew "user with this login already exists"), [.GetUser "alice"]) :=
  taken_login_rejected plainBcrypt asciiUnicode
    (NewUserService (listRepo [alice]) (testJWT.asProvider plainLib 0 0 0 0)
      (testCfg strictPolicy))
    "alice" "Secret12" "viewer" "salt" nilUUID 0 alice (by decide) (by decide) (by decide)

/-- C15 fails as stated: the lookup of `faultyRepo` fails with a fault that is not the
missing-row error but prints `user not found`; `Registration` takes the login for
available, calls `SaveUser` and returns the new identity. -/
theorem fault_printing_not_found_is_ignored :
    faultyRepo.GetUser "alice" = (none, some ⟨"user not found", 1⟩) ∧
    (⟨"user not found", 1⟩ : GoError) ≠ errorsNew "user not found" ∧
    (NewUserService faultyRepo (testJWT.asProvider plainLib 0 0 0 0)
        (testCfg strictPolicy)).Registration plainBcrypt asciiUnicode "alice" "Secret12" "admin"
        "salt" nilUUID 0
      = (.ok alice,
          [.GetUser "alice", .GenerateFromPassword "Secret12", .SaveUser alice]) := by
  refine ⟨by decide, by decide, by decide⟩

/-- C15, amended: for a valid login and password, when the lookup fails with an error
whose text is not `user not found`, `Registration` returns that error unchanged; its
only call is the lookup, so the login is not taken for available and `SaveUser` is not
called. -/
theorem lookup_fault_returned (B : Bcrypt) (U : Unicode) (s : UserService)
    (Login Password Role salt : String) (id : UUID) (now : Time) (ch : Option User)
    (err : GoError)
    (hL : s.isValidLogin Login = .ok ()) (hP : s.isValidPassword U Password = .ok ())
    (hget : s.repo.GetUser Login = (ch, some err)) (hmsg : err.msg ≠ "user not found") :
    s.Registration B U Login Password Role salt id now = (.error err, [.GetUser Login]) := by
  rw [Registration_of_valid B U s Login Password Role salt id now hL hP, hget]
  simp [hmsg]

/-- C15, amended, at a store whose lookup fails with `connection refused`. -/
theorem lookup_fault_returned_witness :
    (NewUserService
        { GetUser := fun _ => (none, some ⟨"connection refused", 1⟩), SaveUser := fun _ => none }
        (testJWT.asProvider plainLib 0 0 0 0) (testCfg strictPolicy)).Registration plainBcrypt
        asciiUnicode "alice" "Secret12" "admin" "salt" nilUUID 0
      = (.error ⟨"connection refused", 1⟩, [.GetUser "alice"]) :=
  lookup_fault_returned plainBcrypt asciiUnicode
    (NewUserService
      { GetUser := fun _ => (none, some ⟨"connection refused", 1⟩), SaveUser := fun _ => none }
      (testJWT.asProvider plainLib 0 0 0 0) (testCfg strictPolicy))
    "alice" "Secret12" "admin" "salt" nilUUID 0 none ⟨"connection refused", 1⟩
    (by decide) (by decide) rfl (by decide)

/-- C16: for a valid login and password and a role among admin, manager, viewer, with
the lookup reporting no identity, the hashing returning a hash that is neither empty
nor the plaintext, and the save succeeding, `Registration` returns the identity with
the given login and role and that hash, and its calls are the lookup, the hashing and
one `SaveUser` of exactly that identity. -/
theorem registration_persists_identity (B : Bcrypt) (U : Unicode) (s : UserService)
    (Login Password Role salt : String) (id : UUID) (now : Time) (err : Option GoError)
    (hashed : String)
    (hL : s.isValidLogin Login = .ok ()) (hP : s.isValidPassword U Password = .ok ())
    (hrole : Role = Admin ∨ Role = Manager ∨ Role = Viewer)
    (hget : s.repo.GetUser Login = (none, err))
    (habsent : err = none ∨ err.map GoError.msg = some "user not found")
    (hhasher : ∀ pw sl h, B.GenerateFromPassword pw sl = .ok h → h ≠ "" ∧ h ≠ pw)
    (hgen : B.GenerateFromPassword Password salt = .ok hashed)
    (hsave : s.repo.SaveUser
      { Id := id, Login := Login, Password := hashed, Role := Role, CreatedAt := now } = none) :
    ∃ u, s.Registration B U Login Password Role salt id now
        = (.ok u, [.GetUser Login, .GenerateFromPassword Password, .SaveUser u]) ∧
      u.Login = Login ∧ u.Role = Role ∧ (u.Role = Admin ∨ u.Role = Manager ∨ u.Role = Viewer) ∧
      u.Password ≠ "" ∧ u.Password ≠ Password ∧
      ((s.Registration B U Login Password Role salt id now).2.filter
        (fun call => match call with
          | .SaveUser _ => true
          | _ => false)) = [.SaveUser u] := by
  have hnew : NewUser B Login Password Role salt id now
      = .ok { Id := id, Login := Login, Password := hashed, Role := Role, CreatedAt := now } := by
    have hr : ¬ (Role ≠ Admin ∧ Role ≠ Manager ∧ Role ≠ Viewer) := by
      rintro ⟨h1, h2, h3⟩
      rcases hrole with h | h | h
      · exact h1 h
      · exact h2 h
      · exact h3 h
    simp [NewUser, hr, hgen]
  have hreg : s.Registration B U Login Password Role salt id now
      = (.ok { Id := id, Login := Login, Password := hashed, Role := Role, CreatedAt := now },
          [.GetUser Login, .GenerateFromPassword Password,
            .SaveUser { Id := id, Login := Login, Password := hashed, Role := Role,
                        CreatedAt := now }]) := by
    rw [Registration_of_valid B U s Login Password Role salt id now hL hP, hget, hnew]
    rcases habsent with h | h
    · subst h
      simp [hsave]
    · cases err with
      | none => simp [hsave]
      | some e =>
        have hm : e.msg = "user not found" := by simpa using h
        simp [hm, hsave]
  refine ⟨_, hreg, rfl, rfl, hrole, (hhasher Password salt hashed hgen).1,
    (hhasher Password salt hashed hgen).2, ?_⟩
  rw [hreg]
  simp [List.filter]

theorem plainBcrypt_hash (pw sl h : String)
    (hg : plainBcrypt.GenerateFromPassword pw sl = .ok h) : h ≠ "" ∧ h ≠ pw := by
  simp only [plainBcrypt] at hg
  injection hg with hg
  subst hg
  constructor
  · intro hcon
    have h2 := congrArg String.length hcon
    simp at h2
    exact absurd h2.1 (by decide)
  · intro hcon
    have h2 := congrArg String.length hcon
    simp at h2
    exact absurd h2 (by decide)

/-- C16 at the example of the tests: registering `good123` with `Password1` as
`viewer` over an empty store. -/
theorem registration_persists_identity_witness :
    ∃ u, (serviceWith (testCfg strictPolicy)).Registration plainBcrypt asciiUnicode "good123"
          "Password1" "viewer" "salt" nilUUID 0
        = (.ok u, [.GetUser "good123", .GenerateFromPassword "Password1", .SaveUser u]) ∧
      u.Login = "good123" ∧ u.Role = "viewer" ∧
      (u.Role = Admin ∨ u.Role = Manager ∨ u.Role = Viewer) ∧
      u.Password ≠ "" ∧ u.Password ≠ "Password1" ∧
      (((serviceWith (testCfg strictPolicy)).Registration plainBcrypt asciiUnicode "good123"
          "Password1" "viewer" "salt" nilUUID 0).2.filter
        (fun call => match call with
          | .SaveUser _ => true
          | _ => false)) = [.SaveUser u] :=
  registration_persists_identity plainBcrypt asciiUnicode (serviceWith (testCfg strictPolicy))
    "good123" "Password1" "viewer" "salt" nilUUID 0 (some (errorsNew "user not found"))
    "$Password1" (by decide) (by decide) (by decide) (by decide) (Or.inr (by decide))
    plainBcrypt_hash rfl rfl

/-! ## The authorization gate -/

theorem stringsTrimLead_append (lead t : List Char) : stringsTrimLead (lead ++ t) lead = t := by
  simp [stringsTrimLead]

theorem stringsTrimLead_eq_nil (s lead : List Char) (hlead : lead ≠ []) :
    stringsTrimLead s lead = [] ↔ s = [] ∨ s = lead := by
  unfold stringsTrimLead
  by_cases hp : lead.isPrefixOf s = true
  · simp only [hp, if_true]
    obtain ⟨t, ht⟩ := List.isPrefixOf_iff_prefix.mp hp
    subst ht
    simp [hlead]
  · simp only [hp]
    constructor
    · intro h
      exact Or.inl h
    · rintro (h | h)
      · simpa using h
      · subst h
        simp at hp

theorem TrimPrefix_eq_empty (h : String) :
    TrimPrefix h "Bearer " = "" ↔ h = "" ∨ h = "Bearer " := by
  have hl := stringsTrimLead_eq_nil h.toList "Bearer ".toList (by decide)
  constructor
  · intro he
    have h1 : stringsTrimLead h.toList "Bearer ".toList = [] := by
      have := congrArg String.toList he
      simpa [TrimPrefix] using this
    rcases hl.mp h1 with h2 | h2
    · exact Or.inl (String.ext h2)
    · exact Or.inr (String.ext h2)
  · rintro (he | he)
    · subst he
      decide
    · subst he
      decide

/-- C17: `AuthMiddleware` answers 401 and aborts, without running what follows it in the
chain, when the `Authorization` header is missing or empty (`missing token`), when it
is empty once a leading `Bearer ` is removed (`empty token`), and when `ValidateTokens`
returns an error (`invalid token`); in the first two cases no string is handed to
`ValidateTokens`. -/
theorem auth_rejects_without_valid_token (userService : UserIFace)
    (next : GinContext → GinContext) (c : GinContext) :
    (c.GetHeader "Authorization" = "" →
      AuthMiddleware userService next c = c.AbortWithStatusJSON 401 "missing token" ∧
      (AuthMiddleware userService next c).validated = c.validated) ∧
    (c.GetHeader "Authorization" ≠ "" →
      TrimPrefix (c.GetHeader "Authorization") "Bearer " = "" →
      AuthMiddleware userService next c = c.AbortWithStatusJSON 401 "empty token" ∧
      (AuthMiddleware userService next c).validated = c.validated) ∧
    (∀ e, c.GetHeader "Authorization" ≠ "" →
      TrimPrefix (c.GetHeader "Authorization") "Bearer " ≠ "" →
      userService.ValidateTokens (TrimPrefix (c.GetHeader "Authorization") "Bearer ")
        = .error e →
      AuthMiddleware userService next c
        = GinContext.AbortWithStatusJSON
            { c with validated := c.validated
                ++ [TrimPrefix (c.GetHeader "Authorization") "Bearer "] }
            401 "invalid token") := by
  refine ⟨?_, ?_, ?_⟩
  · intro h
    simp [AuthMiddleware, h, GinContext.AbortWithStatusJSON]
  · intro h1 h2
    simp [AuthMiddleware, h1, h2, GinContext.AbortWithStatusJSON]
  · intro e h1 h2 h3
    simp [AuthMiddleware, h1, h2, h3]

/-- C17 at three requests: no header, the header `Bearer ` alone, and a token the
service turns down; each ends with status 401 and the abort mark, whatever follows. -/
theorem auth_rejects_without_valid_token_witness :
    AuthMiddleware stubService (okEndpoint .CreateItem) bareRequest
      = bareRequest.AbortWithStatusJSON 401 "missing token" ∧
    AuthMiddleware stubService (okEndpoint .CreateItem) (requestWith "Bearer ")
      = (requestWith "Bearer ").AbortWithStatusJSON 401 "empty token" ∧
    AuthMiddleware stubService (okEndpoint .CreateItem) (requestWith "Bearer forged")
      = GinContext.AbortWithStatusJSON
          { requestWith "Bearer forged" with validated := ["forged"] } 401 "invalid token" :=
  ⟨((auth_rejects_without_valid_token stubService (okEndpoint .CreateItem) bareRequest).1
      (by decide)).1,
   ((auth_rejects_without_valid_token stubService (okEndpoint .CreateItem)
      (requestWith "Bearer ")).2.1 (by decide) (by decide)).1,
   (auth_rejects_without_valid_token stubService (okEndpoint .CreateItem)
      (requestWith "Bearer forged")).2.2 (errorsNew "invalid access token") (by decide)
      (by decide) (by decide)⟩

/-- C18 fails as stated: the header `Bearer ` is not empty, the string left after
removing the leading `Bearer ` is the empty string, and `AuthMiddleware` does not
verify it: even with a service that would accept it, the request is answered with 401
`empty token`, no string is handed to `ValidateTokens` and the next handler does not
run. -/
theorem bare_bearer_header_is_not_verified :
    (requestWith "Bearer ").GetHeader "Authorization" ≠ "" ∧
    TrimPrefix ((requestWith "Bearer ").GetHeader "Authorization") "Bearer " = "" ∧
    acceptAllService.ValidateTokens "" = .ok adminPayload ∧
    AuthMiddleware acceptAllService (okEndpoint .CreateItem) (requestWith "Bearer ")
      = (requestWith "Bearer ").AbortWithStatusJSON 401 "empty token" ∧
    (AuthMiddleware acceptAllService (okEndpoint .CreateItem) (requestWith "Bearer ")).validated
      = [] := by
  refine ⟨by decide, by decide, by decide, by decide, by decide⟩

/-- C18, amended: for every `Authorization` header `h` that is neither empty nor
exactly `Bearer `, the one string `AuthMiddleware` hands to `ValidateTokens` is `h`
without one leading `Bearer ` (`h` itself when it does not start with it); when the
verification returns a payload, the next handler runs on the context in which `userId`
is the payload's `UserID` as a string, `role` its `Role` as a `user.Role` and `login`
its `Login` as a string. -/
theorem auth_verifies_stripped_header (userService : UserIFace)
    (next : GinContext → GinContext) (c : GinContext)
    (hne : c.GetHeader "Authorization" ≠ "") (hb : c.GetHeader "Authorization" ≠ "Bearer ") :
    (∀ t, (c.GetHeader "Authorization").toList = "Bearer ".toList ++ t →
      TrimPrefix (c.GetHeader "Authorization") "Bearer " = String.mk t) ∧
    ("Bearer ".toList.isPrefixOf (c.GetHeader "Authorization").toList = false →
      TrimPrefix (c.GetHeader "Authorization") "Bearer " = c.GetHeader "Authorization") ∧
    (∀ e, userService.ValidateTokens (TrimPrefix (c.GetHeader "Authorization") "Bearer ")
        = .error e →
      (AuthMiddleware userService next c).validated
        = c.validated ++ [TrimPrefix (c.GetHeader "Authorization") "Bearer "]) ∧
    (∀ p, userService.ValidateTokens (TrimPrefix (c.GetHeader "Authorization") "Bearer ")
        = .ok p →
      ∃ c2, AuthMiddleware userService next c = next c2 ∧
        c2.validated = c.validated ++ [TrimPrefix (c.GetHeader "Authorization") "Bearer "] ∧
        c2.Get CtxUserID = some (.string p.UserID) ∧
        c2.Get CtxRole = some (.role p.Role) ∧
        c2.Get CtxLogin = some (.string p.Login)) := by
  have htok : TrimPrefix (c.GetHeader "Authorization") "Bearer " ≠ "" := by
    intro h
    rcases (TrimPrefix_eq_empty _).mp h with h1 | h1
    · exact hne h1
    · exact hb h1
  refine ⟨?_, ?_, ?_, ?_⟩
  · intro t ht
    unfold TrimPrefix
    rw [ht, stringsTrimLead_append]
  · intro hp
    have hkeep : stringsTrimLead (c.GetHeader "Authorization").toList "Bearer ".toList
        = (c.GetHeader "Authorization").toList := by
      unfold stringsTrimLead
      rw [hp]
      rfl
    unfold TrimPrefix
    rw [hkeep]
    rfl
  · intro e he
    simp [AuthMiddleware, hne, htok, he, GinContext.AbortWithStatusJSON]
  · intro p hp
    refine ⟨GinContext.withIdentity
      { c with validated := c.validated
          ++ [TrimPrefix (c.GetHeader "Authorization") "Bearer "] } p, ?_, ?_, ?_, ?_, ?_⟩
    · simp only [AuthMiddleware, hne, htok, hp, if_false]
    · rfl
    · simp [GinContext.withIdentity, GinContext.Get, GinContext.Set, CtxUserID, CtxRole,
        CtxLogin, List.lookup]
    · simp [GinContext.withIdentity, GinContext.Get, GinContext.Set, CtxUserID, CtxRole,
        CtxLogin, List.lookup]
    · simp [GinContext.withIdentity, GinContext.Get, GinContext.Set, CtxUserID, CtxRole,
        CtxLogin, List.lookup]

/-- C18, amended, at the header `Bearer good`: the token `good` is verified and the
endpoint runs with the administrator's identity in the context. -/
theorem auth_verifies_stripped_header_witness :
    ∃ c2, AuthMiddleware stubService (okEndpoint .CreateItem) (requestWith "Bearer good")
        = okEndpoint .CreateItem c2 ∧
      c2.validated = (requestWith "Bearer good").validated
        ++ [TrimPrefix ((requestWith "Bearer good").GetHeader "Authorization") "Bearer "] ∧
      c2.Get CtxUserID = some (.string adminPayload.UserID) ∧
      c2.Get CtxRole = some (.role adminPayload.Role) ∧
      c2.Get CtxLogin = some (.string adminPayload.Login) :=
  (auth_verifies_stripped_header stubService (okEndpoint .CreateItem) (requestWith "Bearer good")
    (by decide) (by decide)).2.2.2 adminPayload (by decide)

/-- C19: `RequireRoles(roles...)` answers 500 and aborts when the context has no `role`
entry or the entry is not a `user.Role`; otherwise it runs the next handler when the
role is one of `roles` and answers 403 and aborts when it is not, so an empty list
forbids every role. -/
theorem require_roles_decision (roles : List Role) (next : GinContext → GinContext)
    (c : GinContext) :
    (c.Get CtxRole = none →
      RequireRoles roles next c = c.AbortWithStatusJSON 500 "role not found in context") ∧
    (∀ v, c.Get CtxRole = some v → (∀ r, v ≠ .role r) →
      RequireRoles roles next c = c.AbortWithStatusJSON 500 "invalid role type in context") ∧
    (∀ r, c.Get CtxRole = some (.role r) → r ∈ roles → RequireRoles roles next c = next c) ∧
    (∀ r, c.Get CtxRole = some (.role r) → r ∉ roles →
      RequireRoles roles next c = c.AbortWithStatusJSON 403 "forbidden") ∧
    (∀ r, c.Get CtxRole = some (.role r) →
      RequireRoles [] next c = c.AbortWithStatusJSON 403 "forbidden") := by
  refine ⟨?_, ?_, ?_, ?_, ?_⟩
  · intro h
    simp [RequireRoles, h]
  · intro v h hv
    cases v with
    | string s => simp [RequireRoles, h]
    | role r => exact absurd rfl (hv r)
    | other => simp [RequireRoles, h]
  · intro r h hr
    have hany : roles.any (fun x => x == r) = true := by
      simp only [List.any_eq_true]
      exact ⟨r, hr, by simp⟩
    simp [RequireRoles, h, hany]
  · intro r h hr
    have hany : roles.any (fun x => x == r) = false := by
      simp only [List.any_eq_false]
      intro x hx hxr
      have : x = r := by simpa using hxr
      exact hr (this ▸ hx)
    simp [RequireRoles, h, hany]
  · intro r h
    simp [RequireRoles, h]

/-- C19 at the example of the specification: an administrator passes the gate of
`admin` and is answered 403 by the gate of `viewer`. -/
theorem require_roles_decision_witness :
    RequireRoles [Admin] (okEndpoint .CreateItem) ((requestWith "").withIdentity adminPayload)
      = okEndpoint .CreateItem ((requestWith "").withIdentity adminPayload) ∧
    RequireRoles [Viewer] (okEndpoint .CreateItem) ((requestWith "").withIdentity adminPayload)
      = ((requestWith "").withIdentity adminPayload).AbortWithStatusJSON 403 "forbidden" :=
  ⟨(require_roles_decision [Admin] (okEndpoint .CreateItem)
      ((requestWith "").withIdentity adminPayload)).2.2.1 Admin (by decide) (by decide),
   (require_roles_decision [Viewer] (okEndpoint .CreateItem)
      ((requestWith "").withIdentity adminPayload)).2.2.2.1 Admin (by decide) (by decide)⟩

theorem withIdentity_Get (c : GinContext) (p : JWTPayload) :
    (c.withIdentity p).Get CtxRole = some (.role p.Role) ∧
    (c.withIdentity p).Get CtxUserID = some (.string p.UserID) ∧
    (c.withIdentity p).Get CtxLogin = some (.string p.Login) ∧
    contextIdentity (c.withIdentity p) = .ok (p.UserID, p.Login) := by
  refine ⟨?_, ?_, ?_, ?_⟩ <;>
    simp [contextIdentity, GinContext.withIdentity, GinContext.Get, GinContext.Set, CtxUserID,
      CtxRole, CtxLogin, List.lookup]

/-- C20: every route of `RegisterRoutes` that carries `RequireRoles` runs
`AuthMiddleware`, then `RequireRoles`, then its endpoint; `AuthMiddleware` either
answers 401 without running what follows (or is left by a panic of the verification),
or runs what follows on a context whose `role` is a `user.Role` and whose `userId` and
`login` are strings; on that context `RequireRoles` runs the next handler or answers
403, never 500, and the item handlers read `userId` and `login` without failure. -/
theorem gated_routes_carry_identity :
    (∀ r ∈ RegisterRoutes, (∃ roles, Handler.RequireRoles roles ∈ r.handlers) →
      ∃ roles e, r.handlers = [.AuthMiddleware, .RequireRoles roles, e] ∧
        ∀ (userService : UserIFace) (endpoint : Handler → GinContext → GinContext)
          (c : GinContext),
          r.serve userService endpoint c
            = AuthMiddleware userService (RequireRoles roles (endpoint e)) c) ∧
    (∀ (userService : UserIFace) (c : GinContext),
      (∃ (c0 : GinContext) (msg : String), ∀ next : GinContext → GinContext,
        AuthMiddleware userService next c = c0.AbortWithStatusJSON 401 msg) ∨
      (∃ (c0 : GinContext) (m : String), ∀ next : GinContext → GinContext,
        AuthMiddleware userService next c = { c0 with panicked := some m }) ∨
      (∃ (c2 : GinContext) (p : JWTPayload),
        (∀ next : GinContext → GinContext, AuthMiddleware userService next c = next c2) ∧
        c2.Get CtxRole = some (.role p.Role) ∧
        c2.Get CtxUserID = some (.string p.UserID) ∧
        c2.Get CtxLogin = some (.string p.Login) ∧
        (∀ (roles : List Role) (next : GinContext → GinContext),
          RequireRoles roles next c2 = next c2 ∨
          RequireRoles roles next c2 = c2.AbortWithStatusJSON 403 "forbidden") ∧
        contextIdentity c2 = .ok (p.UserID, p.Login))) := by
  constructor
  · intro r hr
    simp only [RegisterRoutes, List.mem_cons, List.mem_singleton, List.not_mem_nil,
      or_false] at hr
    rcases hr with h | h | h | h | h | h | h | h | h | h | h <;> subst h <;>
      first
        | exact fun _ => ⟨_, _, rfl, fun _ _ _ => rfl⟩
        | (rintro ⟨roles, hmem⟩
           simp at hmem)
  · intro userService c
    by_cases h1 : c.GetHeader "Authorization" = ""
    · exact Or.inl ⟨c, "missing token", fun next => by simp [AuthMiddleware, h1]⟩
    · by_cases h2 : TrimPrefix (c.GetHeader "Authorization") "Bearer " = ""
      · exact Or.inl ⟨c, "empty token", fun next => by simp [AuthMiddleware, h1, h2]⟩
      · cases hv : userService.ValidateTokens (TrimPrefix (c.GetHeader "Authorization") "Bearer ")
          with
        | error e =>
          exact Or.inl ⟨{ c with validated := c.validated
              ++ [TrimPrefix (c.GetHeader "Authorization") "Bearer "] }, "invalid token",
            fun next => by simp only [AuthMiddleware, h1, h2, hv, if_false]⟩
        | panic m =>
          exact Or.inr (Or.inl ⟨{ c with validated := c.validated
              ++ [TrimPrefix (c.GetHeader "Authorization") "Bearer "] }, m,
            fun next => by simp only [AuthMiddleware, h1, h2, hv, if_false]⟩)
        | ok p =>
          obtain ⟨hr, hu, hl, hid⟩ := withIdentity_Get
            { c with validated := c.validated
                ++ [TrimPrefix (c.GetHeader "Authorization") "Bearer "] } p
          refine Or.inr (Or.inr ⟨_, p, fun next => by
            simp only [AuthMiddleware, h1, h2, hv, if_false], hr, hu, hl, ?_, hid⟩)
          intro roles next
          by_cases hm : roles.any (fun x => x == p.Role) = true
          · exact Or.inl (by simp only [RequireRoles, hr, hm, if_true])
          · exact Or.inr (by simp only [RequireRoles, hr, hm]; rfl)

/-- C20 at the route `POST /api/items` with the header `Bearer good`: the chain is the
gate, the role check for `admin` and `CreateItem`, which runs with status 200 on a
context that yields the administrator's `userId` and `login`. -/
theorem gated_routes_carry_identity_witness :
    (∃ roles e,
      (Route.mk "POST" "/api/items" [.AuthMiddleware, .RequireRoles [Admin], .CreateItem]).handlers
        = [.AuthMiddleware, .RequireRoles roles, e]) ∧
    (Route.mk "POST" "/api/items" [.AuthMiddleware, .RequireRoles [Admin], .CreateItem]).serve
        stubService okEndpoint (requestWith "Bearer good")
      = okEndpoint .CreateItem
          (GinContext.withIdentity { requestWith "Bearer good" with validated := ["good"] }
            adminPayload) ∧
    contextIdentity
        (GinContext.withIdentity { requestWith "Bearer good" with validated := ["good"] }
          adminPayload)
      = .ok (adminPayload.UserID, adminPayload.Login) :=
  ⟨(fun ⟨roles, e, h, _⟩ => ⟨roles, e, h⟩)
      (gated_routes_carry_identity.1
        (Route.mk "POST" "/api/items" [.AuthMiddleware, .RequireRoles [Admin], .CreateItem])
        (by decide) ⟨[Admin], by decide⟩),
    by decide, by decide⟩

/-! ## Routes and roles -/

theorem require_roles_gate (roles : List Role) (next : GinContext → GinContext)
    (c : GinContext) (r : Role) (h : c.Get CtxRole = some (.role r)) :
    (r ∈ roles → RequireRoles roles next c = next c) ∧
    (r ∉ roles → RequireRoles roles next c = c.AbortWithStatusJSON 403 "forbidden") := by
  constructor
  · intro hr
    have hany : roles.any (fun x => x == r) = true := by
      simp only [List.any_eq_true]
      exact ⟨r, hr, by simp⟩
    simp [RequireRoles, h, hany]
  · intro hr
    have hany : roles.any (fun x => x == r) = false := by
      simp only [List.any_eq_false]
      intro x hx hxr
      have : x = r := by simpa using hxr
      exact hr (this ▸ hx)
    simp [RequireRoles, h, hany]

theorem serve_gated (userService : UserIFace) (endpoint : Handler → GinContext → GinContext)
    (method path : String) (roles : List Role) (e : Handler) (he : e.isGatedEndpoint = true)
    (c : GinContext) :
    (Route.mk method path [.AuthMiddleware, .RequireRoles roles, e]).serve userService endpoint c
      = AuthMiddleware userService (RequireRoles roles (endpoint e)) c := by
  cases e <;> first | rfl | simp [Handler.isGatedEndpoint] at he

/-- C21: each item and history endpoint is registered once, behind `AuthMiddleware` and
`RequireRoles` with these roles: admin for creating, deleting and both history
endpoints; admin and manager for updating; admin, manager and viewer for listing and
reading.  For a request that `AuthMiddleware` lets through with payload `p`, the
endpoint runs when `p.Role` is one of the route's roles and the request is answered 403
without running it otherwise; viewer is among the roles of listing and reading only. -/
theorem routes_gate_by_role :
    (∀ r ∈ RegisterRoutes, ∀ e ∈ r.handlers, e.isGatedEndpoint = true →
      r.handlers = [.AuthMiddleware, .RequireRoles (statedRoles e), e]) ∧
    (∀ e : Handler, e.isGatedEndpoint = true →
      ∃ r ∈ RegisterRoutes, r.handlers = [.AuthMiddleware, .RequireRoles (statedRoles e), e]) ∧
    (∀ (userService : UserIFace) (c : GinContext) (p : JWTPayload) (method path : String)
        (e : Handler),
      e.isGatedEndpoint = true →
      c.GetHeader "Authorization" ≠ "" →
      TrimPrefix (c.GetHeader "Authorization") "Bearer " ≠ "" →
      userService.ValidateTokens (TrimPrefix (c.GetHeader "Authorization") "Bearer ") = .ok p →
      ∃ c2 : GinContext,
        (p.Role ∈ statedRoles e →
          ∀ endpoint : Handler → GinContext → GinContext,
            (Route.mk method path [.AuthMiddleware, .RequireRoles (statedRoles e), e]).serve
              userService endpoint c = endpoint e c2) ∧
        (p.Role ∉ statedRoles e →
          ∀ endpoint : Handler → GinContext → GinContext,
            (Route.mk method path [.AuthMiddleware, .RequireRoles (statedRoles e), e]).serve
              userService endpoint c = c2.AbortWithStatusJSON 403 "forbidden")) ∧
    (∀ e : Handler, e.isGatedEndpoint = true →
      (Viewer ∈ statedRoles e ↔ e = .GetItems ∨ e = .GetItem)) := by
  refine ⟨by decide, ?_, ?_, ?_⟩
  · intro e he
    cases e <;> first | (simp [Handler.isGatedEndpoint] at he; done) | decide
  · intro userService c p method path e he h1 h2 hv
    refine ⟨GinContext.withIdentity
      { c with validated := c.validated
          ++ [TrimPrefix (c.GetHeader "Authorization") "Bearer "] } p, ?_, ?_⟩
    · intro hin endpoint
      rw [serve_gated userService endpoint method path _ e he]
      have hr := (withIdentity_Get
        { c with validated := c.validated
            ++ [TrimPrefix (c.GetHeader "Authorization") "Bearer "] } p).1
      simp only [AuthMiddleware, h1, h2, hv, if_false]
      exact (require_roles_gate (statedRoles e) (endpoint e) _ p.Role hr).1 hin
    · intro hout endpoint
      rw [serve_gated userService endpoint method path _ e he]
      have hr := (withIdentity_Get
        { c with validated := c.validated
            ++ [TrimPrefix (c.GetHeader "Authorization") "Bearer "] } p).1
      simp only [AuthMiddleware, h1, h2, hv, if_false]
      exact (require_roles_gate (statedRoles e) (endpoint e) _ p.Role hr).2 hout
  · intro e he
    cases e <;> first | (simp [Handler.isGatedEndpoint] at he; done) | decide

/-- C21 at the route `POST /api/items`: the administrator's request runs `CreateItem`,
the viewer's request is answered 403 whatever the endpoint is. -/
theorem routes_gate_by_role_witness :
    (∃ c2 : GinContext, ∀ endpoint : Handler → GinContext → GinContext,
      (Route.mk "POST" "/api/items" [.AuthMiddleware, .RequireRoles [Admin], .CreateItem]).serve
        twoUserService endpoint (requestWith "Bearer good") = endpoint .CreateItem c2) ∧
    (∃ c2 : GinContext, ∀ endpoint : Handler → GinContext → GinContext,
      (Route.mk "POST" "/api/items" [.AuthMiddleware, .RequireRoles [Admin], .CreateItem]).serve
        twoUserService endpoint (requestWith "Bearer view")
        = c2.AbortWithStatusJSON 403 "forbidden") :=
  ⟨(routes_gate_by_role.2.2.1 twoUserService (requestWith "Bearer good") adminPayload "POST"
      "/api/items" .CreateItem rfl (by decide) (by decide) (by decide)).imp
      (fun _ h => h.1 (by decide)),
   (routes_gate_by_role.2.2.1 twoUserService (requestWith "Bearer view") viewerPayload "POST"
      "/api/items" .CreateItem rfl (by decide) (by decide) (by decide)).imp
      (fun _ h => h.2 (by decide))⟩

/-! ## History filters -/

/-- The checks of `GetItems` as the code makes them, the length of the login taken in
bytes: it calls the store, once and with the same five arguments, and returns its
result unchanged when `from` and `to` are not both set with `from` after `to`, the
action is empty or one of created, updated, deleted, the login is empty or at least
three bytes long, and the id is empty or parses as a UUID; otherwise it returns an
error and does not call the store. -/
theorem history_filters_gate_store (s : HistoryService) (id : String) (fromTime toTime : Time)
    (action login : String) :
    ((¬ (fromTime ≠ zeroTime ∧ toTime ≠ zeroTime ∧ toTime < fromTime) ∧
        (action = "" ∨ action = "created" ∨ action = "updated" ∨ action = "deleted") ∧
        (login = "" ∨ 3 ≤ goLen login) ∧
        (id = "" ∨ (uuidParse id).isSome = true)) →
      s.GetItems id fromTime toTime action login
        = (s.repo.GetItemsHistory id fromTime toTime action login,
            [{ id := id, fromTime := fromTime, toTime := toTime, action := action,
               login := login }])) ∧
    (¬ (¬ (fromTime ≠ zeroTime ∧ toTime ≠ zeroTime ∧ toTime < fromTime) ∧
        (action = "" ∨ action = "created" ∨ action = "updated" ∨ action = "deleted") ∧
        (login = "" ∨ 3 ≤ goLen login) ∧
        (id = "" ∨ (uuidParse id).isSome = true)) →
      ∃ e, s.GetItems id fromTime toTime action login = (([], some e), [])) := by
  by_cases h1 : fromTime ≠ zeroTime ∧ toTime ≠ zeroTime ∧ toTime < fromTime
  · constructor
    · intro h
      exact absurd h1 h.1
    · intro _
      obtain ⟨ha, hb, hc⟩ := h1
      refine ⟨errorsNew (apostrophe ++ "from" ++ apostrophe ++ " date cannot be after "
        ++ apostrophe ++ "to" ++ apostrophe), ?_⟩
      simp [HistoryService.GetItems, Time.IsZero, Time.After, ha, hb, hc]
  · have hd : (!Time.IsZero fromTime && !Time.IsZero toTime && Time.After fromTime toTime)
        = false := by
      simp only [Time.IsZero, Time.After]
      by_cases ha : fromTime = zeroTime
      · simp [ha]
      · by_cases hb : toTime = zeroTime
        · simp [hb]
        · have hc : ¬ toTime < fromTime := fun hc => h1 ⟨ha, hb, hc⟩
          simp [ha, hb, hc]
    by_cases h2 : action ≠ "" ∧ action ≠ "created" ∧ action ≠ "updated" ∧ action ≠ "deleted"
    · constructor
      · intro h
        rcases h.2.1 with h | h | h | h
        · exact absurd h h2.1
        · exact absurd h h2.2.1
        · exact absurd h h2.2.2.1
        · exact absurd h h2.2.2.2
      · intro _
        refine ⟨errorsNew "invalid action filter", ?_⟩
        unfold HistoryService.GetItems
        rw [hd]
        simp only [Bool.false_eq_true, if_false]
        rw [if_pos h2]
    · by_cases h3 : login ≠ "" ∧ goLen login < 3
      · constructor
        · intro h
          rcases h.2.2.1 with h | h
          · exact absurd h h3.1
          · omega
        · intro _
          refine ⟨errorsNew "login filter must be at least 3 characters long", ?_⟩
          unfold HistoryService.GetItems
          rw [hd]
          simp only [Bool.false_eq_true, if_false]
          rw [if_neg h2, if_pos h3]
      · by_cases h4 : id ≠ "" ∧ (uuidParse id).isNone = true
        · constructor
          · intro h
            rcases h.2.2.2 with h | h
            · exact absurd h h4.1
            · have h5 := h4.2
              cases hu : uuidParse id with
              | none => simp [hu] at h
              | some u => simp [hu] at h5
          · intro _
            refine ⟨errorsNew "invalid UUID format", ?_⟩
            unfold HistoryService.GetItems
            rw [hd]
            simp only [Bool.false_eq_true, if_false]
            rw [if_neg h2, if_neg h3, if_pos h4]
        · constructor
          · intro _
            unfold HistoryService.GetItems
            rw [hd]
            simp only [Bool.false_eq_true, if_false]
            rw [if_neg h2, if_neg h3, if_neg h4]
          · intro hn
            exfalso
            apply hn
            refine ⟨h1, ?_, ?_, ?_⟩
            · by_contra hc
              simp only [not_or] at hc
              exact h2 ⟨hc.1, hc.2.1, hc.2.2.1, hc.2.2.2⟩
            · by_contra hc
              simp only [not_or] at hc
              exact h3 ⟨hc.1, by omega⟩
            · by_contra hc
              simp only [not_or] at hc
              apply h4
              refine ⟨hc.1, ?_⟩
              cases hu : uuidParse id with
              | none => rfl
              | some u => simp [hu] at hc

/-- The checks of `GetItems` at the filters of the tests: from 1 to 2 January 2025, action `created`, login
`john`; the store is called once with these arguments. -/
theorem history_filters_gate_store_witness :
    (NewHistoryService emptyHistoryStore).GetItems "" (1735689600 * nsPerSec)
        (1735776000 * nsPerSec) "created" "john"
      = (([], none),
          [{ id := "", fromTime := 1735689600 * nsPerSec, toTime := 1735776000 * nsPerSec,
             action := "created", login := "john" }]) :=
  (history_filters_gate_store (NewHistoryService emptyHistoryStore) "" (1735689600 * nsPerSec)
    (1735776000 * nsPerSec) "created" "john").1 (by decide)

/-- C22, the code at the failing input: with every other filter passing (no dates, no
id, action `created`), the login filter made of U+00F1 and `u`, two characters in three
bytes, does not pass the rule of three characters, yet `GetItems` returns no error and
calls the store with it. -/
theorem store_called_for_two_character_login :
    accentLogin ≠ "" ∧ accentLogin.length = 2 ∧ goLen accentLogin = 3 ∧
    (NewHistoryService emptyHistoryStore).GetItems "" zeroTime zeroTime "created" accentLogin
      = (([], none),
          [{ id := "", fromTime := zeroTime, toTime := zeroTime, action := "created",
             login := accentLogin }]) := by
  refine ⟨by decide, by decide, by decide, by decide⟩

/-- C23, the code at the failing input: the login filter of two Cyrillic letters is
not empty and two characters long, but four bytes long, and `GetItems` does not fail:
it calls the store. -/
theorem short_login_filter_passes_by_bytes :
    twoLetterLogin ≠ "" ∧ twoLetterLogin.length = 2 ∧ goLen twoLetterLogin = 4 ∧
    (NewHistoryService emptyHistoryStore).GetItems "" zeroTime zeroTime "" twoLetterLogin
      = (([], none),
          [{ id := "", fromTime := zeroTime, toTime := zeroTime, action := "",
             login := twoLetterLogin }]) := by
  refine ⟨by decide, by decide, by decide, by decide⟩

/-! ## The CSV report -/

theorem csvWriteRows_ok (F : HistoryFormat) (hs : List History) (w : CsvWriter)
    (hmarshal : ∀ h ∈ hs, ∃ text, F.jsonMarshal h.ItemDiff = .ok text)
    (htake : ∀ record, w.reject record = none) :
    csvWriteRows F hs w
      = ({ w with records := w.records
            ++ hs.map (fun h => csvRow F h (marshalText F h.ItemDiff)) }, none) := by
  induction hs generalizing w with
  | nil => simp [csvWriteRows]
  | cons h rest ih =>
    obtain ⟨text, ht⟩ := hmarshal h (List.mem_cons_self _ _)
    have hrest : ∀ h2 ∈ rest, ∃ text, F.jsonMarshal h2.ItemDiff = .ok text :=
      fun h2 hm => hmarshal h2 (List.mem_cons_of_mem _ hm)
    have hm : marshalText F h.ItemDiff = text := by simp [marshalText, ht]
    simp only [csvWriteRows, ht, CsvWriter.Write, htake, List.map_cons, hm]
    rw [ih { records := w.records ++ [csvRow F h text], reject := w.reject } hrest
      (fun record => htake record)]
    simp

theorem csvWriteRows_stops (F : HistoryFormat) (pre : List History) (bad : History)
    (post : List History) (e : GoError) (w : CsvWriter)
    (hmarshal : ∀ h ∈ pre, ∃ text, F.jsonMarshal h.ItemDiff = .ok text)
    (hbad : F.jsonMarshal bad.ItemDiff = .error e)
    (htake : ∀ record, w.reject record = none) :
    csvWriteRows F (pre ++ bad :: post) w
      = ({ w with records := w.records
            ++ pre.map (fun h => csvRow F h (marshalText F h.ItemDiff)) }, some e) := by
  induction pre generalizing w with
  | nil => simp [csvWriteRows, hbad]
  | cons h rest ih =>
    obtain ⟨text, ht⟩ := hmarshal h (List.mem_cons_self _ _)
    have hrest : ∀ h2 ∈ rest, ∃ text, F.jsonMarshal h2.ItemDiff = .ok text :=
      fun h2 hm => hmarshal h2 (List.mem_cons_of_mem _ hm)
    have hm : marshalText F h.ItemDiff = text := by simp [marshalText, ht]
    have hstep : csvWriteRows F ((h :: rest) ++ bad :: post) w
        = csvWriteRows F (rest ++ bad :: post)
            { records := w.records ++ [csvRow F h text], reject := w.reject } := by
      simp only [List.cons_append, csvWriteRows, ht, CsvWriter.Write, htake]
      rfl
    rw [hstep, ih { records := w.records ++ [csvRow F h text], reject := w.reject } hrest
      (fun record => htake record)]
    simp [hm]

/-- C24 as stated fails: for the three entries the store returns here, the second
with a NaN in its diff, `json.Marshal` fails on the second, and `GetItemsCSV` returns
that error having written two records, the header and the first entry, not four; and
on an output that takes no record it writes none and returns the error of the output. -/
theorem csv_report_stops_on_failure :
    (NewHistoryService (fixedHistoryStore [testEntry, nanEntry, testEntry] none)).GetItemsCSV
        plainFormat "" zeroTime zeroTime "" "" emptyOutput
      = (({ records := [csvHeaders, csvRow plainFormat testEntry ""],
            reject := emptyOutput.reject },
          some ⟨"json: unsupported value: NaN", 1⟩),
         [{ id := "", fromTime := zeroTime, toTime := zeroTime, action := "", login := "" }]) ∧
    ((NewHistoryService (fixedHistoryStore [testEntry] none)).GetItemsCSV
        plainFormat "" zeroTime zeroTime "" "" closedOutput).1.1.records = [] ∧
    ((NewHistoryService (fixedHistoryStore [testEntry] none)).GetItemsCSV
        plainFormat "" zeroTime zeroTime "" "" closedOutput).1.2
      = some ⟨"io: read/write on closed pipe", 1⟩ := by
  refine ⟨rfl, rfl, rfl⟩

/-- C24, amended: when `GetItems` returns `n` entries without error, `json.Marshal`
succeeds on the diff of every entry and the output takes every record, `GetItemsCSV`
returns nil and appends `n + 1` records to the output: the header, then one record per
entry in the store's order, each with as many fields as the header, its first six
being the id, item id, action, author id, author login and RFC 3339 change time.  When
`json.Marshal` fails on an entry, `GetItemsCSV` returns that error, with the header and
the records of the entries before that one written.  When `GetItems` returns an error,
`GetItemsCSV` returns it and leaves the output as it was. -/
theorem csv_report_records (F : HistoryFormat) (s : HistoryService) (id : String)
    (fromTime toTime : Time) (action login : String) (output : CsvWriter) :
    (∀ hs calls, s.GetItems id fromTime toTime action login = ((hs, none), calls) →
      (∀ h ∈ hs, ∃ text, F.jsonMarshal h.ItemDiff = .ok text) →
      (∀ record, output.reject record = none) →
      ∃ w, s.GetItemsCSV F id fromTime toTime action login output = ((w, none), calls) ∧
        w.records = output.records
          ++ csvHeaders :: hs.map (fun h => csvRow F h (marshalText F h.ItemDiff)) ∧
        w.records.length = output.records.length + (hs.length + 1) ∧
        (∀ record ∈ csvHeaders :: hs.map (fun h => csvRow F h (marshalText F h.ItemDiff)),
          record.length = csvHeaders.length) ∧
        (∀ h ∈ hs, (csvRow F h (marshalText F h.ItemDiff)).take 6
          = [h.ID.String, h.ItemID.String, h.Action, h.ChangedBy.String, h.ChangedByLogin,
              F.formatRFC3339 h.ChangedAt])) ∧
    (∀ pre bad post e calls,
      s.GetItems id fromTime toTime action login = ((pre ++ bad :: post, none), calls) →
      (∀ h ∈ pre, ∃ text, F.jsonMarshal h.ItemDiff = .ok text) →
      F.jsonMarshal bad.ItemDiff = .error e →
      (∀ record, output.reject record = none) →
      ∃ w, s.GetItemsCSV F id fromTime toTime action login output = ((w, some e), calls) ∧
        w.records = output.records
          ++ csvHeaders :: pre.map (fun h => csvRow F h (marshalText F h.ItemDiff))) ∧
    (∀ hs e calls, s.GetItems id fromTime toTime action login = ((hs, some e), calls) →
      s.GetItemsCSV F id fromTime toTime action login output = ((output, some e), calls)) := by
  refine ⟨?_, ?_, ?_⟩
  · intro hs calls hget hmarshal htake
    refine ⟨{ output with records := output.records
        ++ csvHeaders :: hs.map (fun h => csvRow F h (marshalText F h.ItemDiff)) }, ?_, rfl,
      ?_, ?_, ?_⟩
    · simp only [HistoryService.GetItemsCSV, hget, CsvWriter.Write, htake]
      rw [csvWriteRows_ok F hs (CsvWriter.mk (output.records ++ [csvHeaders]) output.reject)
        hmarshal (fun record => htake record)]
      simp
    · simp
    · intro record hrec
      rcases List.mem_cons.mp hrec with h | h
      · rw [h]
      · obtain ⟨entry, _, he⟩ := List.mem_map.mp h
        subst he
        simp only [csvRow, csvHeaders, List.length_cons, List.length_nil]
    · intro h _
      simp only [csvRow, List.take_succ_cons, List.take_zero]
  · intro pre bad post e calls hget hmarshal hbad htake
    refine ⟨{ output with records := output.records
        ++ csvHeaders :: pre.map (fun h => csvRow F h (marshalText F h.ItemDiff)) }, ?_, rfl⟩
    simp only [HistoryService.GetItemsCSV, hget, CsvWriter.Write, htake]
    rw [csvWriteRows_stops F pre bad post e
      (CsvWriter.mk (output.records ++ [csvHeaders]) output.reject)
      hmarshal hbad (fun record => htake record)]
    simp
  · intro hs e calls hget
    simp only [HistoryService.GetItemsCSV, hget]

/-- C24, amended, at two entries, the one of the tests and one recording a change of
name: the output receives the header and two records, each of nine fields. -/
theorem csv_report_records_witness :
    ∃ w, (NewHistoryService (fixedHistoryStore [testEntry, renamedEntry] none)).GetItemsCSV
          plainFormat "" zeroTime zeroTime "" "" emptyOutput
        = ((w, none),
            [{ id := "", fromTime := zeroTime, toTime := zeroTime, action := "", login := "" }]) ∧
      w.records = emptyOutput.records
        ++ csvHeaders :: [testEntry, renamedEntry].map
            (fun h => csvRow plainFormat h (marshalText plainFormat h.ItemDiff)) ∧
      w.records.length = emptyOutput.records.length + ([testEntry, renamedEntry].length + 1) ∧
      (∀ record ∈ csvHeaders :: [testEntry, renamedEntry].map
            (fun h => csvRow plainFormat h (marshalText plainFormat h.ItemDiff)),
        record.length = csvHeaders.length) ∧
      (∀ h ∈ [testEntry, renamedEntry],
        (csvRow plainFormat h (marshalText plainFormat h.ItemDiff)).take 6
        = [h.ID.String, h.ItemID.String, h.Action, h.ChangedBy.String, h.ChangedByLogin,
            plainFormat.formatRFC3339 h.ChangedAt]) :=
  (csv_report_records plainFormat
    (NewHistoryService (fixedHistoryStore [testEntry, renamedEntry] none)) ""
    zeroTime zeroTime "" "" emptyOutput).1 [testEntry, renamedEntry] _ (by decide)
    (fun h hmem => by
      rcases List.mem_cons.mp hmem with h1 | h1
      · exact ⟨_, by rw [h1]; rfl⟩
      · rcases List.mem_cons.mp h1 with h2 | h2
        · exact ⟨_, by rw [h2]; rfl⟩
        · cases h2)
    (fun _ => rfl)

/-! ## C25: `Item.Diff` -/

theorem Float64.ne_of_numbers (a b : Float64) (ha : a ≠ .nan) (hb : b ≠ .nan) :
    a.ne b = decide (a ≠ b) := by
  cases a <;> cases b <;> simp_all [Float64.ne]

theorem testPrices_ne : ¬ ((1 : ℚ) = 3 / 2) := by norm_num

/-- C25 as stated fails: an item whose price is NaN differs from itself in `price`,
since `!=` on `float64` holds as soon as one side is NaN. -/
theorem nan_price_differs_from_itself :
    nanItem.Diff nanItem
        = [("price", { Old := .float .nan, New := .float .nan })] ∧
      nanItem.Diff nanItem ≠ [] ∧
      (nanItem.Diff nanItem).lookup "price" ≠ none := by
  decide

theorem Float64.ne_of_nan (a b : Float64) (h : a = .nan ∨ b = .nan) : a.ne b = true := by
  rcases h with h | h
  · subst h
    cases b <;> rfl
  · subst h
    cases a <;> rfl

/-- C25, amended.  For items whose prices are not NaN, `a.Diff b` holds the key `name`,
`count` or `price` exactly when the two items differ in that field, with `Old` the
value of `a` and `New` the value of `b`; no other key occurs and none twice, and the
number of entries is the number of differing fields; `a.Diff a` is empty.  When the
price of `a` or of `b` is NaN, `name` and `count` are held as before and `price` is
always held, with `Old` the price of `a` and `New` the price of `b`, so `a.Diff a` is
the one entry `price`.  The ID plays no part. -/
theorem diff_of_number_prices (a b : Item) :
    (a.Price ≠ .nan → b.Price ≠ .nan →
      ((a.Diff b).lookup "name"
          = if a.Name ≠ b.Name then some { Old := .str a.Name, New := .str b.Name }
            else none) ∧
      ((a.Diff b).lookup "count"
          = if a.Count ≠ b.Count then some { Old := .int a.Count, New := .int b.Count }
            else none) ∧
      ((a.Diff b).lookup "price"
          = if a.Price ≠ b.Price then some { Old := .float a.Price, New := .float b.Price }
            else none) ∧
      (∀ k ∈ (a.Diff b).map Prod.fst, k = "name" ∨ k = "count" ∨ k = "price") ∧
      ((a.Diff b).map Prod.fst).Nodup ∧
      ((a.Diff b).length
          = (if a.Name ≠ b.Name then 1 else 0) + (if a.Count ≠ b.Count then 1 else 0)
            + (if a.Price ≠ b.Price then 1 else 0))) ∧
    (a.Price ≠ .nan → a.Diff a = []) ∧
    (a.Price = .nan ∨ b.Price = .nan →
      ((a.Diff b).lookup "name"
          = if a.Name ≠ b.Name then some { Old := .str a.Name, New := .str b.Name }
            else none) ∧
      ((a.Diff b).lookup "count"
          = if a.Count ≠ b.Count then some { Old := .int a.Count, New := .int b.Count }
            else none) ∧
      ((a.Diff b).lookup "price" = some { Old := .float a.Price, New := .float b.Price }) ∧
      (∀ k ∈ (a.Diff b).map Prod.fst, k = "name" ∨ k = "count" ∨ k = "price") ∧
      ((a.Diff b).map Prod.fst).Nodup ∧
      ((a.Diff b).length
          = (if a.Name ≠ b.Name then 1 else 0) + (if a.Count ≠ b.Count then 1 else 0) + 1)) ∧
    (a.Price = .nan →
      a.Diff a = [("price", { Old := .float a.Price, New := .float a.Price })]) ∧
    (∀ id1 id2 : UUID, ({ a with ID := id1 } : Item).Diff { b with ID := id2 } = a.Diff b) := by
  refine ⟨?_, ?_, ?_, ?_, fun _ _ => rfl⟩
  · intro ha hb
    have hne := Float64.ne_of_numbers a.Price b.Price ha hb
    refine ⟨?_, ?_, ?_, ?_, ?_, ?_⟩ <;>
      (unfold Item.Diff
       rw [hne]
       by_cases h1 : a.Name = b.Name <;> by_cases h2 : a.Count = b.Count <;>
         by_cases h3 : a.Price = b.Price <;> simp [h1, h2, h3, List.lookup])
  · intro ha
    have hself := Float64.ne_of_numbers a.Price a.Price ha ha
    unfold Item.Diff
    rw [hself]
    simp
  · intro hnan
    have hne := Float64.ne_of_nan a.Price b.Price hnan
    refine ⟨?_, ?_, ?_, ?_, ?_, ?_⟩ <;>
      (unfold Item.Diff
       rw [hne]
       by_cases h1 : a.Name = b.Name <;> by_cases h2 : a.Count = b.Count <;>
         simp [h1, h2, List.lookup])
  · intro ha
    have hself := Float64.ne_of_nan a.Price a.Price (Or.inl ha)
    unfold Item.Diff
    rw [hself]
    simp

/-- C25, amended, at the items of `TestDiff`, where all three fields differ, and at an
item whose price is NaN. -/
theorem diff_of_number_prices_witness :
    diffItemA.Price ≠ .nan ∧ diffItemB.Price ≠ .nan ∧ nanItem.Price = .nan ∧
      (diffItemA.Diff diffItemB).length = 3 ∧
      (diffItemA.Diff diffItemB).lookup "name"
        = some { Old := .str "A", New := .str "B" } ∧
      (diffItemA.Diff diffItemB).lookup "count" = some { Old := .int 1, New := .int 2 } ∧
      (diffItemA.Diff diffItemB).lookup "price"
        = some { Old := .float (.num 1), New := .float (.num (3 / 2)) } ∧
      diffItemA.Diff diffItemA = [] ∧
      (nanItem.Diff diffItemA).lookup "price"
        = some { Old := .float .nan, New := .float (.num 1) } ∧
      nanItem.Diff nanItem
        = [("price", { Old := .float nanItem.Price, New := .float nanItem.Price })] := by
  have h := (diff_of_number_prices diffItemA diffItemB).1 (by decide) (by decide)
  have h2 := (diff_of_number_prices diffItemA diffItemA).2.1 (by decide)
  have h3 := (diff_of_number_prices nanItem diffItemA).2.2.1 (Or.inl rfl)
  have h4 := (diff_of_number_prices nanItem nanItem).2.2.2.1 rfl
  refine ⟨by decide, by decide, rfl, ?_, ?_, ?_, ?_, h2, h3.2.2.1, h4⟩
  · rw [h.2.2.2.2.2]; simp [diffItemA, diffItemB, testPrices_ne]
  · rw [h.1]; decide
  · rw [h.2.1]; decide
  · rw [h.2.2.1]; simp [diffItemA, diffItemB, testPrices_ne]

/-! ## C26: the item service validates before it reaches the store -/

theorem isNameValid_of_invalid (s : ItemService) (name : String)
    (h : name = "" ∨ runeCount name < s.cfg.NameMinLength
      ∨ runeCount name > s.cfg.NameMaxLegth) :
    ∃ e, s.isNameValid name = some e := by
  unfold ItemService.isNameValid
  rw [if_pos h]
  exact ⟨_, rfl⟩

/-- C26, the code at the failing input: a price that is NaN is not greater than zero,
yet the check `price <= 0`, whose error reads `price must be > 0`, lets it through, so
`Create` writes the item to the store and `PutItem` writes the change. -/
theorem nan_price_reaches_store :
    Float64.nan.gtZero = false ∧
      emptyItemService.Create "bolt" 1 .nan "u1" "ann" nilUUID
        = (.ok { ID := nilUUID, Name := "bolt", Count := 1, Price := .nan },
           [.CreateItem { ID := nilUUID, Name := "bolt", Count := 1, Price := .nan }
              "u1" "ann"]) ∧
      (emptyItemService.PutItem someId "bolt" 1 .nan "u1" "ann").2
        = [.GetItem someId,
           .PutItem { zeroItem with Name := "bolt", Count := 1, Price := .nan } "u1" "ann"] := by
  refine ⟨rfl, ?_, ?_⟩
  · rfl
  · rfl

/-- The validations of the item service, for every store: `GetItem`, `PutItem` and
`DeleteItem` return an error without any store call when the id is not a well-formed
UUID; `Create` and `PutItem` return an error without any store write when the name is
empty or its length in characters is outside the configured bounds, or when
`price <= 0` holds.  `Create` then makes no store call at all, `PutItem` at most the
read `GetItem`. -/
theorem validations_precede_store (s : ItemService) :
    (∀ id, uuidParse id = none → ∃ e, s.GetItem id = ((none, some e), [])) ∧
    (∀ id name count price userID login, uuidParse id = none →
      ∃ e, s.PutItem id name count price userID login = (.error e, [])) ∧
    (∀ id userID login, uuidParse id = none →
      ∃ e, s.DeleteItem id userID login = (some e, [])) ∧
    (∀ name count price userID login newID,
      (name = "" ∨ runeCount name < s.cfg.NameMinLength
        ∨ runeCount name > s.cfg.NameMaxLegth ∨ price.leZero = true) →
      ∃ e, s.Create name count price userID login newID = (.error e, [])) ∧
    (∀ id name count price userID login,
      (name = "" ∨ runeCount name < s.cfg.NameMinLength
        ∨ runeCount name > s.cfg.NameMaxLegth ∨ price.leZero = true) →
      ∃ e calls, s.PutItem id name count price userID login = (.error e, calls) ∧
        (calls = [] ∨ calls = [.GetItem id]) ∧ ∀ c ∈ calls, c.isWrite = false) := by
  refine ⟨?_, ?_, ?_, ?_, ?_⟩
  · intro id h
    exact ⟨_, by unfold ItemService.GetItem; rw [h]⟩
  · intro id name count price userID login h
    exact ⟨_, by unfold ItemService.PutItem; rw [h]⟩
  · intro id userID login h
    exact ⟨_, by unfold ItemService.DeleteItem; rw [h]⟩
  · intro name count price userID login newID h
    unfold ItemService.Create
    by_cases hn : name = "" ∨ runeCount name < s.cfg.NameMinLength
        ∨ runeCount name > s.cfg.NameMaxLegth
    · obtain ⟨e, he⟩ := isNameValid_of_invalid s name hn
      rw [he]
      exact ⟨e, rfl⟩
    · have hp : price.leZero = true := by tauto
      have hne : ¬ name = "" := fun h0 => hn (Or.inl h0)
      cases hv : s.isNameValid name with
      | some e => exact ⟨e, rfl⟩
      | none =>
        simp only [NewItem, if_neg hne, hp, if_true]
        exact ⟨_, rfl⟩
  · intro id name count price userID login h
    unfold ItemService.PutItem
    cases hid : uuidParse id with
    | none => exact ⟨_, [], rfl, Or.inl rfl, by simp⟩
    | some u =>
      cases hv : s.isNameValid name with
      | some e => exact ⟨e, [], rfl, Or.inl rfl, by simp⟩
      | none =>
        have hn : ¬ (name = "" ∨ runeCount name < s.cfg.NameMinLength
            ∨ runeCount name > s.cfg.NameMaxLegth) := by
          intro hbad
          obtain ⟨e, he⟩ := isNameValid_of_invalid s name hbad
          rw [he] at hv
          cases hv
        have hp : price.leZero = true := by tauto
        have hne : ¬ name = "" := fun h0 => hn (Or.inl h0)
        have hchange : ∀ p : Option Item, Item.ChangeItemAt p name count price
            = .error (errorsNew "price must be >0") := by
          intro p
          cases p <;> simp [Item.ChangeItemAt, Item.ChangeItem, hne, hp]
        rcases hg : s.repo.GetItem id with ⟨item, err⟩
        cases err with
        | some e => exact ⟨e, [.GetItem id], rfl, Or.inr rfl, by simp [ItemCall.isWrite]⟩
        | none =>
          simp only [hchange]
          exact ⟨_, [.GetItem id], rfl, Or.inr rfl, by simp [ItemCall.isWrite]⟩

/-- The validations of the item service at the inputs of the tests: a malformed id
and a one-letter name reach no store call, a zero price no store write. -/
theorem validations_precede_store_witness :
    uuidParse "not-a-uuid" = none ∧
      (∃ e, emptyItemService.PutItem "not-a-uuid" "bolt" 1 (.num 5) "u1" "ann"
        = (.error e, [])) ∧
      (∃ e, emptyItemService.Create "a" 1 (.num 5) "u1" "ann" nilUUID = (.error e, [])) ∧
      (∃ e, emptyItemService.Create "bolt" 1 (.num 0) "u1" "ann" nilUUID = (.error e, [])) :=
  ⟨by decide,
   (validations_precede_store emptyItemService).2.1 "not-a-uuid" "bolt" 1 (.num 5) "u1" "ann"
     (by decide),
   (validations_precede_store emptyItemService).2.2.2.1 "a" 1 (.num 5) "u1" "ann" nilUUID
     (Or.inr (Or.inl (by decide))),
   (validations_precede_store emptyItemService).2.2.2.1 "bolt" 1 (.num 0) "u1" "ann" nilUUID
     (Or.inr (Or.inr (Or.inr (by decide))))⟩

/-! ## C27: the order of the checks on a token -/

theorem validateAccessToken_of_old (L : JwtLib) (s : JWTService) (tok : TokenStr)
    (tParse tCheck : Time)
    (h : ∀ x, tok.claims.lookup "exp" = some (.num x) →
      timeUnix (int64OfFloat x) < tCheck ∨ (x ≠ 0 ∧ newNumericDateFromSeconds x ≤ tParse)) :
    s.validateAccessToken L tok tParse tCheck = .error (errorsNew "invalid access token")
      ∨ s.validateAccessToken L tok tParse tCheck = .error (errorsNew "token has expired") := by
  unfold JWTService.validateAccessToken
  cases tok with
  | malformed raw => exact Or.inl rfl
  | jws alg signingString claims signature =>
    simp only [TokenStr.claims] at h
    by_cases hc : (verifySignature L alg s.accessSecret signingString signature
        && validateClaims claims tParse) = true
    · simp only [jwtParse, if_pos hc]
      right
      cases hl : claims.lookup "exp" with
      | none => rfl
      | some v =>
        cases v with
        | str t => rfl
        | other => rfl
        | num x =>
          rcases h x hl with hlt | ⟨hx, hle⟩
          · simp [Time.Before, hlt]
          · exfalso
            have hv : verifyExpiresAt claims tParse = true := by
              simp only [validateClaims, Bool.and_eq_true] at hc
              exact hc.2.1
            simp only [verifyExpiresAt, parseNumericDate, hl, if_neg hx, Time.Before,
              decide_eq_true_eq] at hv
            exact absurd hv (not_lt.mpr hle)
    · simp only [jwtParse, if_neg hc]
      exact Or.inl trivial

theorem validateRefreshToken_of_old (L : JwtLib) (s : JWTService) (tok : TokenStr)
    (tParse tCheck : Time)
    (h : ∀ x, tok.claims.lookup "exp" = some (.num x) →
      timeUnix (int64OfFloat x) < tCheck ∨ (x ≠ 0 ∧ newNumericDateFromSeconds x ≤ tParse)) :
    s.validateRefreshToken L tok tParse tCheck = .error (errorsNew "invalid refresh token")
      ∨ s.validateRefreshToken L tok tParse tCheck
          = .error (errorsNew "refresh token has expired") := by
  unfold JWTService.validateRefreshToken
  cases tok with
  | malformed raw => exact Or.inl rfl
  | jws alg signingString claims signature =>
    simp only [TokenStr.claims] at h
    by_cases hc : (verifySignature L alg s.refreshSecret signingString signature
        && validateClaims claims tParse) = true
    · simp only [jwtParse, if_pos hc]
      right
      cases hl : claims.lookup "exp" with
      | none => rfl
      | some v =>
        cases v with
        | str t => rfl
        | other => rfl
        | num x =>
          rcases h x hl with hlt | ⟨hx, hle⟩
          · simp [Time.Before, hlt]
          · exfalso
            have hv : verifyExpiresAt claims tParse = true := by
              simp only [validateClaims, Bool.and_eq_true] at hc
              exact hc.2.1
            simp only [verifyExpiresAt, parseNumericDate, hl, if_neg hx, Time.Before,
              decide_eq_true_eq] at hv
            exact absurd hv (not_lt.mpr hle)
    · simp only [jwtParse, if_neg hc]
      exact Or.inl trivial

/-- C27 as stated fails: a token signed with the class secret that lacks `uuid` is
reported as `invalid access token` when its expiry is past and as `token has expired`
when it carries no expiry, never as `invalid token payload`; likewise for the refresh
class. -/
theorem expiry_reported_before_missing_identity :
    hasString pastClaimsNoUuid "uuid" = false ∧ hasString noExpiryClaims "uuid" = false ∧
    testJWT.ValidateTokens plainLib (signedString plainLib pastClaimsNoUuid "access-secret")
        (61 * nsPerSec) (61 * nsPerSec) = .error (errorsNew "invalid access token") ∧
    testJWT.ValidateTokens plainLib (signedString plainLib noExpiryClaims "access-secret")
        (61 * nsPerSec) (61 * nsPerSec) = .error (errorsNew "token has expired") ∧
    testJWT.RefreshTokens plainLib (signedString plainLib pastClaimsNoUuid "refresh-secret")
        (61 * nsPerSec) (61 * nsPerSec) (61 * nsPerSec) (61 * nsPerSec)
      = .error (errorsNew "invalid refresh token") ∧
    testJWT.RefreshTokens plainLib (signedString plainLib noExpiryClaims "refresh-secret")
        (61 * nsPerSec) (61 * nsPerSec) (61 * nsPerSec) (61 * nsPerSec)
      = .error (errorsNew "refresh token has expired") := by
  refine ⟨by decide, by decide, by decide, by decide, by decide, by decide⟩

/-- C27, amended: the checks run in the order signature, then expiry, then identity
fields.  A token whose expiry is absent, not a number, before the clock reading of the
expiry test, or not zero and not after the clock reading of the parser, fails in the
verification step, whatever identity fields it carries or lacks: `ValidateTokens`
returns the error of `validateAccessToken` and `RefreshTokens` the error of
`validateRefreshToken`, and neither is the error for malformed claims. -/
theorem expiry_checked_before_identity (L : JwtLib) (s : JWTService) (tok : TokenStr)
    (tParse tCheck tA tR : Time)
    (h : ∀ x, tok.claims.lookup "exp" = some (.num x) →
      timeUnix (int64OfFloat x) < tCheck ∨ (x ≠ 0 ∧ newNumericDateFromSeconds x ≤ tParse)) :
    (∃ e, s.validateAccessToken L tok tParse tCheck = .error e ∧
      s.ValidateTokens L tok tParse tCheck = .error e ∧
      e ≠ errorsNew "invalid token payload") ∧
    (∃ e, s.validateRefreshToken L tok tParse tCheck = .error e ∧
      s.RefreshTokens L tok tParse tCheck tA tR = .error e ∧
      e ≠ errorsNew "invalid refresh token payload") := by
  constructor
  · rcases validateAccessToken_of_old L s tok tParse tCheck h with hv | hv
    · exact ⟨_, hv, by simp only [JWTService.ValidateTokens, hv], by decide⟩
    · exact ⟨_, hv, by simp only [JWTService.ValidateTokens, hv], by decide⟩
  · rcases validateRefreshToken_of_old L s tok tParse tCheck h with hv | hv
    · exact ⟨_, hv, by simp only [JWTService.RefreshTokens, hv], by decide⟩
    · exact ⟨_, hv, by simp only [JWTService.RefreshTokens, hv], by decide⟩

/-- C27, amended, at the token of the counterexample whose expiry, second 60, is past
at second 61. -/
theorem expiry_checked_before_identity_witness :
    (∀ x, (signedString plainLib pastClaimsNoUuid "access-secret").claims.lookup "exp"
        = some (.num x) →
      timeUnix (int64OfFloat x) < 61 * nsPerSec
        ∨ (x ≠ 0 ∧ newNumericDateFromSeconds x ≤ 61 * nsPerSec)) ∧
    (∃ e, testJWT.validateAccessToken plainLib
          (signedString plainLib pastClaimsNoUuid "access-secret")
          (61 * nsPerSec) (61 * nsPerSec) = .error e ∧
      testJWT.ValidateTokens plainLib (signedString plainLib pastClaimsNoUuid "access-secret")
          (61 * nsPerSec) (61 * nsPerSec) = .error e ∧
      e ≠ errorsNew "invalid token payload") :=
  have h : ∀ x, (signedString plainLib pastClaimsNoUuid "access-secret").claims.lookup "exp"
        = some (.num x) →
      timeUnix (int64OfFloat x) < 61 * nsPerSec
        ∨ (x ≠ 0 ∧ newNumericDateFromSeconds x ≤ 61 * nsPerSec) := by
    intro x hx
    have hx2 : x = 60 := by
      have h60 : (signedString plainLib pastClaimsNoUuid "access-secret").claims.lookup "exp"
          = some (.num 60) := by decide
      rw [h60] at hx
      injection hx with hx
      injection hx with hx
      exact hx.symm
    subst hx2
    exact Or.inl (by decide)
  ⟨h, (expiry_checked_before_identity plainLib testJWT
    (signedString plainLib pastClaimsNoUuid "access-secret")
    (61 * nsPerSec) (61 * nsPerSec) 0 0 h).1⟩

/-! ## C28: compiling the login pattern -/

/-- C28, the code at the failing inputs: with allowed characters the empty string the
pattern is `^[]+$`, whose class is never closed, and with allowed characters `z-a` the
class holds a range that runs backwards; neither compiles, so `regexp.MustCompile`
panics and `Registration` of the login `bob` returns neither an identity nor an
error, before any call to the store. -/
theorem registration_panics_on_uncompilable_pattern :
    compileLoginPattern (QuoteMeta emptyAllowedCfg.UserConfig.AllowedCharacters.toList) = none ∧
    compileLoginPattern (QuoteMeta reversedRangeCfg.UserConfig.AllowedCharacters.toList)
      = none ∧
    (serviceWith emptyAllowedCfg).isValidLogin "bob"
      = .panic "regexp: Compile: error parsing regexp" ∧
    (serviceWith emptyAllowedCfg).Registration plainBcrypt asciiUnicode "bob" "Secret12"
        "admin" "salt" nilUUID 0
      = (.panic "regexp: Compile: error parsing regexp", []) ∧
    (serviceWith reversedRangeCfg).Registration plainBcrypt asciiUnicode "bob" "Secret12"
        "admin" "salt" nilUUID 0
      = (.panic "regexp: Compile: error parsing regexp", []) := by
  refine ⟨by decide, by decide, by decide, by decide, by decide⟩

/-! ## C29: the placeholders of the history query -/

/-- C29: for every combination of the five filters, the placeholders of the query
text built by `Postgres.GetItemsHistory` are `$1` to `$k` in order of appearance, with
`k` the number of active filters and the length of the argument list, and the
arguments are the values of the active filters in the order from, to, id, action,
login, the login between two percent signs. -/
theorem history_placeholders_consecutive (id : String) (fromTime toTime : Time)
    (action login : String) :
    placeholders (Postgres.historyQuery id fromTime toTime action login).query.toList
        = List.range' 1 (Postgres.historyQuery id fromTime toTime action login).args.length ∧
    (Postgres.historyQuery id fromTime toTime action login).args
        = activeFilters id fromTime toTime action login ∧
    (Postgres.historyQuery id fromTime toTime action login).args.length
        = (if Time.IsZero fromTime then 0 else 1) + (if Time.IsZero toTime then 0 else 1)
          + (if id = "" then 0 else 1) + (if action = "" then 0 else 1)
          + (if login = "" then 0 else 1) := by
  refine ⟨?_, ?_, ?_⟩
  · cases h1 : Time.IsZero fromTime <;> cases h2 : Time.IsZero toTime <;>
      by_cases h3 : id = "" <;> by_cases h4 : action = "" <;> by_cases h5 : login = "" <;>
      simp only [Postgres.historyQuery, h1, h2, h3, h4, h5, Bool.not_false,
        Bool.not_true, Bool.false_eq_true, if_true, if_false, ne_eq, not_true_eq_false,
        not_false_eq_true, List.nil_append, List.append_nil, List.singleton_append,
        List.cons_append, List.length_cons, List.length_nil] <;>
      decide
  · cases h1 : Time.IsZero fromTime <;> cases h2 : Time.IsZero toTime <;>
      by_cases h3 : id = "" <;> by_cases h4 : action = "" <;> by_cases h5 : login = "" <;>
      simp [Postgres.historyQuery, activeFilters, h1, h2, h3, h4, h5]
  · cases h1 : Time.IsZero fromTime <;> cases h2 : Time.IsZero toTime <;>
      by_cases h3 : id = "" <;> by_cases h4 : action = "" <;> by_cases h5 : login = "" <;>
      simp [Postgres.historyQuery, h1, h2, h3, h4, h5]

/-! ## C30: reading an item that is not stored -/

/-- C30, the code at the failing input: on a healthy database without rows,
`Postgres.GetItem` answers a well-formed id with the zero-valued item and a nil error,
where `Postgres.GetUser` answers a missing login with `user not found`; hence
`ItemService.PutItem` on that id succeeds, writes the changed zero item to the store
and returns it, its ID the all-zero UUID and not the id that was asked for. -/
theorem missing_item_read_as_zero_item :
    emptyDb.GetItem someId = (some zeroItem, none) ∧
    emptyDb.GetUser "ghost" = (none, some (errorsNew "user not found")) ∧
    emptyItemService.GetItem someId = ((some zeroItem, none), [.GetItem someId]) ∧
    emptyItemService.PutItem someId "bolt" 1 (.num 5) "u1" "ann"
      = (.ok { ID := zeroItem.ID, Name := "bolt", Count := 1, Price := .num 5 },
         [.GetItem someId,
          .PutItem { ID := zeroItem.ID, Name := "bolt", Count := 1, Price := .num 5 }
            "u1" "ann"]) ∧
    uuidParse someId ≠ some zeroItem.ID := by
  refine ⟨rfl, rfl, ?_, ?_, by decide⟩
  · rfl
  · rfl

end WarehouseControl
